import Mathlib

/-!
# vaapi_egl_interop_example: a shallow embedding of the frame loop

The program (`src/vaapi_egl_interop_example.c`) is a single-threaded loop around
external libraries (libav, VA-API, EGL/OpenGL, X11).  The embedding keeps the control
flow of every function of the source and makes the outside world explicit:

* every value the program reads from a library call is a field of an input record
  (`IterInput` for one pass of the `while` loop of `main_loop`, `InitEnv` for start-up);
* every call that matters for the properties below is recorded, in program order, as an
  `Event`;
* `exit` is the constructor `Ctl.exit` of the control result, so that code after a call
  of `fail` is never executed by the model either.

C `int` values are `Int` and `uint32_t` values are `Nat`.  The frame counter, the one
`int` the loop increments without a bound, is stored with the 32-bit two's complement
wrap-around of the compiled program (`wrapInt32`); the conversion from `uint32_t` to `int`
that the source performs is written out (`toInt32`); the arithmetic of `resize_window` is
exact integer arithmetic with the truncating division of C.
-/

namespace VaapiEgl

/-! ## Constants of the library headers used by the source -/

/-- Value of `AVERROR(EAGAIN)` on Linux (`-EAGAIN`), from libavutil/error.h. -/
def AVERROR_EAGAIN : Int := -11

/-- Value of `AVERROR_EOF`, `-MKTAG('E','O','F',' ')`, from libavutil/error.h. -/
def AVERROR_EOF : Int := -541478725

/-- Value of `VA_STATUS_SUCCESS`, from va/va.h. -/
def VA_STATUS_SUCCESS : Int := 0

/-- Value of `VA_FOURCC_NV12` (the characters N, V, 1, 2), from va/va.h. -/
def VA_FOURCC_NV12 : Nat := 0x3231564E

/-- Value of `DRM_FORMAT_R8` (the characters R, 8, blank, blank), from drm_fourcc.h. -/
def DRM_FORMAT_R8 : Nat := 0x20203852

/-- Value of `DRM_FORMAT_GR88` (the characters G, R, 8, 8), from drm_fourcc.h. -/
def DRM_FORMAT_GR88 : Nat := 0x38385247

/-- The build-time switch `#define USE_LAYERS 1` of the source. -/
def USE_LAYERS : Bool := true

/-- The frame-skip levels of `enum AVDiscard` (libavcodec/defs.h). -/
inductive AVDiscard
  | AVDISCARD_NONE
  | AVDISCARD_DEFAULT
  | AVDISCARD_NONREF
  | AVDISCARD_BIDIR
  | AVDISCARD_NONINTRA
  | AVDISCARD_NONKEY
  | AVDISCARD_ALL
  deriving DecidableEq, Repr

/-- Conversion of a `uint32_t` value to `int` / `EGLint` (two's complement, 32 bit). -/
def toInt32 (n : Nat) : Int :=
  if n % 2 ^ 32 < 2 ^ 31 then ((n % 2 ^ 32 : Nat) : Int) else ((n % 2 ^ 32 : Nat) : Int) - 2 ^ 32

/-- The value stored in an `int` for the mathematical result `z` of an `int` operation:
`z` itself when it lies in the range of `int`, and its 32-bit two's complement
wrap-around otherwise (`INT_MAX + 1` is stored as `INT_MIN`). -/
def wrapInt32 (z : Int) : Int := (z + 2 ^ 31) % 2 ^ 32 - 2 ^ 31

/-- Conversion of a `long` to the 64-bit unsigned `Atom`. -/
def toAtom (z : Int) : Nat := (z % 2 ^ 64).toNat

/-! ## Data model -/

/-- A `float` obtained by the source, kept symbolic: either the literal `1.0f` or
`(float)((double) num / (double) den)`. -/
inductive TexCoord
  | one
  | quot (num : Int) (den : Nat)
  deriving DecidableEq, Repr

/-- The fields of `AVCodecContext` the program reads or writes. -/
structure AVCodecContext where
  width : Int
  height : Int
  skip_frame : AVDiscard
  deriving DecidableEq, Repr

/-- One entry of `VADRMPRIMESurfaceDescriptor.objects`. -/
structure PrimeObject where
  fd : Int
  deriving DecidableEq, Repr

/-- One entry of `VADRMPRIMESurfaceDescriptor.layers`. -/
structure PrimeLayer where
  drm_format : Nat
  object_index : List Nat
  offset : List Nat
  pitch : List Nat
  deriving DecidableEq, Repr

/-- The fields of `VADRMPRIMESurfaceDescriptor` the program reads.  The two arrays have
four entries in va_drmcommon.h; they are lists here and are read with `objectAt` and
`layerAt`. -/
structure VADRMPRIMESurfaceDescriptor where
  fourcc : Nat
  width : Nat
  height : Nat
  num_objects : Nat
  objects : List PrimeObject
  layers : List PrimeLayer
  deriving DecidableEq, Repr

/-- The array read `prime.objects[k]`. -/
def objectAt (prime : VADRMPRIMESurfaceDescriptor) (k : Nat) : PrimeObject :=
  prime.objects.getD k ⟨0⟩

/-- The array read `prime.layers[k]`. -/
def layerAt (prime : VADRMPRIMESurfaceDescriptor) (k : Nat) : PrimeLayer :=
  prime.layers.getD k ⟨0, [], [], []⟩

/-- The attribute list `img_attr` handed to `eglCreateImageKHR`. -/
structure ImgAttr where
  fourcc : Int
  width : Int
  height : Int
  fd : Int
  offset : Int
  pitch : Int
  deriving DecidableEq, Repr

/-- The X11 events the program distinguishes. `ClientMessage` carries
`ev.xclient.data.l[0]`, `KeyPress` the result of `XLookupKeysym`, `ConfigureNotify` the
new window size; `other` is any other event type. -/
inductive XEvent
  | ClientMessage (data0 : Int)
  | KeyPress (keysym : Nat)
  | ConfigureNotify (width height : Int)
  | other
  deriving DecidableEq, Repr

/-- The external calls of the program, in the order they are issued.  A call carries its
arguments and what it returned: `av_read_frame` its result and the `stream_index` of the
packet it filled in, `vaExportSurfaceHandle` its status and the descriptor it wrote,
`eglCreateImageKHR` the image handle (0 is `EGL_NO_IMAGE`), `glEGLImageTargetTexture2DOES`
and `glDrawArrays` the value of the `glGetError()` that the source reads right after them.
`error msg` is the `fprintf` of `fail`, `usage` the one of `show_help`; the loops
`while (glGetError()) {}` that only drain the error queue are not recorded. -/
inductive Event
  | usage
  | error (msg : String)
  | glViewport (x y width height : Int)
  | av_packet_unref
  | av_read_frame (ret : Int) (stream_index : Int)
  | avcodec_send_packet (ret : Int)
  | avcodec_receive_frame (ret : Int)
  | print_frame (frameno : Int)
  | vaExportSurfaceHandle (surface : Nat) (status : Int) (prime : VADRMPRIMESurfaceDescriptor)
  | vaSyncSurface (surface : Nat)
  | glUniform2f_uTexCoordScale (x y : TexCoord)
  | eglCreateImageKHR (attr : ImgAttr) (image : Nat)
  | glActiveTexture (unit : Nat)
  | glBindTexture (texture : Nat)
  | glEGLImageTargetTexture2DOES (image : Nat) (glGetError : Nat)
  | close (fd : Int)
  | glClear
  | glDrawArrays (glGetError : Nat)
  | eglSwapBuffers
  | eglDestroyImageKHR (image : Nat)
  | cleanup
  deriving DecidableEq, Repr

/-- How a piece of code ends: it returns a value, or the process has exited. -/
inductive Ctl (α : Type)
  | ret (a : α)
  | exit (code : Int)
  deriving DecidableEq, Repr

/-- The function `fail`: print the message naming the failed operation, `exit(1)`. -/
def fail {α : Type} (msg : String) : List Event × Ctl α :=
  ([Event.error msg], Ctl.exit 1)

/-- Sequencing: the calls `pre` are issued, then the code `r` runs. -/
def andThen {α : Type} (pre : List Event) (r : List Event × Ctl α) : List Event × Ctl α :=
  (pre ++ r.1, r.2)

/-- Run `r`; if it returned, go on with `f`; if the process exited, stop there. -/
def thenDo {α β : Type} (r : List Event × Ctl α) (f : α → List Event × Ctl β) :
    List Event × Ctl β :=
  match r with
  | (tr, Ctl.exit code) => (tr, Ctl.exit code)
  | (tr, Ctl.ret a) => andThen tr (f a)

/-- The function `show_help`: with fewer than two arguments print the usage line and
`exit(2)`. -/
def show_help (argc : Int) : List Event × Ctl Unit :=
  if argc < 2 then ([Event.usage], Ctl.exit 2) else ([], Ctl.ret ())

/-! ## `resize_window` -/

/-- The two locals `(display_width, display_height)` of `resize_window` at the call of
`glViewport`.  `/` of C on `int` is truncating division, `Int.tdiv`. -/
def resize_dims (screen_width screen_height : Int) (ctx : AVCodecContext) : Int × Int :=
  let display_width := screen_width
  let display_height := Int.tdiv (screen_width * ctx.height + Int.tdiv ctx.width 2) ctx.width
  if display_height > screen_height then
    (Int.tdiv (screen_height * ctx.width + Int.tdiv ctx.height 2) ctx.height, screen_height)
  else
    (display_width, display_height)

/-- The function `resize_window`: the `glViewport` call it issues. -/
def resize_window (screen_width screen_height : Int) (ctx : AVCodecContext) : List Event :=
  let d := resize_dims screen_width screen_height ctx
  [Event.glViewport (Int.tdiv (screen_width - d.1) 2) (Int.tdiv (screen_height - d.2) 2) d.1 d.2]

/-! ## `handle_x11_events` -/

/-- The body of the `while (XPending(..))` loop of `handle_x11_events` for one event:
the calls issued, the new value of `*running` and the new decoder context. -/
def handle_x11_event (WM_DELETE_WINDOW : Nat) (running : Bool) (ctx : AVCodecContext)
    (ev : XEvent) : List Event × Bool × AVCodecContext :=
  match ev with
  | XEvent.ClientMessage data0 =>
    if toAtom data0 = WM_DELETE_WINDOW then ([], false, ctx) else ([], running, ctx)
  | XEvent.KeyPress keysym =>
    if keysym = 'q'.toNat then ([], false, ctx)
    else if keysym = 'a'.toNat then
      ([], running, { ctx with skip_frame := AVDiscard.AVDISCARD_NONE })
    else if keysym = 'b'.toNat then
      ([], running, { ctx with skip_frame := AVDiscard.AVDISCARD_NONREF })
    else if keysym = 'p'.toNat then
      ([], running, { ctx with skip_frame := AVDiscard.AVDISCARD_BIDIR })
    else ([], running, ctx)
  | XEvent.ConfigureNotify width height => (resize_window width height ctx, running, ctx)
  | XEvent.other => ([], running, ctx)

/-- The function `handle_x11_events` on the list of pending events. -/
def handle_x11_events (WM_DELETE_WINDOW : Nat) (running : Bool) (ctx : AVCodecContext) :
    List XEvent → List Event × Bool × AVCodecContext
  | [] => ([], running, ctx)
  | ev :: rest =>
    let r := handle_x11_event WM_DELETE_WINDOW running ctx ev
    let r2 := handle_x11_events WM_DELETE_WINDOW r.2.1 r.2.2 rest
    (r.1 ++ r2.1, r2.2.1, r2.2.2)

/-! ## `retrieve_frame` -/

/-- What `retrieve_frame` leaves behind when it returns: its result and the three
variables it writes through pointers. -/
structure Retrieved where
  result : Bool
  want_new_packet : Bool
  frameno : Int
  va_surface : Nat
  deriving DecidableEq, Repr

/-- The function `retrieve_frame`. `ret` is the result of `avcodec_receive_frame`, `data3`
the pointer `frame->data[3]`; the other arguments are the values of `*want_new_packet`,
`*frameno` and `*va_surface` at the call.  `++*frameno` is an `int` increment. -/
def retrieve_frame (ret : Int) (data3 : Nat) (want_new_packet : Bool) (frameno : Int)
    (va_surface : Nat) : List Event × Ctl Retrieved :=
  if ret = AVERROR_EAGAIN ∨ ret = AVERROR_EOF then
    ([Event.avcodec_receive_frame ret], Ctl.ret ⟨false, true, frameno, va_surface⟩)
  else if ret < 0 then
    andThen [Event.avcodec_receive_frame ret] (fail "avcodec_receive_frame")
  else
    ([Event.avcodec_receive_frame ret, Event.print_frame (wrapInt32 (frameno + 1))],
      Ctl.ret ⟨true, want_new_packet, wrapInt32 (frameno + 1), data3 % 2 ^ 32⟩)

/-! ## `main_loop` -/

/-- The arguments of `main_loop` that stay fixed during the loop. -/
structure LoopConfig where
  video_stream : Int
  texture0 : Nat
  texture1 : Nat
  WM_DELETE_WINDOW : Nat
  deriving DecidableEq, Repr

/-- The variables of `main_loop` that live across passes of the `while` loop, and the
decoder context. -/
structure LoopState where
  running : Bool
  packet_valid : Bool
  want_new_packet : Bool
  frameno : Int
  texture_size_valid : Bool
  texcoord_x1 : TexCoord
  texcoord_y1 : TexCoord
  decoder_ctx : AVCodecContext
  deriving DecidableEq, Repr

/-- What the outside world answers during one pass of the `while` loop. A field is read
only if the pass reaches the call it belongs to. -/
structure IterInput where
  xevents : List XEvent
  read_ret : Int
  stream_index : Int
  send_ret : Int
  receive_ret : Int
  data3 : Nat
  export_status : Int
  prime : VADRMPRIMESurfaceDescriptor
  image0 : Nat
  bind_error0 : Nat
  image1 : Nat
  bind_error1 : Nat
  draw_error : Nat
  deriving DecidableEq, Repr

/-- How one pass of the `while` loop ends when the process does not exit: at the end of
the body or a `continue` (`again`), or at the `break` (`broke`). -/
inductive IterEnd
  | again (st : LoopState)
  | broke (st : LoopState)
  deriving DecidableEq, Repr

/-- The loop variables at the end of a pass. -/
def IterEnd.state : IterEnd → LoopState
  | IterEnd.again st => st
  | IterEnd.broke st => st

/-- The table `formats` of the import loop. -/
def formats (i : Nat) : Nat := if i = 0 then DRM_FORMAT_R8 else DRM_FORMAT_GR88

/-- The macro `LAYER` of the import loop. -/
def LAYER (i : Nat) : Nat := if USE_LAYERS then i else 0

/-- The macro `PLANE` of the import loop. -/
def PLANE (i : Nat) : Nat := if USE_LAYERS then 0 else i

/-- The initialiser of `img_attr` in pass `i` of the import loop (lines 461-469). The
`uint32_t` expressions are converted to `EGLint`. -/
def img_attr (prime : VADRMPRIMESurfaceDescriptor) (i : Nat) : ImgAttr :=
  { fourcc := toInt32 (formats i)
    width := toInt32 (prime.width / (i + 1))
    height := toInt32 (prime.height / (i + 1))
    fd := (objectAt prime ((layerAt prime (LAYER i)).object_index.getD (PLANE i) 0)).fd
    offset := toInt32 ((layerAt prime (LAYER i)).offset.getD (PLANE i) 0)
    pitch := toInt32 ((layerAt prime (LAYER i)).pitch.getD (PLANE i) 0) }

/-- Pass `i` of the import loop (lines 449-481): format check, `eglCreateImageKHR`
returning `image`, bind to `texture`, `glGetError()` returning `bind_error`. -/
def import_plane (prime : VADRMPRIMESurfaceDescriptor) (i : Nat) (texture image bind_error : Nat) :
    List Event × Ctl Unit :=
  if USE_LAYERS = true ∧ (layerAt prime i).drm_format ≠ formats i then
    fail "expected DRM format check"
  else
    andThen [Event.eglCreateImageKHR (img_attr prime i) image]
      (if image = 0 then
        fail (if i ≠ 0 then "chroma eglCreateImageKHR" else "luma eglCreateImageKHR")
      else
        andThen [Event.glActiveTexture i, Event.glBindTexture texture,
            Event.glEGLImageTargetTexture2DOES image bind_error]
          (if bind_error ≠ 0 then fail "glEGLImageTargetTexture2DOES" else ([], Ctl.ret ())))

/-- The loop of lines 482-484: `close` on `objects[i].fd` for `0 <= i < (int) num_objects`. -/
def close_fds (prime : VADRMPRIMESurfaceDescriptor) : List Event :=
  (List.range (toInt32 prime.num_objects).toNat).map (fun i => Event.close (objectAt prime i).fd)

/-- Pass `i` of the clean-up loop (lines 496-500). -/
def destroy_image (i image : Nat) : List Event :=
  [Event.glActiveTexture i, Event.glBindTexture 0, Event.eglDestroyImageKHR image]

/-- The four calls of a pass of the import loop in which nothing fails (lines 470-477):
the image is created, texture unit `i` is selected, the texture is bound and the image
attached to it, and `glGetError()` returns 0. -/
def import_ok (prime : VADRMPRIMESurfaceDescriptor) (i texture image : Nat) : List Event :=
  [Event.eglCreateImageKHR (img_attr prime i) image, Event.glActiveTexture i,
    Event.glBindTexture texture, Event.glEGLImageTargetTexture2DOES image 0]

/-- Lines 440-445 of `main_loop`: the first time through, compute the texture-coordinate
scale from the exported surface and set the uniform. -/
def set_scale (st : LoopState) (prime : VADRMPRIMESurfaceDescriptor) : List Event × LoopState :=
  if ¬ st.texture_size_valid then
    let x := TexCoord.quot st.decoder_ctx.width prime.width
    let y := TexCoord.quot st.decoder_ctx.height prime.height
    ([Event.glUniform2f_uTexCoordScale x y],
      { st with texcoord_x1 := x, texcoord_y1 := y, texture_size_valid := true })
  else ([], st)

/-- Lines 437-500 of `main_loop`: the part of the body after the format check of the
exported surface. -/
def present_frame (cfg : LoopConfig) (st : LoopState) (inp : IterInput) (va_surface : Nat) :
    List Event × Ctl IterEnd :=
  andThen ([Event.vaSyncSurface va_surface] ++ (set_scale st inp.prime).1)
    (thenDo (import_plane inp.prime 0 cfg.texture0 inp.image0 inp.bind_error0) fun _ =>
     thenDo (import_plane inp.prime 1 cfg.texture1 inp.image1 inp.bind_error1) fun _ =>
     andThen (close_fds inp.prime ++ [Event.glClear, Event.glDrawArrays inp.draw_error])
      (if inp.draw_error ≠ 0 then fail "drawing"
       else
        ([Event.eglSwapBuffers] ++ destroy_image 0 inp.image0 ++ destroy_image 1 inp.image1,
          Ctl.ret (IterEnd.again (set_scale st inp.prime).2))))

/-- The calls of lines 437-500 in a pass in which nothing fails, in order: synchronise,
set the scale if it is not yet valid, import both planes, close the exported handles,
draw, swap, destroy both images. -/
def shown_trace (cfg : LoopConfig) (st : LoopState) (inp : IterInput) (va_surface : Nat) :
    List Event :=
  [Event.vaSyncSurface va_surface] ++ (set_scale st inp.prime).1 ++
    import_ok inp.prime 0 cfg.texture0 inp.image0 ++
    import_ok inp.prime 1 cfg.texture1 inp.image1 ++ close_fds inp.prime ++
    [Event.glClear, Event.glDrawArrays 0, Event.eglSwapBuffers] ++
    destroy_image 0 inp.image0 ++ destroy_image 1 inp.image1

/-- Lines 419-500 of `main_loop`: retrieve a frame, export it, check the format, show it. -/
def decode_frame (cfg : LoopConfig) (st : LoopState) (inp : IterInput) :
    List Event × Ctl IterEnd :=
  thenDo (retrieve_frame inp.receive_ret inp.data3 st.want_new_packet st.frameno 0) fun r =>
    let st1 := { st with want_new_packet := r.want_new_packet, frameno := r.frameno }
    if ¬ r.result then ([], Ctl.ret (IterEnd.again st1))
    else
      andThen [Event.vaExportSurfaceHandle r.va_surface inp.export_status inp.prime]
        (if inp.export_status ≠ VA_STATUS_SUCCESS then fail "vaExportSurfaceHandle"
         else if inp.prime.fourcc ≠ VA_FOURCC_NV12 then fail "export format check"
         else present_frame cfg st1 inp r.va_surface)

/-- Lines 399-402 of `main_loop`, the head of the loop body: handle the pending X11
events, then release the packet of the previous pass if there is one. -/
def begin_pass (cfg : LoopConfig) (st : LoopState) (inp : IterInput) : List Event × LoopState :=
  let h := handle_x11_events cfg.WM_DELETE_WINDOW st.running st.decoder_ctx inp.xevents
  (h.1 ++ (if st.packet_valid then [Event.av_packet_unref] else []),
    { st with running := h.2.1, decoder_ctx := h.2.2, packet_valid := false })

/-- The body of the `while` loop of `main_loop` (lines 399-500). -/
def loop_body (cfg : LoopConfig) (st : LoopState) (inp : IterInput) : List Event × Ctl IterEnd :=
  let b := begin_pass cfg st inp
  andThen b.1
    (if b.2.want_new_packet then
      andThen [Event.av_read_frame inp.read_ret inp.stream_index]
        (if inp.read_ret < 0 then ([], Ctl.ret (IterEnd.broke b.2))
         else if inp.stream_index ≠ cfg.video_stream then
          ([], Ctl.ret (IterEnd.again { b.2 with packet_valid := true }))
         else
          andThen [Event.avcodec_send_packet inp.send_ret]
            (if inp.send_ret < 0 then fail "avcodec_send_packet"
             else
              decode_frame cfg { b.2 with packet_valid := true, want_new_packet := false } inp))
     else decode_frame cfg b.2 inp)

/-- Why `main_loop` returned: `av_read_frame` reported the end of the stream (`break`), or
the loop condition `running` was false. -/
inductive LoopExit
  | end_of_stream
  | not_running
  deriving DecidableEq, Repr

/-- The result of running the loop on a finite list of inputs: the loop was left, the
process exited, or the inputs ran out while the loop was still going (`pending`). -/
inductive LoopResult
  | returned (st : LoopState) (why : LoopExit)
  | exited (code : Int)
  | pending (st : LoopState)
  deriving DecidableEq, Repr

/-- The `while (running)` loop of `main_loop`, one `IterInput` per pass. -/
def while_running (cfg : LoopConfig) : LoopState → List IterInput → List Event × LoopResult
  | st, [] =>
    if st.running then ([], LoopResult.pending st)
    else ([], LoopResult.returned st LoopExit.not_running)
  | st, inp :: rest =>
    if st.running then
      match loop_body cfg st inp with
      | (tr, Ctl.exit code) => (tr, LoopResult.exited code)
      | (tr, Ctl.ret (IterEnd.broke st1)) => (tr, LoopResult.returned st1 LoopExit.end_of_stream)
      | (tr, Ctl.ret (IterEnd.again st1)) =>
        let r := while_running cfg st1 rest
        (tr ++ r.1, r.2)
    else ([], LoopResult.returned st LoopExit.not_running)

/-! ## Start-up and `main` -/

/-- What the outside world answers during start-up.  A `Bool` field says that the call
returned a usable (non-null) result; the other fields are the values returned. -/
structure InitEnv where
  XOpenDisplay : Bool
  vaGetDisplay : Bool
  vaInitialize : Int
  avformat_open_input : Int
  avformat_find_stream_info : Int
  av_find_best_stream : Int
  avcodec_alloc_context3 : Bool
  avcodec_parameters_to_context : Int
  av_hwdevice_ctx_alloc : Bool
  av_hwdevice_ctx_init : Int
  avcodec_open2 : Int
  decoder_ctx : AVCodecContext
  XCreateWindow : Nat
  XInternAtom : Nat
  eglGetDisplay : Bool
  eglInitialize : Bool
  eglBindAPI : Bool
  eglChooseConfig : Bool
  cfg_count : Int
  eglCreateWindowSurface : Bool
  eglCreateContext : Bool
  lookup_glGenVertexArrays : Bool
  lookup_glBindVertexArray : Bool
  glCreateProgram : Nat
  glCreateShader_vs : Nat
  glCreateShader_fs : Nat
  compile_vs_error : Nat
  compile_vs_ok : Int
  compile_fs_error : Nat
  compile_fs_ok : Int
  link_error : Nat
  texture0 : Nat
  texture1 : Nat
  vp_width : Int
  vp_height : Int
  av_frame_alloc : Bool
  lookup_eglCreateImageKHR : Bool
  lookup_eglDestroyImageKHR : Bool
  lookup_glEGLImageTargetTexture2DOES : Bool
  deriving DecidableEq, Repr

/-- Value of `GL_TRUE`, from GL/gl.h. -/
def GL_TRUE : Int := 1

/-- The function `open_x11_display`. -/
def open_x11_display (env : InitEnv) : List Event × Ctl Unit :=
  if ¬ env.XOpenDisplay then fail "XOpenDisplay" else ([], Ctl.ret ())

/-- The function `initialize_vaapi`. -/
def initialize_vaapi (env : InitEnv) : List Event × Ctl Unit :=
  if ¬ env.vaGetDisplay then fail "vaGetDisplay"
  else if env.vaInitialize ≠ VA_STATUS_SUCCESS then fail "vaInitialize"
  else ([], Ctl.ret ())

/-- The function `open_source`; its result is `*video_stream`. -/
def open_source (env : InitEnv) : List Event × Ctl Int :=
  if env.avformat_open_input ≠ 0 then fail "avformat_open_input"
  else if env.avformat_find_stream_info < 0 then fail "avformat_find_stream_info"
  else if env.av_find_best_stream < 0 then fail "av_find_best_stream"
  else if ¬ env.avcodec_alloc_context3 then fail "avcodec_alloc_context3"
  else if env.avcodec_parameters_to_context < 0 then fail "avcodec_parameters_to_context"
  else ([], Ctl.ret env.av_find_best_stream)

/-- The function `populate_context`; its result is the opened decoder context. -/
def populate_context (env : InitEnv) : List Event × Ctl AVCodecContext :=
  if ¬ env.av_hwdevice_ctx_alloc then fail "av_hwdevice_ctx_alloc"
  else if env.av_hwdevice_ctx_init < 0 then fail "av_hwdevice_ctx_init"
  else if env.avcodec_open2 < 0 then fail "avcodec_open2"
  else ([], Ctl.ret env.decoder_ctx)

/-- The function `create_x11_window`; its result is the atom `WM_DELETE_WINDOW`. -/
def create_x11_window (env : InitEnv) : List Event × Ctl Nat :=
  if env.XCreateWindow = 0 then fail "XCreateWindow" else ([], Ctl.ret env.XInternAtom)

/-- The function `initialize_egl`. -/
def initialize_egl (env : InitEnv) : List Event × Ctl Unit :=
  if ¬ env.eglGetDisplay then fail "eglGetDisplay"
  else if ¬ env.eglInitialize then fail "eglInitialize"
  else if ¬ env.eglBindAPI then fail "eglBindAPI"
  else ([], Ctl.ret ())

/-- The function `create_opengl_ctx`. -/
def create_opengl_ctx (env : InitEnv) : List Event × Ctl Unit :=
  if ¬ env.eglChooseConfig ∨ env.cfg_count < 1 then fail "eglChooseConfig"
  else if ¬ env.eglCreateWindowSurface then fail "eglCreateWindowSurface"
  else if ¬ env.eglCreateContext then fail "eglCreateContext"
  else ([], Ctl.ret ())

/-- The function `opengl_shader_setup`. -/
def opengl_shader_setup (env : InitEnv) : List Event × Ctl Unit :=
  if ¬ env.lookup_glGenVertexArrays then fail "eglGetProcAddress(glGenVertexArrays)"
  else if ¬ env.lookup_glBindVertexArray then fail "eglGetProcAddress(glBindVertexArray)"
  else if env.glCreateProgram = 0 then fail "glCreateProgram"
  else if env.glCreateShader_vs = 0 ∨ env.glCreateShader_fs = 0 then fail "glCreateShader"
  else if env.compile_vs_error ≠ 0 ∨ env.compile_vs_ok ≠ GL_TRUE then
    fail "glCompileShader(GL_VERTEX_SHADER)"
  else if env.compile_fs_error ≠ 0 ∨ env.compile_fs_ok ≠ GL_TRUE then
    fail "glCompileShader(GL_FRAGMENT_SHADER)"
  else if env.link_error ≠ 0 then fail "glLinkProgram"
  else ([], Ctl.ret ())

/-- The three `LOOKUP_FUNCTION`s at the head of `main_loop`. -/
def lookup_functions (env : InitEnv) : List Event × Ctl Unit :=
  if ¬ env.lookup_eglCreateImageKHR then fail "eglGetProcAddress(eglCreateImageKHR)"
  else if ¬ env.lookup_eglDestroyImageKHR then fail "eglGetProcAddress(eglDestroyImageKHR)"
  else if ¬ env.lookup_glEGLImageTargetTexture2DOES then
    fail "eglGetProcAddress(glEGLImageTargetTexture2DOES)"
  else ([], Ctl.ret ())

/-- The function `main_loop`: the three `LOOKUP_FUNCTION`s, the two locals
`want_new_packet = true` and `frameno = 0`, then the `while` loop.  The other loop
variables are the arguments `main` passes, here the fields of `st`. -/
def main_loop (env : InitEnv) (cfg : LoopConfig) (st : LoopState) (script : List IterInput) :
    List Event × LoopResult :=
  match lookup_functions env with
  | (tr, Ctl.exit code) => (tr, LoopResult.exited code)
  | (tr, Ctl.ret _) =>
    let r := while_running cfg { st with want_new_packet := true, frameno := 0 } script
    (tr ++ r.1, r.2)

/-- The loop variables at the first pass: the values `main` hands to `main_loop` (lines
545-553: no packet yet, `running`, texture size not yet known, both scales `1.0f`) and
the initial values of the two locals of `main_loop`, `want_new_packet = true` and
`frameno = 0`. -/
def initial_state (ctx : AVCodecContext) : LoopState :=
  { running := true, packet_valid := false, want_new_packet := true, frameno := 0,
    texture_size_valid := false, texcoord_x1 := TexCoord.one, texcoord_y1 := TexCoord.one,
    decoder_ctx := ctx }

/-- Start-up, lines 505-542 of `main`: what `main_loop` is called with. -/
def startup (argc : Int) (env : InitEnv) : List Event × Ctl (LoopConfig × LoopState) :=
  thenDo (show_help argc) fun _ =>
  thenDo (open_x11_display env) fun _ =>
  thenDo (initialize_vaapi env) fun _ =>
  thenDo (open_source env) fun video_stream =>
  thenDo (populate_context env) fun decoder_ctx =>
  thenDo (create_x11_window env) fun WM_DELETE_WINDOW =>
  thenDo (initialize_egl env) fun _ =>
  thenDo (create_opengl_ctx env) fun _ =>
  thenDo (opengl_shader_setup env) fun _ =>
  andThen (resize_window env.vp_width env.vp_height decoder_ctx)
    (if ¬ env.av_frame_alloc then fail "av_frame_alloc"
     else
      ([], Ctl.ret (⟨video_stream, env.texture0, env.texture1, WM_DELETE_WINDOW⟩,
        initial_state decoder_ctx)))

/-- The function `main`: the calls issued and the exit code of the process; `none` when
the inputs ran out while the loop was still going. -/
def main (argc : Int) (env : InitEnv) (script : List IterInput) : List Event × Option Int :=
  match startup argc env with
  | (tr, Ctl.exit code) => (tr, some code)
  | (tr, Ctl.ret (cfg, st)) =>
    match main_loop env cfg st script with
    | (tr1, LoopResult.exited code) => (tr ++ tr1, some code)
    | (tr1, LoopResult.pending _) => (tr ++ tr1, none)
    | (tr1, LoopResult.returned _ _) => (tr ++ tr1 ++ [Event.cleanup], some 0)

/-! ## Definitions used to state the claims -/

/-- The frame-skip level after one X11 event, as the three decode-quality keys set it:
`a` decodes all frames, `b` skips non-reference frames, `p` skips bidirectional frames;
any other event leaves the level as it is. -/
def skip_level_after_key (level : AVDiscard) (ev : XEvent) : AVDiscard :=
  if ev = XEvent.KeyPress 'a'.toNat then AVDiscard.AVDISCARD_NONE
  else if ev = XEvent.KeyPress 'b'.toNat then AVDiscard.AVDISCARD_NONREF
  else if ev = XEvent.KeyPress 'p'.toNat then AVDiscard.AVDISCARD_BIDIR
  else level

/-- A call of `glEGLImageTargetTexture2DOES` after which `glGetError()` returned 0: a
texture bind that succeeded. -/
def bound_ok : Event → Bool
  | Event.glEGLImageTargetTexture2DOES _ err => err = 0
  | _ => false

/-- A call of `eglCreateImageKHR` that returned an image. -/
def is_create : Event → Bool
  | Event.eglCreateImageKHR _ image => image ≠ 0
  | _ => false

/-- A call of `eglDestroyImageKHR`. -/
def is_destroy : Event → Bool
  | Event.eglDestroyImageKHR _ => true
  | _ => false

/-- A call that sets the uniform `uTexCoordScale`. -/
def is_set_scale : Event → Bool
  | Event.glUniform2f_uTexCoordScale _ _ => true
  | _ => false

/-- A call of `vaExportSurfaceHandle` that succeeded and returned an NV12 surface. -/
def is_nv12_export : Event → Bool
  | Event.vaExportSurfaceHandle _ status prime =>
    decide (status = VA_STATUS_SUCCESS ∧ prime.fourcc = VA_FOURCC_NV12)
  | _ => false

/-- A call of `eglCreateImageKHR`, whatever it returned. -/
def is_create_call : Event → Bool
  | Event.eglCreateImageKHR _ _ => true
  | _ => false

/-- The memory-object handles of an exported surface: `objects[k].fd` for
`0 <= k < num_objects`. -/
def exported_fds (prime : VADRMPRIMESurfaceDescriptor) : List Int :=
  (List.range prime.num_objects).map (fun k => (objectAt prime k).fd)

/-- The loop variables a run ends with, when the process has not exited. -/
def LoopResult.final_state : LoopResult → Option LoopState
  | LoopResult.returned st _ => some st
  | LoopResult.pending st => some st
  | LoopResult.exited _ => none

/-- An event that stops the loop: the key `q`, or the window manager's close message. -/
def is_quit (wm : Nat) : XEvent → Bool
  | XEvent.ClientMessage data0 => toAtom data0 = wm
  | XEvent.KeyPress keysym => keysym = 'q'.toNat
  | _ => false

/-- The process leaves the code `r` only through `fail`: if `r` exits, the exit code is 1
and the message of `fail` was printed; if `r` returns, no such message was printed. -/
def exits_only_by_fail {α : Type} (r : List Event × Ctl α) : Prop :=
  (∀ code, r.2 = Ctl.exit code → code = 1 ∧ ∃ msg, Event.error msg ∈ r.1) ∧
  (∀ a, r.2 = Ctl.ret a → ∀ msg, Event.error msg ∉ r.1)

/-- The packet bookkeeping read off a list of calls.  `held` says that a packet has been
read and not yet unreferenced.  An `av_read_frame` is allowed only while no packet is
held, and leaves one held exactly when it succeeded; an `av_packet_unref` is allowed only
on a held packet and releases it; other calls change nothing.  The result is the value of
`held` after the last call, or `none` if a call was not allowed. -/
def packet_scan : Bool → List Event → Option Bool
  | held, [] => some held
  | held, Event.av_read_frame ret _ :: rest =>
    if held then none else packet_scan (decide (0 ≤ ret)) rest
  | held, Event.av_packet_unref :: rest => if held then packet_scan false rest else none
  | held, _ :: rest => packet_scan held rest

/-- A call that is neither an `av_read_frame` nor an `av_packet_unref`. -/
def packet_neutral : Event → Bool
  | Event.av_read_frame _ _ => false
  | Event.av_packet_unref => false
  | _ => true

/-! ## Sample inputs -/

/-- A 1280x720 stream. -/
def sample_ctx : AVCodecContext := ⟨1280, 720, AVDiscard.AVDISCARD_DEFAULT⟩

/-- Video stream 0, textures 1 and 2. -/
def sample_cfg : LoopConfig := ⟨0, 1, 2, 77⟩

/-- An NV12 surface of 1280x736 in two memory objects, one layer per plane. -/
def sample_prime : VADRMPRIMESurfaceDescriptor :=
  { fourcc := VA_FOURCC_NV12, width := 1280, height := 736, num_objects := 2,
    objects := [⟨10⟩, ⟨11⟩],
    layers := [⟨DRM_FORMAT_R8, [0], [0], [1280]⟩, ⟨DRM_FORMAT_GR88, [1], [0], [1280]⟩] }

/-- A pass in which every call succeeds: a video packet is read and decoded, the frame is
exported as `sample_prime`, imported as images 100 and 101, drawn and shown. -/
def sample_input : IterInput :=
  { xevents := [], read_ret := 0, stream_index := 0, send_ret := 0, receive_ret := 0, data3 := 5,
    export_status := 0, prime := sample_prime, image0 := 100, bind_error0 := 0, image1 := 101,
    bind_error1 := 0, draw_error := 0 }

/-- A pass in which `av_read_frame` reports the end of the stream. -/
def end_of_stream_input : IterInput := { sample_input with read_ret := -1 }

/-- An NV12 surface of odd size, 3x5. -/
def odd_prime : VADRMPRIMESurfaceDescriptor := { sample_prime with width := 3, height := 5 }

/-- Start-up answers with which every call of start-up succeeds. -/
def sample_env : InitEnv :=
  { XOpenDisplay := true, vaGetDisplay := true, vaInitialize := 0, avformat_open_input := 0,
    avformat_find_stream_info := 0, av_find_best_stream := 0, avcodec_alloc_context3 := true,
    avcodec_parameters_to_context := 0, av_hwdevice_ctx_alloc := true,
    av_hwdevice_ctx_init := 0, avcodec_open2 := 0, decoder_ctx := sample_ctx,
    XCreateWindow := 1, XInternAtom := 77, eglGetDisplay := true, eglInitialize := true,
    eglBindAPI := true, eglChooseConfig := true, cfg_count := 1,
    eglCreateWindowSurface := true, eglCreateContext := true,
    lookup_glGenVertexArrays := true, lookup_glBindVertexArray := true, glCreateProgram := 1,
    glCreateShader_vs := 2, glCreateShader_fs := 3, compile_vs_error := 0, compile_vs_ok := 1,
    compile_fs_error := 0, compile_fs_ok := 1, link_error := 0, texture0 := 1, texture1 := 2,
    vp_width := 1280, vp_height := 720, av_frame_alloc := true,
    lookup_eglCreateImageKHR := true, lookup_eglDestroyImageKHR := true,
    lookup_glEGLImageTargetTexture2DOES := true }

/-! ## Lemmas on the control flow -/

@[simp] theorem andThen_fst {α : Type} (pre : List Event) (r : List Event × Ctl α) :
    (andThen pre r).1 = pre ++ r.1 := rfl

@[simp] theorem andThen_snd {α : Type} (pre : List Event) (r : List Event × Ctl α) :
    (andThen pre r).2 = r.2 := rfl

@[simp] theorem fail_fst {α : Type} (msg : String) :
    (fail msg : List Event × Ctl α).1 = [Event.error msg] := rfl

@[simp] theorem fail_snd {α : Type} (msg : String) :
    (fail msg : List Event × Ctl α).2 = Ctl.exit 1 := rfl

@[simp] theorem thenDo_ret {α β : Type} (tr : List Event) (a : α) (f : α → List Event × Ctl β) :
    thenDo (tr, Ctl.ret a) f = andThen tr (f a) := rfl

@[simp] theorem thenDo_exit {α β : Type} (tr : List Event) (code : Int)
    (f : α → List Event × Ctl β) : thenDo (tr, Ctl.exit code) f = (tr, Ctl.exit code) := rfl

/-- Every call issued by `handle_x11_events` is a `glViewport`. -/
theorem handle_x11_events_trace (wm : Nat) (evs : List XEvent) :
    ∀ (running : Bool) (ctx : AVCodecContext) (e : Event),
      e ∈ (handle_x11_events wm running ctx evs).1 → ∃ x y w h, e = Event.glViewport x y w h := by
  induction evs with
  | nil => intro r c e h; simp [handle_x11_events] at h
  | cons ev rest ih =>
    intro r c e h
    simp only [handle_x11_events, List.mem_append] at h
    rcases h with h | h
    · cases ev with
      | ClientMessage d => simp [handle_x11_event] at h; split at h <;> simp at h
      | KeyPress k => simp only [handle_x11_event] at h; split_ifs at h <;> simp at h
      | ConfigureNotify w hh =>
        simp [handle_x11_event, resize_window] at h
        exact ⟨_, _, _, _, h⟩
      | other => simp [handle_x11_event] at h
    · exact ih _ _ e h

/-- Every call issued at the head of a pass is a `glViewport` or the `av_packet_unref`. -/
theorem begin_pass_trace (cfg : LoopConfig) (st : LoopState) (inp : IterInput) (e : Event)
    (h : e ∈ (begin_pass cfg st inp).1) :
    (∃ x y w h, e = Event.glViewport x y w h) ∨ e = Event.av_packet_unref := by
  simp only [begin_pass, List.mem_append] at h
  rcases h with h | h
  · exact Or.inl (handle_x11_events_trace _ _ _ _ e h)
  · split at h <;> simp at h
    exact Or.inr h

/-- The four ways one pass of the import loop can go. -/
theorem import_plane_cases (prime : VADRMPRIMESurfaceDescriptor) (i texture image err : Nat) :
    ((layerAt prime i).drm_format ≠ formats i ∧
      import_plane prime i texture image err =
        ([Event.error "expected DRM format check"], Ctl.exit 1)) ∨
    (((layerAt prime i).drm_format = formats i ∧ image = 0) ∧
      import_plane prime i texture image err =
        ([Event.eglCreateImageKHR (img_attr prime i) image,
          Event.error (if i ≠ 0 then "chroma eglCreateImageKHR" else "luma eglCreateImageKHR")],
         Ctl.exit 1)) ∨
    (((layerAt prime i).drm_format = formats i ∧ image ≠ 0 ∧ err ≠ 0) ∧
      import_plane prime i texture image err =
        ([Event.eglCreateImageKHR (img_attr prime i) image, Event.glActiveTexture i,
          Event.glBindTexture texture, Event.glEGLImageTargetTexture2DOES image err,
          Event.error "glEGLImageTargetTexture2DOES"], Ctl.exit 1)) ∨
    (((layerAt prime i).drm_format = formats i ∧ image ≠ 0 ∧ err = 0) ∧
      import_plane prime i texture image err = (import_ok prime i texture image, Ctl.ret ())) := by
  unfold import_plane
  by_cases hf : (layerAt prime i).drm_format = formats i
  · by_cases hi : image = 0
    · right; left
      simp [hf, hi, andThen, fail]
    · by_cases he : err = 0
      · right; right; right
        simp [hf, hi, he, andThen, import_ok]
      · right; right; left
        simp [hf, hi, he, andThen, fail]
  · left
    simp [hf, USE_LAYERS, fail]

/-- The eight ways lines 437-500 can go: one of the two passes of the import loop stops at
the format check, at `eglCreateImageKHR` or at the bind; the draw call reports an error; or
the frame is shown. -/
theorem present_frame_cases (cfg : LoopConfig) (st : LoopState) (inp : IterInput) (s : Nat) :
    (((layerAt inp.prime 0).drm_format ≠ formats 0) ∧
      present_frame cfg st inp s =
        ([Event.vaSyncSurface s] ++ (set_scale st inp.prime).1 ++
          [Event.error "expected DRM format check"], Ctl.exit 1)) ∨
    (((layerAt inp.prime 0).drm_format = formats 0 ∧ inp.image0 = 0) ∧
      present_frame cfg st inp s =
        ([Event.vaSyncSurface s] ++ (set_scale st inp.prime).1 ++
          [Event.eglCreateImageKHR (img_attr inp.prime 0) inp.image0,
          Event.error "luma eglCreateImageKHR"], Ctl.exit 1)) ∨
    (((layerAt inp.prime 0).drm_format = formats 0 ∧ inp.image0 ≠ 0 ∧
        inp.bind_error0 ≠ 0) ∧
      present_frame cfg st inp s =
        ([Event.vaSyncSurface s] ++ (set_scale st inp.prime).1 ++
          [Event.eglCreateImageKHR (img_attr inp.prime 0) inp.image0, Event.glActiveTexture 0,
          Event.glBindTexture cfg.texture0,
          Event.glEGLImageTargetTexture2DOES inp.image0 inp.bind_error0,
          Event.error "glEGLImageTargetTexture2DOES"], Ctl.exit 1)) ∨
    (((layerAt inp.prime 0).drm_format = formats 0 ∧ inp.image0 ≠ 0 ∧ inp.bind_error0 = 0 ∧
        (layerAt inp.prime 1).drm_format ≠ formats 1) ∧
      present_frame cfg st inp s =
        ([Event.vaSyncSurface s] ++ (set_scale st inp.prime).1 ++ import_ok inp.prime 0 cfg.texture0 inp.image0 ++
          [Event.error "expected DRM format check"], Ctl.exit 1)) ∨
    (((layerAt inp.prime 0).drm_format = formats 0 ∧ inp.image0 ≠ 0 ∧ inp.bind_error0 = 0 ∧
        (layerAt inp.prime 1).drm_format = formats 1 ∧ inp.image1 = 0) ∧
      present_frame cfg st inp s =
        ([Event.vaSyncSurface s] ++ (set_scale st inp.prime).1 ++ import_ok inp.prime 0 cfg.texture0 inp.image0 ++
          [Event.eglCreateImageKHR (img_attr inp.prime 1) inp.image1,
          Event.error "chroma eglCreateImageKHR"], Ctl.exit 1)) ∨
    (((layerAt inp.prime 0).drm_format = formats 0 ∧ inp.image0 ≠ 0 ∧ inp.bind_error0 = 0 ∧
        (layerAt inp.prime 1).drm_format = formats 1 ∧ inp.image1 ≠ 0 ∧
        inp.bind_error1 ≠ 0) ∧
      present_frame cfg st inp s =
        ([Event.vaSyncSurface s] ++ (set_scale st inp.prime).1 ++ import_ok inp.prime 0 cfg.texture0 inp.image0 ++
          [Event.eglCreateImageKHR (img_attr inp.prime 1) inp.image1, Event.glActiveTexture 1,
          Event.glBindTexture cfg.texture1,
          Event.glEGLImageTargetTexture2DOES inp.image1 inp.bind_error1,
          Event.error "glEGLImageTargetTexture2DOES"], Ctl.exit 1)) ∨
    (((layerAt inp.prime 0).drm_format = formats 0 ∧ inp.image0 ≠ 0 ∧ inp.bind_error0 = 0 ∧
        (layerAt inp.prime 1).drm_format = formats 1 ∧ inp.image1 ≠ 0 ∧ inp.bind_error1 = 0 ∧
        inp.draw_error ≠ 0) ∧
      present_frame cfg st inp s =
        ([Event.vaSyncSurface s] ++ (set_scale st inp.prime).1 ++ import_ok inp.prime 0 cfg.texture0 inp.image0 ++
          import_ok inp.prime 1 cfg.texture1 inp.image1 ++ close_fds inp.prime ++
          [Event.glClear, Event.glDrawArrays inp.draw_error, Event.error "drawing"],
         Ctl.exit 1)) ∨
    (((layerAt inp.prime 0).drm_format = formats 0 ∧ inp.image0 ≠ 0 ∧ inp.bind_error0 = 0 ∧
        (layerAt inp.prime 1).drm_format = formats 1 ∧ inp.image1 ≠ 0 ∧ inp.bind_error1 = 0 ∧
        inp.draw_error = 0) ∧
      present_frame cfg st inp s =
        (shown_trace cfg st inp s, Ctl.ret (IterEnd.again (set_scale st inp.prime).2))) := by
  unfold present_frame
  rcases import_plane_cases inp.prime 0 cfg.texture0 inp.image0 inp.bind_error0 with
    h0 | h0 | h0 | h0
  · left
    rw [h0.2]
    simp [andThen, h0.1]
  · right; left
    rw [h0.2]
    simp [andThen, h0.1]
  · right; right; left
    rw [h0.2]
    simp [andThen, h0.1]
  · right; right; right
    rw [h0.2]
    rcases import_plane_cases inp.prime 1 cfg.texture1 inp.image1 inp.bind_error1 with
      h1 | h1 | h1 | h1
    · left
      rw [h1.2]
      simp [andThen, h0.1, h1.1]
    · right; left
      rw [h1.2]
      simp [andThen, h0.1, h1.1]
    · right; right; left
      rw [h1.2]
      simp [andThen, h0.1, h1.1]
    · right; right; right
      rw [h1.2]
      by_cases hd : inp.draw_error = 0
      · right
        simp [andThen, h0.1, h1.1, hd, shown_trace]
      · left
        simp [andThen, h0.1, h1.1, hd, fail]

/-- The three ways `retrieve_frame` can go. -/
theorem retrieve_frame_cases (ret : Int) (data3 : Nat) (want : Bool) (frameno : Int) (surf : Nat) :
    ((ret = AVERROR_EAGAIN ∨ ret = AVERROR_EOF) ∧
      retrieve_frame ret data3 want frameno surf =
        ([Event.avcodec_receive_frame ret], Ctl.ret ⟨false, true, frameno, surf⟩)) ∨
    (ret < 0 ∧ ret ≠ AVERROR_EAGAIN ∧ ret ≠ AVERROR_EOF ∧
      retrieve_frame ret data3 want frameno surf =
        ([Event.avcodec_receive_frame ret, Event.error "avcodec_receive_frame"], Ctl.exit 1)) ∨
    (0 ≤ ret ∧
      retrieve_frame ret data3 want frameno surf =
        ([Event.avcodec_receive_frame ret, Event.print_frame (wrapInt32 (frameno + 1))],
          Ctl.ret ⟨true, want, wrapInt32 (frameno + 1), data3 % 2 ^ 32⟩)) := by
  by_cases h : ret = AVERROR_EAGAIN ∨ ret = AVERROR_EOF
  · left
    exact ⟨h, by simp [retrieve_frame, h]⟩
  · right
    have h2 : ret ≠ AVERROR_EAGAIN := fun e => h (Or.inl e)
    have h3 : ret ≠ AVERROR_EOF := fun e => h (Or.inr e)
    by_cases hneg : ret < 0
    · left
      exact ⟨hneg, h2, h3, by simp [retrieve_frame, h2, h3, hneg, andThen, fail]⟩
    · right
      exact ⟨not_lt.mp hneg, by simp [retrieve_frame, h2, h3, hneg]⟩

/-- The five ways lines 419-500 can go: no frame yet, the decoder failed, the export
failed, the exported surface is not NV12, or the frame goes on to lines 437-500. -/
theorem decode_frame_cases (cfg : LoopConfig) (st : LoopState) (inp : IterInput) :
    ((inp.receive_ret = AVERROR_EAGAIN ∨ inp.receive_ret = AVERROR_EOF) ∧
      decode_frame cfg st inp =
        ([Event.avcodec_receive_frame inp.receive_ret],
          Ctl.ret (IterEnd.again { st with want_new_packet := true }))) ∨
    (inp.receive_ret < 0 ∧
      decode_frame cfg st inp =
        ([Event.avcodec_receive_frame inp.receive_ret, Event.error "avcodec_receive_frame"],
          Ctl.exit 1)) ∨
    ((0 ≤ inp.receive_ret ∧ inp.export_status ≠ VA_STATUS_SUCCESS) ∧
      decode_frame cfg st inp =
        ([Event.avcodec_receive_frame inp.receive_ret, Event.print_frame (wrapInt32 (st.frameno + 1)),
          Event.vaExportSurfaceHandle (inp.data3 % 2 ^ 32) inp.export_status inp.prime,
          Event.error "vaExportSurfaceHandle"], Ctl.exit 1)) ∨
    ((0 ≤ inp.receive_ret ∧ inp.export_status = VA_STATUS_SUCCESS ∧
        inp.prime.fourcc ≠ VA_FOURCC_NV12) ∧
      decode_frame cfg st inp =
        ([Event.avcodec_receive_frame inp.receive_ret, Event.print_frame (wrapInt32 (st.frameno + 1)),
          Event.vaExportSurfaceHandle (inp.data3 % 2 ^ 32) inp.export_status inp.prime,
          Event.error "export format check"], Ctl.exit 1)) ∨
    ((0 ≤ inp.receive_ret ∧ inp.export_status = VA_STATUS_SUCCESS ∧
        inp.prime.fourcc = VA_FOURCC_NV12) ∧
      decode_frame cfg st inp =
        andThen [Event.avcodec_receive_frame inp.receive_ret, Event.print_frame (wrapInt32 (st.frameno + 1)),
          Event.vaExportSurfaceHandle (inp.data3 % 2 ^ 32) inp.export_status inp.prime]
          (present_frame cfg { st with frameno := wrapInt32 (st.frameno + 1) } inp (inp.data3 % 2 ^ 32))) := by
  unfold decode_frame
  rcases retrieve_frame_cases inp.receive_ret inp.data3 st.want_new_packet st.frameno 0 with
    h | h | h
  · left
    refine ⟨h.1, ?_⟩
    rw [h.2]
    simp [andThen]
  · right; left
    refine ⟨h.1, ?_⟩
    rw [h.2.2.2]
    simp
  · right; right
    rw [h.2]
    by_cases hs : inp.export_status = VA_STATUS_SUCCESS
    · right
      by_cases hf : inp.prime.fourcc = VA_FOURCC_NV12
      · right
        refine ⟨⟨h.1, hs, hf⟩, ?_⟩
        simp [andThen, hs, hf]
      · left
        refine ⟨⟨h.1, hs, hf⟩, ?_⟩
        simp [andThen, hs, hf, fail]
    · left
      refine ⟨⟨h.1, hs⟩, ?_⟩
      simp [andThen, hs, fail]

/-- The five ways a pass of the loop can go: end of stream, a packet of another stream,
the decoder refuses the packet, or lines 419-500 run, after a new packet or without one. -/
theorem loop_body_cases (cfg : LoopConfig) (st : LoopState) (inp : IterInput) :
    ((st.want_new_packet = true ∧ inp.read_ret < 0) ∧
      loop_body cfg st inp =
        ((begin_pass cfg st inp).1 ++ [Event.av_read_frame inp.read_ret inp.stream_index],
          Ctl.ret (IterEnd.broke (begin_pass cfg st inp).2))) ∨
    ((st.want_new_packet = true ∧ 0 ≤ inp.read_ret ∧ inp.stream_index ≠ cfg.video_stream) ∧
      loop_body cfg st inp =
        ((begin_pass cfg st inp).1 ++ [Event.av_read_frame inp.read_ret inp.stream_index],
          Ctl.ret (IterEnd.again { (begin_pass cfg st inp).2 with packet_valid := true }))) ∨
    ((st.want_new_packet = true ∧ 0 ≤ inp.read_ret ∧ inp.stream_index = cfg.video_stream ∧
        inp.send_ret < 0) ∧
      loop_body cfg st inp =
        ((begin_pass cfg st inp).1 ++ [Event.av_read_frame inp.read_ret inp.stream_index,
          Event.avcodec_send_packet inp.send_ret, Event.error "avcodec_send_packet"],
          Ctl.exit 1)) ∨
    ((st.want_new_packet = true ∧ 0 ≤ inp.read_ret ∧ inp.stream_index = cfg.video_stream ∧
        0 ≤ inp.send_ret) ∧
      loop_body cfg st inp =
        andThen ((begin_pass cfg st inp).1 ++ [Event.av_read_frame inp.read_ret inp.stream_index,
          Event.avcodec_send_packet inp.send_ret])
          (decode_frame cfg
            { (begin_pass cfg st inp).2 with packet_valid := true, want_new_packet := false }
            inp)) ∨
    (st.want_new_packet = false ∧
      loop_body cfg st inp =
        andThen (begin_pass cfg st inp).1 (decode_frame cfg (begin_pass cfg st inp).2 inp)) := by
  have hb : (begin_pass cfg st inp).2.want_new_packet = st.want_new_packet := rfl
  unfold loop_body
  cases hw : st.want_new_packet with
  | false =>
    right; right; right; right
    simp [hb, hw]
  | true =>
    by_cases hr : inp.read_ret < 0
    · left
      simp [hb, hw, hr, andThen]
    · right
      by_cases hs : inp.stream_index = cfg.video_stream
      · right
        by_cases hp : inp.send_ret < 0
        · left
          simp [hb, hw, hr, hs, hp, andThen, fail, not_lt.mp hr]
        · right; left
          simp [hb, hw, hr, hs, hp, andThen, not_lt.mp hr, not_lt.mp hp]
      · left
        simp [hb, hw, hr, hs, andThen, not_lt.mp hr]

/-- A call that is neither a `glViewport` nor the `av_packet_unref` is not issued at the
head of a pass. -/
theorem begin_pass_only (cfg : LoopConfig) (st : LoopState) (inp : IterInput) (e : Event)
    (h1 : ∀ x y w h, e ≠ Event.glViewport x y w h) (h2 : e ≠ Event.av_packet_unref) :
    e ∉ (begin_pass cfg st inp).1 := by
  intro h
  rcases begin_pass_trace cfg st inp e h with ⟨x, y, w, hh, he⟩ | he
  · exact h1 x y w hh he
  · exact h2 he

/-- The only call `set_scale` can issue, and when. -/
theorem mem_set_scale (st : LoopState) (prime : VADRMPRIMESurfaceDescriptor) (e : Event) :
    e ∈ (set_scale st prime).1 ↔
      (st.texture_size_valid = false ∧
        e = Event.glUniform2f_uTexCoordScale (TexCoord.quot st.decoder_ctx.width prime.width)
          (TexCoord.quot st.decoder_ctx.height prime.height)) := by
  unfold set_scale
  cases h : st.texture_size_valid <;> simp

/-- The calls of the loop of lines 482-484. -/
theorem mem_close_fds (prime : VADRMPRIMESurfaceDescriptor) (e : Event) :
    e ∈ close_fds prime ↔
      ∃ i, i < (toInt32 prime.num_objects).toNat ∧ e = Event.close (objectAt prime i).fd := by
  simp only [close_fds, List.mem_map, List.mem_range]
  constructor
  · rintro ⟨i, hi, he⟩
    exact ⟨i, hi, he.symm⟩
  · rintro ⟨i, hi, he⟩
    exact ⟨i, hi, he.symm⟩

/-- The calls lines 437-500 can issue. -/
theorem present_frame_mem (cfg : LoopConfig) (st : LoopState) (inp : IterInput) (s : Nat)
    (e : Event) (h : e ∈ (present_frame cfg st inp s).1) :
    e = Event.vaSyncSurface s ∨
    e = Event.glUniform2f_uTexCoordScale (TexCoord.quot st.decoder_ctx.width inp.prime.width)
      (TexCoord.quot st.decoder_ctx.height inp.prime.height) ∨
    e = Event.eglCreateImageKHR (img_attr inp.prime 0) inp.image0 ∨
    e = Event.eglCreateImageKHR (img_attr inp.prime 1) inp.image1 ∨
    (∃ i, e = Event.glActiveTexture i) ∨ (∃ t, e = Event.glBindTexture t) ∨
    (∃ img err, e = Event.glEGLImageTargetTexture2DOES img err) ∨
    (∃ fd, e = Event.close fd) ∨ e = Event.glClear ∨ (∃ err, e = Event.glDrawArrays err) ∨
    e = Event.eglSwapBuffers ∨ (∃ img, e = Event.eglDestroyImageKHR img) ∨
    (∃ msg, e = Event.error msg) := by
  rcases present_frame_cases cfg st inp s with c | c | c | c | c | c | c | c
  · rw [c.2] at h
    simp only [List.mem_append, List.mem_cons, List.mem_singleton, List.not_mem_nil, or_false,
      mem_set_scale] at h
    casesm* _ ∨ _ <;> simp_all
  · rw [c.2] at h
    simp only [List.mem_append, List.mem_cons, List.mem_singleton, List.not_mem_nil, or_false,
      mem_set_scale] at h
    casesm* _ ∨ _ <;> simp_all
  · rw [c.2] at h
    simp only [List.mem_append, List.mem_cons, List.mem_singleton, List.not_mem_nil, or_false,
      mem_set_scale] at h
    casesm* _ ∨ _ <;> simp_all
  · rw [c.2] at h
    simp only [List.mem_append, List.mem_cons, List.mem_singleton, List.not_mem_nil, or_false,
      mem_set_scale, import_ok] at h
    casesm* _ ∨ _ <;> simp_all
  · rw [c.2] at h
    simp only [List.mem_append, List.mem_cons, List.mem_singleton, List.not_mem_nil, or_false,
      mem_set_scale, import_ok] at h
    casesm* _ ∨ _ <;> simp_all
  · rw [c.2] at h
    simp only [List.mem_append, List.mem_cons, List.mem_singleton, List.not_mem_nil, or_false,
      mem_set_scale, import_ok] at h
    casesm* _ ∨ _ <;> simp_all
  · rw [c.2] at h
    simp only [List.mem_append, List.mem_cons, List.mem_singleton, List.not_mem_nil, or_false,
      mem_set_scale, import_ok, mem_close_fds] at h
    casesm* _ ∨ _ <;> simp_all
    rename_i hc
    obtain ⟨i, -, hi⟩ := hc
    simp [hi]
  · rw [c.2] at h
    simp only [shown_trace, destroy_image, List.mem_append, List.mem_cons, List.mem_singleton,
      List.not_mem_nil, or_false, mem_set_scale, import_ok, mem_close_fds] at h
    casesm* _ ∨ _ <;> simp_all
    rename_i hc
    obtain ⟨i, -, hi⟩ := hc
    simp [hi]

/-- The calls lines 419-500 can issue. -/
theorem decode_frame_mem (cfg : LoopConfig) (st : LoopState) (inp : IterInput) (e : Event)
    (h : e ∈ (decode_frame cfg st inp).1) :
    e = Event.avcodec_receive_frame inp.receive_ret ∨ e = Event.print_frame (wrapInt32 (st.frameno + 1)) ∨
    e = Event.vaExportSurfaceHandle (inp.data3 % 2 ^ 32) inp.export_status inp.prime ∨
    (∃ msg, e = Event.error msg) ∨
    e ∈ (present_frame cfg { st with frameno := wrapInt32 (st.frameno + 1) } inp (inp.data3 % 2 ^ 32)).1 := by
  rcases decode_frame_cases cfg st inp with c | c | c | c | c <;> rw [c.2] at h <;>
    simp only [andThen_fst, List.mem_append, List.mem_cons, List.mem_singleton,
      List.not_mem_nil, or_false] at h <;>
    (try casesm* _ ∨ _) <;> simp_all

/-- A pass of the loop either ends before line 437, having issued only calls of the
packet and decoder stage, or it goes through lines 437-500 after such calls, the last of
them the successful export of an NV12 surface. -/
theorem loop_body_split (cfg : LoopConfig) (st : LoopState) (inp : IterInput) :
    ∃ pre : List Event,
      (∀ e ∈ pre, (∃ x y w h, e = Event.glViewport x y w h) ∨ e = Event.av_packet_unref ∨
        e = Event.av_read_frame inp.read_ret inp.stream_index ∨
        e = Event.avcodec_send_packet inp.send_ret ∨
        e = Event.avcodec_receive_frame inp.receive_ret ∨ (∃ n, e = Event.print_frame n) ∨
        e = Event.vaExportSurfaceHandle (inp.data3 % 2 ^ 32) inp.export_status inp.prime ∨
        (∃ msg, e = Event.error msg)) ∧
      (((loop_body cfg st inp).1 = pre ∧
          (∀ e, (loop_body cfg st inp).2 = Ctl.ret e →
            e.state.texture_size_valid = st.texture_size_valid ∧
            e.state.texcoord_x1 = st.texcoord_x1 ∧ e.state.texcoord_y1 = st.texcoord_y1 ∧
            e.state.decoder_ctx = (begin_pass cfg st inp).2.decoder_ctx ∧
            e.state.running = (begin_pass cfg st inp).2.running)) ∨
        (∃ st1 pre1, pre = pre1 ++
            [Event.vaExportSurfaceHandle (inp.data3 % 2 ^ 32) VA_STATUS_SUCCESS inp.prime] ∧
          inp.prime.fourcc = VA_FOURCC_NV12 ∧
          loop_body cfg st inp = andThen pre (present_frame cfg st1 inp (inp.data3 % 2 ^ 32)) ∧
          st1.texture_size_valid = st.texture_size_valid ∧
          st1.texcoord_x1 = st.texcoord_x1 ∧ st1.texcoord_y1 = st.texcoord_y1 ∧
          st1.decoder_ctx = (begin_pass cfg st inp).2.decoder_ctx ∧
          st1.running = (begin_pass cfg st inp).2.running ∧
          st1.want_new_packet = false ∧ st1.frameno = wrapInt32 (st.frameno + 1))) := by
  have hb := begin_pass_trace cfg st inp
  have hdec : ∀ (front : List Event) (st0 : LoopState),
      (∀ e ∈ front, (∃ x y w h, e = Event.glViewport x y w h) ∨ e = Event.av_packet_unref ∨
        e = Event.av_read_frame inp.read_ret inp.stream_index ∨
        e = Event.avcodec_send_packet inp.send_ret) →
      loop_body cfg st inp = andThen front (decode_frame cfg st0 inp) →
      st0.texture_size_valid = st.texture_size_valid →
      st0.texcoord_x1 = st.texcoord_x1 → st0.texcoord_y1 = st.texcoord_y1 →
      st0.decoder_ctx = (begin_pass cfg st inp).2.decoder_ctx →
      st0.running = (begin_pass cfg st inp).2.running →
      st0.want_new_packet = false → st0.frameno = st.frameno →
      ∃ pre : List Event,
      (∀ e ∈ pre, (∃ x y w h, e = Event.glViewport x y w h) ∨ e = Event.av_packet_unref ∨
        e = Event.av_read_frame inp.read_ret inp.stream_index ∨
        e = Event.avcodec_send_packet inp.send_ret ∨
        e = Event.avcodec_receive_frame inp.receive_ret ∨ (∃ n, e = Event.print_frame n) ∨
        e = Event.vaExportSurfaceHandle (inp.data3 % 2 ^ 32) inp.export_status inp.prime ∨
        (∃ msg, e = Event.error msg)) ∧
      (((loop_body cfg st inp).1 = pre ∧
          (∀ e, (loop_body cfg st inp).2 = Ctl.ret e →
            e.state.texture_size_valid = st.texture_size_valid ∧
            e.state.texcoord_x1 = st.texcoord_x1 ∧ e.state.texcoord_y1 = st.texcoord_y1 ∧
            e.state.decoder_ctx = (begin_pass cfg st inp).2.decoder_ctx ∧
            e.state.running = (begin_pass cfg st inp).2.running)) ∨
        (∃ st1 pre1, pre = pre1 ++
            [Event.vaExportSurfaceHandle (inp.data3 % 2 ^ 32) VA_STATUS_SUCCESS inp.prime] ∧
          inp.prime.fourcc = VA_FOURCC_NV12 ∧
          loop_body cfg st inp = andThen pre (present_frame cfg st1 inp (inp.data3 % 2 ^ 32)) ∧
          st1.texture_size_valid = st.texture_size_valid ∧
          st1.texcoord_x1 = st.texcoord_x1 ∧ st1.texcoord_y1 = st.texcoord_y1 ∧
          st1.decoder_ctx = (begin_pass cfg st inp).2.decoder_ctx ∧
          st1.running = (begin_pass cfg st inp).2.running ∧
          st1.want_new_packet = false ∧ st1.frameno = wrapInt32 (st.frameno + 1))) := by
    intro front st0 hfront heq h1 h2 h3 h4 h5 h6 h7
    rcases decode_frame_cases cfg st0 inp with c | c | c | c | c
    · refine ⟨front ++ [Event.avcodec_receive_frame inp.receive_ret], ?_, Or.inl ⟨?_, ?_⟩⟩
      · intro e he
        simp only [List.mem_append, List.mem_singleton] at he
        rcases he with he | he
        · rcases hfront e he with h | h | h | h <;> simp [h]
        · simp [he]
      · rw [heq, c.2]; rfl
      · intro e he
        rw [heq, c.2] at he
        simp only [andThen_snd, Ctl.ret.injEq] at he
        subst he
        exact ⟨h1, h2, h3, h4, h5⟩
    · refine ⟨front ++ [Event.avcodec_receive_frame inp.receive_ret,
        Event.error "avcodec_receive_frame"], ?_, Or.inl ⟨?_, ?_⟩⟩
      · intro e he
        simp only [List.mem_append, List.mem_cons, List.mem_singleton, List.not_mem_nil,
          or_false] at he
        rcases he with he | he | he
        · rcases hfront e he with h | h | h | h <;> simp [h]
        · simp [he]
        · simp [he]
      · rw [heq, c.2]; rfl
      · intro e he
        rw [heq, c.2] at he
        simp at he
    · refine ⟨front ++ [Event.avcodec_receive_frame inp.receive_ret,
        Event.print_frame (wrapInt32 (st0.frameno + 1)),
        Event.vaExportSurfaceHandle (inp.data3 % 2 ^ 32) inp.export_status inp.prime,
        Event.error "vaExportSurfaceHandle"], ?_, Or.inl ⟨?_, ?_⟩⟩
      · intro e he
        simp only [List.mem_append, List.mem_cons, List.mem_singleton, List.not_mem_nil,
          or_false] at he
        rcases he with he | he | he | he | he
        · rcases hfront e he with h | h | h | h <;> simp [h]
        · simp [he]
        · simp [he]
        · simp [he]
        · simp [he]
      · rw [heq, c.2]; rfl
      · intro e he
        rw [heq, c.2] at he
        simp at he
    · refine ⟨front ++ [Event.avcodec_receive_frame inp.receive_ret,
        Event.print_frame (wrapInt32 (st0.frameno + 1)),
        Event.vaExportSurfaceHandle (inp.data3 % 2 ^ 32) inp.export_status inp.prime,
        Event.error "export format check"], ?_, Or.inl ⟨?_, ?_⟩⟩
      · intro e he
        simp only [List.mem_append, List.mem_cons, List.mem_singleton, List.not_mem_nil,
          or_false] at he
        rcases he with he | he | he | he | he
        · rcases hfront e he with h | h | h | h <;> simp [h]
        · simp [he]
        · simp [he]
        · simp [he]
        · simp [he]
      · rw [heq, c.2]; rfl
      · intro e he
        rw [heq, c.2] at he
        simp at he
    · refine ⟨front ++ [Event.avcodec_receive_frame inp.receive_ret,
        Event.print_frame (wrapInt32 (st0.frameno + 1)),
        Event.vaExportSurfaceHandle (inp.data3 % 2 ^ 32) inp.export_status inp.prime], ?_,
        Or.inr ⟨{ st0 with frameno := wrapInt32 (st0.frameno + 1) }, front ++
          [Event.avcodec_receive_frame inp.receive_ret, Event.print_frame (wrapInt32 (st0.frameno + 1))],
          ?_, c.1.2.2, ?_, h1, h2, h3, h4, h5, h6, ?_⟩⟩
      · intro e he
        simp only [List.mem_append, List.mem_cons, List.mem_singleton, List.not_mem_nil,
          or_false] at he
        rcases he with he | he | he | he
        · rcases hfront e he with h | h | h | h <;> simp [h]
        · simp [he]
        · simp [he]
        · simp [he]
      · simp [c.1.2.1]
      · rw [heq, c.2]
        simp [andThen]
      · simp [h7]
  rcases loop_body_cases cfg st inp with c | c | c | c | c
  · refine ⟨(begin_pass cfg st inp).1 ++ [Event.av_read_frame inp.read_ret inp.stream_index],
      ?_, Or.inl ⟨by rw [c.2], ?_⟩⟩
    · intro e he
      simp only [List.mem_append, List.mem_singleton] at he
      rcases he with he | he
      · rcases hb e he with h | h
        · exact Or.inl h
        · exact Or.inr (Or.inl h)
      · simp [he]
    · intro e he
      rw [c.2] at he
      simp only [Ctl.ret.injEq] at he
      subst he
      exact ⟨rfl, rfl, rfl, rfl, rfl⟩
  · refine ⟨(begin_pass cfg st inp).1 ++ [Event.av_read_frame inp.read_ret inp.stream_index],
      ?_, Or.inl ⟨by rw [c.2], ?_⟩⟩
    · intro e he
      simp only [List.mem_append, List.mem_singleton] at he
      rcases he with he | he
      · rcases hb e he with h | h
        · exact Or.inl h
        · exact Or.inr (Or.inl h)
      · simp [he]
    · intro e he
      rw [c.2] at he
      simp only [Ctl.ret.injEq] at he
      subst he
      exact ⟨rfl, rfl, rfl, rfl, rfl⟩
  · refine ⟨(begin_pass cfg st inp).1 ++ [Event.av_read_frame inp.read_ret inp.stream_index,
      Event.avcodec_send_packet inp.send_ret, Event.error "avcodec_send_packet"],
      ?_, Or.inl ⟨by rw [c.2], ?_⟩⟩
    · intro e he
      simp only [List.mem_append, List.mem_cons, List.mem_singleton, List.not_mem_nil,
        or_false] at he
      rcases he with he | he | he | he
      · rcases hb e he with h | h
        · exact Or.inl h
        · exact Or.inr (Or.inl h)
      · simp [he]
      · simp [he]
      · simp [he]
    · intro e he
      rw [c.2] at he
      simp at he
  · refine hdec _ _ ?_ c.2 rfl rfl rfl rfl rfl rfl rfl
    intro e he
    simp only [List.mem_append, List.mem_cons, List.mem_singleton, List.not_mem_nil,
      or_false] at he
    rcases he with he | he | he
    · rcases hb e he with h | h
      · exact Or.inl h
      · exact Or.inr (Or.inl h)
    · simp [he]
    · simp [he]
  · refine hdec _ _ ?_ c.2 rfl rfl rfl rfl rfl ?_ rfl
    · intro e he
      rcases hb e he with h | h
      · exact Or.inl h
      · exact Or.inr (Or.inl h)
    · exact c.1

/-- If the export call of a pass succeeded with a surface that is not NV12, lines 419-500
end in `fail` right after it. -/
theorem decode_frame_not_nv12 (cfg : LoopConfig) (st1 : LoopState) (inp : IterInput) (s : Nat)
    (prime : VADRMPRIMESurfaceDescriptor) (hfmt : prime.fourcc ≠ VA_FOURCC_NV12)
    (h : Event.vaExportSurfaceHandle s VA_STATUS_SUCCESS prime ∈ (decode_frame cfg st1 inp).1) :
    decode_frame cfg st1 inp =
      ([Event.avcodec_receive_frame inp.receive_ret, Event.print_frame (wrapInt32 (st1.frameno + 1)),
        Event.vaExportSurfaceHandle s VA_STATUS_SUCCESS prime,
        Event.error "export format check"], Ctl.exit 1) := by
  rcases decode_frame_cases cfg st1 inp with c | c | c | c | c
  · rw [c.2] at h; simp at h
  · rw [c.2] at h; simp at h
  · rw [c.2] at h
    simp at h
    exact absurd h.2.1.symm c.1.2
  · rw [c.2] at h ⊢
    simp at h
    simp [h]
  · rw [c.2] at h
    simp at h
    rcases h with h | h
    · rw [← h.2.2] at c
      exact absurd c.1.2.2 hfmt
    · have := present_frame_mem cfg _ inp _ _ h
      simp at this

theorem filter_bound_ok_front (inp : IterInput) (pre : List Event)
    (hpre : ∀ e ∈ pre, (∃ x y w h, e = Event.glViewport x y w h) ∨ e = Event.av_packet_unref ∨
        e = Event.av_read_frame inp.read_ret inp.stream_index ∨
        e = Event.avcodec_send_packet inp.send_ret ∨
        e = Event.avcodec_receive_frame inp.receive_ret ∨ (∃ n, e = Event.print_frame n) ∨
        e = Event.vaExportSurfaceHandle (inp.data3 % 2 ^ 32) inp.export_status inp.prime ∨
        (∃ msg, e = Event.error msg)) :
    pre.filter bound_ok = [] := by
  rw [List.filter_eq_nil_iff]
  intro e he
  rcases hpre e he with ⟨x, y, w, h, rfl⟩ | rfl | rfl | rfl | rfl | ⟨n, rfl⟩ | rfl | ⟨m, rfl⟩ <;>
    simp [bound_ok]

theorem filter_bound_ok_set_scale (st : LoopState) (prime : VADRMPRIMESurfaceDescriptor) :
    (set_scale st prime).1.filter bound_ok = [] := by
  unfold set_scale
  split <;> simp [bound_ok]

theorem filter_bound_ok_close_fds (prime : VADRMPRIMESurfaceDescriptor) :
    (close_fds prime).filter bound_ok = [] := by
  rw [List.filter_eq_nil_iff]
  intro e he
  rw [mem_close_fds] at he
  obtain ⟨i, -, rfl⟩ := he
  simp [bound_ok]

theorem toInt32_small (n : Nat) (h : n < 2 ^ 31) : toInt32 n = n := by
  unfold toInt32
  have h1 : n % 2 ^ 32 = n := Nat.mod_eq_of_lt (by omega)
  rw [h1]
  rw [if_pos h]

theorem front_no_image (inp : IterInput) (pre : List Event)
    (hpre : ∀ e ∈ pre, (∃ x y w h, e = Event.glViewport x y w h) ∨ e = Event.av_packet_unref ∨
        e = Event.av_read_frame inp.read_ret inp.stream_index ∨
        e = Event.avcodec_send_packet inp.send_ret ∨
        e = Event.avcodec_receive_frame inp.receive_ret ∨ (∃ n, e = Event.print_frame n) ∨
        e = Event.vaExportSurfaceHandle (inp.data3 % 2 ^ 32) inp.export_status inp.prime ∨
        (∃ msg, e = Event.error msg)) :
    pre.filter is_create = [] ∧ pre.filter is_destroy = [] ∧ Event.eglSwapBuffers ∉ pre := by
  refine ⟨?_, ?_, ?_⟩
  · rw [List.filter_eq_nil_iff]
    intro e he
    rcases hpre e he with ⟨x, y, w, h, rfl⟩ | rfl | rfl | rfl | rfl | ⟨n, rfl⟩ | rfl | ⟨m, rfl⟩ <;>
      simp [is_create]
  · rw [List.filter_eq_nil_iff]
    intro e he
    rcases hpre e he with ⟨x, y, w, h, rfl⟩ | rfl | rfl | rfl | rfl | ⟨n, rfl⟩ | rfl | ⟨m, rfl⟩ <;>
      simp [is_destroy]
  · intro he
    have := hpre _ he
    simp at this

theorem set_scale_no_image (st : LoopState) (prime : VADRMPRIMESurfaceDescriptor) :
    (set_scale st prime).1.filter is_create = [] ∧
      (set_scale st prime).1.filter is_destroy = [] := by
  unfold set_scale
  split <;> simp [is_create, is_destroy]

theorem close_fds_no_image (prime : VADRMPRIMESurfaceDescriptor) :
    (close_fds prime).filter is_create = [] ∧ (close_fds prime).filter is_destroy = [] := by
  constructor
  · rw [List.filter_eq_nil_iff]
    intro e he
    rw [mem_close_fds] at he
    obtain ⟨i, -, rfl⟩ := he
    simp [is_create]
  · rw [List.filter_eq_nil_iff]
    intro e he
    rw [mem_close_fds] at he
    obtain ⟨i, -, rfl⟩ := he
    simp [is_destroy]

/-- Unfolding the loop: not running. -/
theorem while_running_stopped (cfg : LoopConfig) (st : LoopState) (script : List IterInput)
    (h : st.running = false) :
    while_running cfg st script = ([], LoopResult.returned st LoopExit.not_running) := by
  cases script <;> simp [while_running, h]

/-- Unfolding the loop: out of inputs. -/
theorem while_running_nil (cfg : LoopConfig) (st : LoopState) (h : st.running = true) :
    while_running cfg st [] = ([], LoopResult.pending st) := by
  simp [while_running, h]

/-- Unfolding the loop: the pass exits. -/
theorem while_running_exit (cfg : LoopConfig) (st : LoopState) (inp : IterInput)
    (rest : List IterInput) (tr : List Event) (code : Int) (h : st.running = true)
    (hb : loop_body cfg st inp = (tr, Ctl.exit code)) :
    while_running cfg st (inp :: rest) = (tr, LoopResult.exited code) := by
  simp [while_running, h, hb]

/-- Unfolding the loop: the pass breaks. -/
theorem while_running_broke (cfg : LoopConfig) (st : LoopState) (inp : IterInput)
    (rest : List IterInput) (tr : List Event) (st1 : LoopState) (h : st.running = true)
    (hb : loop_body cfg st inp = (tr, Ctl.ret (IterEnd.broke st1))) :
    while_running cfg st (inp :: rest) = (tr, LoopResult.returned st1 LoopExit.end_of_stream) := by
  simp [while_running, h, hb]

/-- Unfolding the loop: the pass goes on to the next one. -/
theorem while_running_again (cfg : LoopConfig) (st : LoopState) (inp : IterInput)
    (rest : List IterInput) (tr : List Event) (st1 : LoopState) (h : st.running = true)
    (hb : loop_body cfg st inp = (tr, Ctl.ret (IterEnd.again st1))) :
    while_running cfg st (inp :: rest) =
      (tr ++ (while_running cfg st1 rest).1, (while_running cfg st1 rest).2) := by
  simp [while_running, h, hb]

/-- In a pass that does not exit, as many images are destroyed as were created. -/
theorem loop_body_balanced (cfg : LoopConfig) (st : LoopState) (inp : IterInput) (e : IterEnd)
    (h : (loop_body cfg st inp).2 = Ctl.ret e) :
    (loop_body cfg st inp).1.countP is_create = (loop_body cfg st inp).1.countP is_destroy := by
  obtain ⟨pre, hpre, hcase⟩ := loop_body_split cfg st inp
  obtain ⟨hf1, hf2, -⟩ := front_no_image inp pre hpre
  have hsc := set_scale_no_image
  have hcl := close_fds_no_image inp.prime
  rcases hcase with ⟨htr, -⟩ | ⟨st1, pre1, hpre1, hnv, heq, -⟩
  · rw [htr, List.countP_eq_length_filter, List.countP_eq_length_filter, hf1, hf2]
  · rw [heq] at h ⊢
    rcases present_frame_cases cfg st1 inp (inp.data3 % 2 ^ 32) with
      c | c | c | c | c | c | c | c
    · rw [c.2] at h; simp at h
    · rw [c.2] at h; simp at h
    · rw [c.2] at h; simp at h
    · rw [c.2] at h; simp at h
    · rw [c.2] at h; simp at h
    · rw [c.2] at h; simp at h
    · rw [c.2] at h; simp at h
    · rw [c.2]
      simp [List.countP_eq_length_filter, List.filter_append, hf1, hf2, hsc, hcl, shown_trace,
        import_ok, destroy_image, is_create, is_destroy, List.filter_cons, c.1]

/-- Before the export call of a pass, the pass has created and destroyed no image. -/
theorem loop_body_before_export (cfg : LoopConfig) (st : LoopState) (inp : IterInput)
    (before after : List Event) (s : Nat) (status : Int) (prime : VADRMPRIMESurfaceDescriptor)
    (h : (loop_body cfg st inp).1 =
      before ++ Event.vaExportSurfaceHandle s status prime :: after) :
    before.countP is_create = 0 ∧ before.countP is_destroy = 0 := by
  obtain ⟨pre, hpre, hcase⟩ := loop_body_split cfg st inp
  have hsub : ∀ l : List Event, (∀ e ∈ l, e ∈ pre) →
      l.countP is_create = 0 ∧ l.countP is_destroy = 0 := by
    intro l hl
    obtain ⟨hf1, hf2, -⟩ := front_no_image inp l (fun e he => hpre e (hl e he))
    rw [List.countP_eq_length_filter, List.countP_eq_length_filter, hf1, hf2]
    exact ⟨rfl, rfl⟩
  rcases hcase with ⟨htr, -⟩ | ⟨st1, pre1, hpre1, hnv, heq, -⟩
  · apply hsub
    intro e he
    rw [← htr, h]
    exact List.mem_append_left _ he
  · rw [heq] at h
    simp only [andThen_fst] at h
    rcases List.append_eq_append_iff.mp h with ⟨a, ha, hb⟩ | ⟨c, hc, hd⟩
    · have hmem : Event.vaExportSurfaceHandle s status prime ∈
          (present_frame cfg st1 inp (inp.data3 % 2 ^ 32)).1 := by
        rw [hb]; simp
      have := present_frame_mem cfg st1 inp _ _ hmem
      simp at this
    · apply hsub
      intro e he
      rw [hc]
      exact List.mem_append_left _ he

/-! ## `resize_window`: rounding -/

/-- On non-negative operands the truncating division of C is the floor division. -/
theorem half_up_div (N w : Int) (hN : 0 ≤ N) (hw : 0 < w) :
    Int.tdiv (N + Int.tdiv w 2) w = (N + w / 2) / w := by
  have h2 : Int.tdiv w 2 = w / 2 := Int.tdiv_eq_ediv (le_of_lt hw) (by norm_num)
  rw [h2]
  have h3 : 0 ≤ w / 2 := Int.ediv_nonneg (le_of_lt hw) (by norm_num)
  exact Int.tdiv_eq_ediv (by omega) (le_of_lt hw)

theorem half_up_lower (N w : Int) (hw : 0 < w) : 2 * ((N + w / 2) / w * w) ≤ 2 * N + w := by
  have h1 := Int.ediv_mul_le (N + w / 2) (ne_of_gt hw)
  omega

theorem half_up_upper (N w : Int) (hw : 0 < w) :
    2 * N + w < 2 * (((N + w / 2) / w + 1) * w) := by
  have h2 := Int.lt_ediv_add_one_mul_self (N + w / 2) hw
  omega

/-- The quotient `(N + w/2) / w` is within half a unit of `N / w`. -/
theorem half_up_bounds (N w : Int) (hw : 0 < w) :
    2 * |(N + w / 2) / w * w - N| ≤ w := by
  have h1 := half_up_lower N w hw
  have h2 := half_up_upper N w hw
  have h4 : ((N + w / 2) / w + 1) * w = (N + w / 2) / w * w + w := by ring
  have h3 : |(N + w / 2) / w * w - N| ≤ w / 2 := by
    rw [abs_le]
    constructor
    · omega
    · omega
  omega

/-- The quotient `(N + w/2) / w` is `N / w` rounded to the nearest integer. -/
theorem half_up_round (N w : Int) (hw : 0 < w) :
    (N + w / 2) / w = round ((N : ℚ) / w) := by
  rw [round_eq]
  symm
  rw [Int.floor_eq_iff]
  have hwq : (0:ℚ) < w := by exact_mod_cast hw
  have h1 : ((2 * ((N + w / 2) / w * w) : Int) : ℚ) ≤ ((2 * N + w : Int) : ℚ) := by
    exact_mod_cast half_up_lower N w hw
  have h2 : ((2 * N + w : Int) : ℚ) < ((2 * (((N + w / 2) / w + 1) * w) : Int) : ℚ) := by
    exact_mod_cast half_up_upper N w hw
  push_cast at h1 h2
  constructor
  · rw [← sub_nonneg]
    have h3 : (N:ℚ) / w + 1 / 2 - ((N + w / 2) / w : Int) =
        (2 * N + w - 2 * (((N + w / 2) / w : Int) * w)) / (2 * w) := by
      field_simp
      ring
    rw [h3]
    apply div_nonneg <;> linarith
  · rw [← sub_pos]
    have h3 : (((N + w / 2) / w : Int) : ℚ) + 1 - ((N:ℚ) / w + 1 / 2) =
        (2 * ((((N + w / 2) / w : Int) + 1) * w) - (2 * N + w)) / (2 * w) := by
      field_simp
      ring
    rw [h3]
    apply div_pos <;> linarith

/-- Over a run, at every export call as many images have been destroyed as created. -/
theorem images_balanced_at_export (cfg : LoopConfig) (script : List IterInput) :
    ∀ (st : LoopState) (before after : List Event) (s : Nat) (status : Int)
      (prime : VADRMPRIMESurfaceDescriptor),
      (while_running cfg st script).1 =
        before ++ Event.vaExportSurfaceHandle s status prime :: after →
      before.countP is_create = before.countP is_destroy := by
  induction script with
  | nil =>
    intro st before after s status prime h
    cases hr : st.running
    · rw [while_running_stopped cfg st [] hr] at h
      simp at h
    · rw [while_running_nil cfg st hr] at h
      simp at h
  | cons inp rest ih =>
    intro st before after s status prime h
    cases hr : st.running
    · rw [while_running_stopped cfg st _ hr] at h
      simp at h
    · rcases hb : loop_body cfg st inp with ⟨tr, r⟩
      have htr : (loop_body cfg st inp).1 = tr := by rw [hb]
      cases r with
      | exit code =>
        rw [while_running_exit cfg st inp rest tr code hr hb] at h
        simp only at h
        obtain ⟨h1, h2⟩ := loop_body_before_export cfg st inp before after s status prime
          (by rw [htr, h])
        rw [h1, h2]
      | ret e =>
        have hbal := loop_body_balanced cfg st inp e (by rw [hb])
        rw [htr] at hbal
        cases e with
        | broke st1 =>
          rw [while_running_broke cfg st inp rest tr st1 hr hb] at h
          simp only at h
          obtain ⟨h1, h2⟩ := loop_body_before_export cfg st inp before after s status prime
            (by rw [htr, h])
          rw [h1, h2]
        | again st1 =>
          rw [while_running_again cfg st inp rest tr st1 hr hb] at h
          simp only at h
          rcases List.append_eq_append_iff.mp h with ⟨a, ha, hb2⟩ | ⟨c, hc, hd⟩
          · have := ih st1 a after s status prime hb2
            rw [ha, List.countP_append, List.countP_append, hbal, this]
          · cases c with
            | nil =>
              simp only [List.append_nil] at hc
              rw [← hc, hbal]
            | cons x c2 =>
              simp only [List.cons_append, List.cons.injEq] at hd
              obtain ⟨h1, h2⟩ := loop_body_before_export cfg st inp before c2 s status prime
                (by rw [htr, hc, hd.1])
              rw [h1, h2]

/-- `handle_x11_events` never changes the size of the video. -/
theorem handle_x11_events_size (wm : Nat) (evs : List XEvent) :
    ∀ (running : Bool) (ctx : AVCodecContext),
      (handle_x11_events wm running ctx evs).2.2.width = ctx.width ∧
      (handle_x11_events wm running ctx evs).2.2.height = ctx.height := by
  induction evs with
  | nil => intro r c; exact ⟨rfl, rfl⟩
  | cons ev rest ih =>
    intro r c
    simp only [handle_x11_events]
    obtain ⟨h1, h2⟩ := ih (handle_x11_event wm r c ev).2.1 (handle_x11_event wm r c ev).2.2
    rw [h1, h2]
    cases ev with
    | ClientMessage d => simp only [handle_x11_event]; split <;> exact ⟨rfl, rfl⟩
    | KeyPress k => simp only [handle_x11_event]; split_ifs <;> exact ⟨rfl, rfl⟩
    | ConfigureNotify w h => exact ⟨rfl, rfl⟩
    | other => exact ⟨rfl, rfl⟩

/-- After `handle_x11_events` the flag `running` is set exactly when it was set before
and no pending event is a quit event. -/
theorem handle_x11_events_running (wm : Nat) (evs : List XEvent) :
    ∀ (running : Bool) (ctx : AVCodecContext),
      (handle_x11_events wm running ctx evs).2.1 =
        (running && evs.all (fun ev => !is_quit wm ev)) := by
  induction evs with
  | nil => intro r c; simp [handle_x11_events]
  | cons ev rest ih =>
    intro r c
    simp only [handle_x11_events, List.all_cons]
    rw [ih]
    cases ev with
    | ClientMessage d =>
      simp only [handle_x11_event, is_quit]
      split <;> simp_all
    | KeyPress k =>
      simp only [handle_x11_event, is_quit]
      split_ifs <;> simp_all
    | ConfigureNotify w h => simp [handle_x11_event, is_quit]
    | other => simp [handle_x11_event, is_quit]

/-- Lines 437-500 start with the synchronisation and the scale; nothing after that sets
the scale, and if they return they return the state that `set_scale` left. -/
theorem present_frame_head (cfg : LoopConfig) (st : LoopState) (inp : IterInput) (s : Nat) :
    ∃ rest, (present_frame cfg st inp s).1 =
        [Event.vaSyncSurface s] ++ (set_scale st inp.prime).1 ++ rest ∧
      rest.filter is_set_scale = [] ∧
      ∀ e, (present_frame cfg st inp s).2 = Ctl.ret e →
        e = IterEnd.again (set_scale st inp.prime).2 := by
  have hcl : (close_fds inp.prime).filter is_set_scale = [] := by
    rw [List.filter_eq_nil_iff]
    intro e he
    rw [mem_close_fds] at he
    obtain ⟨i, -, rfl⟩ := he
    simp [is_set_scale]
  rcases present_frame_cases cfg st inp s with c | c | c | c | c | c | c | c
  · refine ⟨[Event.error "expected DRM format check"], ?_, ?_, ?_⟩
    · rw [c.2]; try simp [shown_trace]
    · simp [is_set_scale, import_ok, List.filter_append, hcl, destroy_image]
    · rw [c.2]; simp
  · refine ⟨[Event.eglCreateImageKHR (img_attr inp.prime 0) inp.image0,
      Event.error "luma eglCreateImageKHR"], ?_, ?_, ?_⟩
    · rw [c.2]; try simp [shown_trace]
    · simp [is_set_scale, import_ok, List.filter_append, hcl, destroy_image]
    · rw [c.2]; simp
  · refine ⟨[Event.eglCreateImageKHR (img_attr inp.prime 0) inp.image0, Event.glActiveTexture 0,
      Event.glBindTexture cfg.texture0,
      Event.glEGLImageTargetTexture2DOES inp.image0 inp.bind_error0,
      Event.error "glEGLImageTargetTexture2DOES"], ?_, ?_, ?_⟩
    · rw [c.2]; try simp [shown_trace]
    · simp [is_set_scale, import_ok, List.filter_append, hcl, destroy_image]
    · rw [c.2]; simp
  · refine ⟨import_ok inp.prime 0 cfg.texture0 inp.image0 ++
      [Event.error "expected DRM format check"], ?_, ?_, ?_⟩
    · rw [c.2]; try simp [shown_trace]
    · simp [is_set_scale, import_ok, List.filter_append, hcl, destroy_image]
    · rw [c.2]; simp
  · refine ⟨import_ok inp.prime 0 cfg.texture0 inp.image0 ++
      [Event.eglCreateImageKHR (img_attr inp.prime 1) inp.image1,
      Event.error "chroma eglCreateImageKHR"], ?_, ?_, ?_⟩
    · rw [c.2]; try simp [shown_trace]
    · simp [is_set_scale, import_ok, List.filter_append, hcl, destroy_image]
    · rw [c.2]; simp
  · refine ⟨import_ok inp.prime 0 cfg.texture0 inp.image0 ++
      [Event.eglCreateImageKHR (img_attr inp.prime 1) inp.image1, Event.glActiveTexture 1,
      Event.glBindTexture cfg.texture1,
      Event.glEGLImageTargetTexture2DOES inp.image1 inp.bind_error1,
      Event.error "glEGLImageTargetTexture2DOES"], ?_, ?_, ?_⟩
    · rw [c.2]; try simp [shown_trace]
    · simp [is_set_scale, import_ok, List.filter_append, hcl, destroy_image]
    · rw [c.2]; simp
  · refine ⟨import_ok inp.prime 0 cfg.texture0 inp.image0 ++ import_ok inp.prime 1 cfg.texture1 inp.image1 ++ close_fds inp.prime ++
      [Event.glClear, Event.glDrawArrays inp.draw_error, Event.error "drawing"], ?_, ?_, ?_⟩
    · rw [c.2]; try simp [shown_trace]
    · simp [is_set_scale, import_ok, List.filter_append, hcl, destroy_image]
    · rw [c.2]; simp
  · refine ⟨import_ok inp.prime 0 cfg.texture0 inp.image0 ++ import_ok inp.prime 1 cfg.texture1 inp.image1 ++ close_fds inp.prime ++
      [Event.glClear, Event.glDrawArrays 0, Event.eglSwapBuffers] ++
      destroy_image 0 inp.image0 ++ destroy_image 1 inp.image1, ?_, ?_, ?_⟩
    · rw [c.2]; try simp [shown_trace]
    · simp [is_set_scale, import_ok, List.filter_append, hcl, destroy_image]
    · rw [c.2]; simp

theorem front_no_scale (inp : IterInput) (pre : List Event)
    (hpre : ∀ e ∈ pre, (∃ x y w h, e = Event.glViewport x y w h) ∨ e = Event.av_packet_unref ∨
        e = Event.av_read_frame inp.read_ret inp.stream_index ∨
        e = Event.avcodec_send_packet inp.send_ret ∨
        e = Event.avcodec_receive_frame inp.receive_ret ∨ (∃ n, e = Event.print_frame n) ∨
        e = Event.vaExportSurfaceHandle (inp.data3 % 2 ^ 32) inp.export_status inp.prime ∨
        (∃ msg, e = Event.error msg)) :
    pre.filter is_set_scale = [] ∧ ∀ s, Event.vaSyncSurface s ∉ pre := by
  constructor
  · rw [List.filter_eq_nil_iff]
    intro e he
    rcases hpre e he with ⟨x, y, w, h, rfl⟩ | rfl | rfl | rfl | rfl | ⟨n, rfl⟩ | rfl | ⟨m, rfl⟩ <;>
      simp [is_set_scale]
  · intro s he
    have := hpre _ he
    simp at this

/-- The size of the video in the decoder context is the same after the head of a pass. -/
theorem begin_pass_size (cfg : LoopConfig) (st : LoopState) (inp : IterInput) :
    (begin_pass cfg st inp).2.decoder_ctx.width = st.decoder_ctx.width ∧
    (begin_pass cfg st inp).2.decoder_ctx.height = st.decoder_ctx.height :=
  handle_x11_events_size cfg.WM_DELETE_WINDOW inp.xevents st.running st.decoder_ctx

/-- What one pass of the loop does to the texture-coordinate scale. -/
theorem loop_body_scale (cfg : LoopConfig) (st : LoopState) (inp : IterInput) :
    (∀ e, (loop_body cfg st inp).2 = Ctl.ret e →
      e.state.decoder_ctx.width = st.decoder_ctx.width ∧
      e.state.decoder_ctx.height = st.decoder_ctx.height) ∧
    (st.texture_size_valid = true →
      (loop_body cfg st inp).1.filter is_set_scale = [] ∧
      ∀ e, (loop_body cfg st inp).2 = Ctl.ret e →
        e.state.texture_size_valid = true ∧ e.state.texcoord_x1 = st.texcoord_x1 ∧
        e.state.texcoord_y1 = st.texcoord_y1) ∧
    (st.texture_size_valid = false →
      ((loop_body cfg st inp).1.filter is_set_scale = [] ∧
        (∀ s, Event.vaSyncSurface s ∉ (loop_body cfg st inp).1) ∧
        ∀ e, (loop_body cfg st inp).2 = Ctl.ret e →
          e.state.texture_size_valid = false ∧ e.state.texcoord_x1 = st.texcoord_x1 ∧
          e.state.texcoord_y1 = st.texcoord_y1) ∨
      (∃ pre post, (loop_body cfg st inp).1 = pre ++
          [Event.vaExportSurfaceHandle (inp.data3 % 2 ^ 32) VA_STATUS_SUCCESS inp.prime,
            Event.vaSyncSurface (inp.data3 % 2 ^ 32),
            Event.glUniform2f_uTexCoordScale
              (TexCoord.quot st.decoder_ctx.width inp.prime.width)
              (TexCoord.quot st.decoder_ctx.height inp.prime.height)] ++ post ∧
        inp.prime.fourcc = VA_FOURCC_NV12 ∧
        (∀ s, Event.vaSyncSurface s ∉ pre) ∧ pre.filter is_set_scale = [] ∧
        post.filter is_set_scale = [] ∧
        ∀ e, (loop_body cfg st inp).2 = Ctl.ret e →
          e.state.texture_size_valid = true ∧
          e.state.texcoord_x1 = TexCoord.quot st.decoder_ctx.width inp.prime.width ∧
          e.state.texcoord_y1 = TexCoord.quot st.decoder_ctx.height inp.prime.height)) := by
  obtain ⟨hbw, hbh⟩ := begin_pass_size cfg st inp
  obtain ⟨pre, hpre, hcase⟩ := loop_body_split cfg st inp
  obtain ⟨hns, hny⟩ := front_no_scale inp pre hpre
  rcases hcase with ⟨htr, hst⟩ | ⟨st1, pre1, hpre1, hnv, heq, h1, h2, h3, h4, h5, h6, h7⟩
  · refine ⟨?_, ?_, ?_⟩
    · intro e he
      obtain ⟨-, -, -, hd, -⟩ := hst e he
      rw [hd]
      exact ⟨hbw, hbh⟩
    · intro hv
      refine ⟨by rw [htr, hns], ?_⟩
      intro e he
      obtain ⟨ha, hb, hc, -, -⟩ := hst e he
      exact ⟨by rw [ha, hv], hb, hc⟩
    · intro hv
      left
      refine ⟨by rw [htr, hns], by rw [htr]; exact hny, ?_⟩
      intro e he
      obtain ⟨ha, hb, hc, -, -⟩ := hst e he
      exact ⟨by rw [ha, hv], hb, hc⟩
  · obtain ⟨rest, hrest, hrs, hret⟩ := present_frame_head cfg st1 inp (inp.data3 % 2 ^ 32)
    have hw1 : st1.decoder_ctx.width = st.decoder_ctx.width := by rw [h4]; exact hbw
    have hh1 : st1.decoder_ctx.height = st.decoder_ctx.height := by rw [h4]; exact hbh
    have hpre1s : pre1.filter is_set_scale = [] ∧ ∀ s, Event.vaSyncSurface s ∉ pre1 := by
      apply front_no_scale inp pre1
      intro e he
      apply hpre
      rw [hpre1]
      exact List.mem_append_left _ he
    refine ⟨?_, ?_, ?_⟩
    · intro e he
      rw [heq] at he
      have := hret e he
      subst this
      unfold set_scale
      split <;> exact ⟨hw1, hh1⟩
    · intro hv
      have hv1 : st1.texture_size_valid = true := by rw [h1, hv]
      have hsc : set_scale st1 inp.prime = ([], st1) := by
        simp [set_scale, hv1]
      refine ⟨?_, ?_⟩
      · rw [heq]
        simp only [andThen_fst]
        rw [hrest, hsc]
        simp [List.filter_append, hns, hrs, is_set_scale]
      · intro e he
        rw [heq] at he
        have := hret e he
        subst this
        rw [hsc]
        exact ⟨hv1, h2, h3⟩
    · intro hv
      have hv1 : st1.texture_size_valid = false := by rw [h1, hv]
      have hsc : set_scale st1 inp.prime =
          ([Event.glUniform2f_uTexCoordScale
              (TexCoord.quot st.decoder_ctx.width inp.prime.width)
              (TexCoord.quot st.decoder_ctx.height inp.prime.height)],
            { st1 with
              texcoord_x1 := TexCoord.quot st.decoder_ctx.width inp.prime.width,
              texcoord_y1 := TexCoord.quot st.decoder_ctx.height inp.prime.height,
              texture_size_valid := true }) := by
        simp [set_scale, hv1, hw1, hh1]
      right
      refine ⟨pre1, rest, ?_, hnv, hpre1s.2, hpre1s.1, hrs, ?_⟩
      · rw [heq]
        simp only [andThen_fst]
        rw [hrest, hsc, hpre1]
        simp
      · intro e he
        rw [heq] at he
        have := hret e he
        subst this
        rw [hsc]
        exact ⟨rfl, rfl, rfl⟩

/-- Once the texture size is valid, a run never sets the scale again and keeps it. -/
theorem while_running_scale_valid (cfg : LoopConfig) (script : List IterInput) :
    ∀ st : LoopState, st.texture_size_valid = true →
      (while_running cfg st script).1.filter is_set_scale = [] ∧
      ∀ stf, (while_running cfg st script).2.final_state = some stf →
        stf.texture_size_valid = true ∧ stf.texcoord_x1 = st.texcoord_x1 ∧
        stf.texcoord_y1 = st.texcoord_y1 := by
  induction script with
  | nil =>
    intro st hv
    cases hr : st.running
    · rw [while_running_stopped cfg st [] hr]
      simp [LoopResult.final_state, hv]
    · rw [while_running_nil cfg st hr]
      simp [LoopResult.final_state, hv]
  | cons inp rest ih =>
    intro st hv
    cases hr : st.running
    · rw [while_running_stopped cfg st _ hr]
      simp [LoopResult.final_state, hv]
    · obtain ⟨-, hT, -⟩ := loop_body_scale cfg st inp
      obtain ⟨hf, hs⟩ := hT hv
      rcases hb : loop_body cfg st inp with ⟨tr, r⟩
      rw [hb] at hf hs
      cases r with
      | exit code =>
        rw [while_running_exit cfg st inp rest tr code hr hb]
        exact ⟨hf, by simp [LoopResult.final_state]⟩
      | ret e =>
        obtain ⟨h1, h2, h3⟩ := hs e rfl
        cases e with
        | broke st1 =>
          rw [while_running_broke cfg st inp rest tr st1 hr hb]
          refine ⟨hf, ?_⟩
          intro stf hstf
          simp only [LoopResult.final_state, Option.some.injEq] at hstf
          subst hstf
          exact ⟨h1, h2, h3⟩
        | again st1 =>
          rw [while_running_again cfg st inp rest tr st1 hr hb]
          obtain ⟨g1, g2⟩ := ih st1 h1
          refine ⟨?_, ?_⟩
          · simp only [List.filter_append]
            rw [hf, g1]
            rfl
          · intro stf hstf
            obtain ⟨k1, k2, k3⟩ := g2 stf hstf
            exact ⟨k1, k2.trans h2, k3.trans h3⟩

/-- Lines 437-500 do not export a surface. -/
theorem present_frame_no_export (cfg : LoopConfig) (st : LoopState) (inp : IterInput) (s : Nat) :
    (present_frame cfg st inp s).1.filter is_nv12_export = [] := by
  rw [List.filter_eq_nil_iff]
  intro e he
  rcases present_frame_mem cfg st inp s e he with
    h | h | h | h | ⟨i, h⟩ | ⟨t, h⟩ | ⟨a, b, h⟩ | ⟨f, h⟩ | h | ⟨d, h⟩ | h | ⟨g, h⟩ | ⟨m, h⟩ <;>
    subst h <;> simp [is_nv12_export]

/-- The head of a pass does not export a surface. -/
theorem begin_pass_no_export (cfg : LoopConfig) (st : LoopState) (inp : IterInput) :
    (begin_pass cfg st inp).1.filter is_nv12_export = [] := by
  rw [List.filter_eq_nil_iff]
  intro e he
  rcases begin_pass_trace cfg st inp e he with ⟨x, y, w, h, rfl⟩ | rfl <;> simp [is_nv12_export]

/-- Lines 419-500 export at most one surface, and a successful export of an NV12 surface
is followed by `vaSyncSurface`. -/
theorem decode_frame_nv12_export (cfg : LoopConfig) (st : LoopState) (inp : IterInput) :
    ((decode_frame cfg st inp).1.filter is_nv12_export).length ≤ 1 ∧
    ((∀ s, Event.vaSyncSurface s ∉ (decode_frame cfg st inp).1) →
      (decode_frame cfg st inp).1.filter is_nv12_export = []) := by
  rcases decode_frame_cases cfg st inp with d | d | d | d | d
  · rw [d.2]; simp [is_nv12_export]
  · rw [d.2]; simp [is_nv12_export]
  · rw [d.2]; simp [is_nv12_export, d.1.2]
  · rw [d.2]; simp [is_nv12_export, d.1.2.2]
  · rw [d.2]
    have hp := present_frame_no_export cfg { st with frameno := wrapInt32 (st.frameno + 1) } inp
      (inp.data3 % 2 ^ 32)
    obtain ⟨rest, hrest, -, -⟩ :=
      present_frame_head cfg { st with frameno := wrapInt32 (st.frameno + 1) } inp
        (inp.data3 % 2 ^ 32)
    constructor
    · simp only [andThen_fst, List.filter_append]
      rw [hp]
      simp [is_nv12_export, d.1.2]
    · intro hn
      exfalso
      apply hn (inp.data3 % 2 ^ 32)
      simp only [andThen_fst]
      rw [hrest]
      simp

/-- A pass of the loop exports at most one surface, and a successful export of an NV12
surface is followed by `vaSyncSurface`. -/
theorem loop_body_nv12_export (cfg : LoopConfig) (st : LoopState) (inp : IterInput) :
    ((loop_body cfg st inp).1.filter is_nv12_export).length ≤ 1 ∧
    ((∀ s, Event.vaSyncSurface s ∉ (loop_body cfg st inp).1) →
      (loop_body cfg st inp).1.filter is_nv12_export = []) := by
  have hb := begin_pass_no_export cfg st inp
  rcases loop_body_cases cfg st inp with c | c | c | c | c
  · rw [c.2]; simp [List.filter_append, hb, is_nv12_export]
  · rw [c.2]; simp [List.filter_append, hb, is_nv12_export]
  · rw [c.2]; simp [List.filter_append, hb, is_nv12_export]
  · rw [c.2]
    obtain ⟨k1, k2⟩ := decode_frame_nv12_export cfg
      { (begin_pass cfg st inp).2 with packet_valid := true, want_new_packet := false } inp
    constructor
    · simp only [andThen_fst, List.filter_append]
      rw [hb]
      simpa [is_nv12_export] using k1
    · intro hn
      simp only [andThen_fst, List.filter_append]
      rw [hb, k2 (fun s hs => hn s (by simp only [andThen_fst]; exact List.mem_append_right _ hs))]
      simp [is_nv12_export]
  · rw [c.2]
    obtain ⟨k1, k2⟩ := decode_frame_nv12_export cfg (begin_pass cfg st inp).2 inp
    constructor
    · simp only [andThen_fst, List.filter_append]
      rw [hb]
      simpa [is_nv12_export] using k1
    · intro hn
      simp only [andThen_fst, List.filter_append]
      rw [hb, k2 (fun s hs => hn s (by simp only [andThen_fst]; exact List.mem_append_right _ hs))]
      simp [is_nv12_export]

/-- The calls of a list that is free of successful NV12 exports. -/
theorem filter_nv12_export_nil (l : List Event) :
    l.filter is_nv12_export = [] ↔
      ∀ s prime, Event.vaExportSurfaceHandle s VA_STATUS_SUCCESS prime ∈ l →
        prime.fourcc ≠ VA_FOURCC_NV12 := by
  rw [List.filter_eq_nil_iff]
  constructor
  · intro h s prime hmem hf
    have := h _ hmem
    simp [is_nv12_export, hf] at this
  · intro h e he
    cases e with
    | vaExportSurfaceHandle s status prime =>
      simp only [is_nv12_export, decide_eq_true_eq, not_and]
      intro hs
      subst hs
      exact h s prime he
    | _ => simp [is_nv12_export]

/-- What one pass of the loop, entered without a valid texture size, does to the scale:
nothing, and then it has not exported an NV12 surface; or it sets the scale right after
its export of an NV12 surface, the only export of the pass. -/
theorem loop_body_first_export (cfg : LoopConfig) (st : LoopState) (inp : IterInput)
    (hv : st.texture_size_valid = false) :
    ((loop_body cfg st inp).1.filter is_set_scale = [] ∧
      ((∀ s, Event.vaSyncSurface s ∉ (loop_body cfg st inp).1) ∧
        (loop_body cfg st inp).1.filter is_nv12_export = []) ∧
      ∀ e, (loop_body cfg st inp).2 = Ctl.ret e →
        e.state.texture_size_valid = false ∧ e.state.texcoord_x1 = st.texcoord_x1 ∧
        e.state.texcoord_y1 = st.texcoord_y1) ∨
    (∃ pre post, (loop_body cfg st inp).1 = pre ++
        [Event.vaExportSurfaceHandle (inp.data3 % 2 ^ 32) VA_STATUS_SUCCESS inp.prime,
          Event.vaSyncSurface (inp.data3 % 2 ^ 32),
          Event.glUniform2f_uTexCoordScale
            (TexCoord.quot st.decoder_ctx.width inp.prime.width)
            (TexCoord.quot st.decoder_ctx.height inp.prime.height)] ++ post ∧
      inp.prime.fourcc = VA_FOURCC_NV12 ∧
      ((∀ s, Event.vaSyncSurface s ∉ pre) ∧ pre.filter is_nv12_export = []) ∧
      pre.filter is_set_scale = [] ∧ post.filter is_set_scale = [] ∧
      ∀ e, (loop_body cfg st inp).2 = Ctl.ret e →
        e.state.texture_size_valid = true ∧
        e.state.texcoord_x1 = TexCoord.quot st.decoder_ctx.width inp.prime.width ∧
        e.state.texcoord_y1 = TexCoord.quot st.decoder_ctx.height inp.prime.height) := by
  obtain ⟨-, -, hF⟩ := loop_body_scale cfg st inp
  obtain ⟨hone, hsync⟩ := loop_body_nv12_export cfg st inp
  rcases hF hv with ⟨hf, hy, hs⟩ | ⟨pre, post, htr, hnv, hpy, hpf, hqf, hs⟩
  · left
    exact ⟨hf, ⟨hy, hsync hy⟩, hs⟩
  · right
    refine ⟨pre, post, htr, hnv, ⟨hpy, ?_⟩, hpf, hqf, hs⟩
    rw [htr] at hone
    simp only [List.filter_append, List.length_append] at hone
    have h1 : ([Event.vaExportSurfaceHandle (inp.data3 % 2 ^ 32) VA_STATUS_SUCCESS inp.prime,
          Event.vaSyncSurface (inp.data3 % 2 ^ 32),
          Event.glUniform2f_uTexCoordScale
            (TexCoord.quot st.decoder_ctx.width inp.prime.width)
            (TexCoord.quot st.decoder_ctx.height inp.prime.height)].filter
          is_nv12_export).length = 1 := by
      simp [is_nv12_export, hnv]
    rw [h1] at hone
    apply List.length_eq_zero.mp
    omega

/-- A run that starts without a valid texture size either never sets the scale, and then
no export in it succeeded with an NV12 surface; or it sets the scale exactly once, right
after the first successful export of an NV12 surface, from the size of that surface. -/
theorem while_running_first_export (cfg : LoopConfig) (script : List IterInput) :
    ∀ st : LoopState, st.texture_size_valid = false →
      ((while_running cfg st script).1.filter is_set_scale = [] ∧
        ((∀ s, Event.vaSyncSurface s ∉ (while_running cfg st script).1) ∧
          (while_running cfg st script).1.filter is_nv12_export = []) ∧
        ∀ stf, (while_running cfg st script).2.final_state = some stf →
          stf.texture_size_valid = false ∧ stf.texcoord_x1 = st.texcoord_x1 ∧
          stf.texcoord_y1 = st.texcoord_y1) ∨
      (∃ pre post s prime, (while_running cfg st script).1 = pre ++
          [Event.vaExportSurfaceHandle s VA_STATUS_SUCCESS prime, Event.vaSyncSurface s,
            Event.glUniform2f_uTexCoordScale (TexCoord.quot st.decoder_ctx.width prime.width)
              (TexCoord.quot st.decoder_ctx.height prime.height)] ++ post ∧
        prime.fourcc = VA_FOURCC_NV12 ∧
        ((∀ s, Event.vaSyncSurface s ∉ pre) ∧ pre.filter is_nv12_export = []) ∧
        pre.filter is_set_scale = [] ∧ post.filter is_set_scale = [] ∧
        ∀ stf, (while_running cfg st script).2.final_state = some stf →
          stf.texture_size_valid = true ∧
          stf.texcoord_x1 = TexCoord.quot st.decoder_ctx.width prime.width ∧
          stf.texcoord_y1 = TexCoord.quot st.decoder_ctx.height prime.height) := by
  induction script with
  | nil =>
    intro st hv
    left
    cases hr : st.running
    · rw [while_running_stopped cfg st [] hr]
      simp [LoopResult.final_state, hv]
    · rw [while_running_nil cfg st hr]
      simp [LoopResult.final_state, hv]
  | cons inp rest ih =>
    intro st hv
    cases hr : st.running
    · left
      rw [while_running_stopped cfg st _ hr]
      simp [LoopResult.final_state, hv]
    · obtain ⟨hW, -, -⟩ := loop_body_scale cfg st inp
      have hF := loop_body_first_export cfg st inp hv
      rcases hb : loop_body cfg st inp with ⟨tr, r⟩
      rw [hb] at hW hF
      rcases hF with ⟨hf, hy, hs⟩ | ⟨pre, post, htr, hnv, hpy, hpf, hqf, hs⟩
      · -- this pass does not set the scale
        cases r with
        | exit code =>
          left
          rw [while_running_exit cfg st inp rest tr code hr hb]
          exact ⟨hf, hy, by simp [LoopResult.final_state]⟩
        | ret e =>
          obtain ⟨h1, h2, h3⟩ := hs e rfl
          obtain ⟨w1, w2⟩ := hW e rfl
          cases e with
          | broke st1 =>
            left
            rw [while_running_broke cfg st inp rest tr st1 hr hb]
            refine ⟨hf, hy, ?_⟩
            intro stf hstf
            simp only [LoopResult.final_state, Option.some.injEq] at hstf
            subst hstf
            exact ⟨h1, h2, h3⟩
          | again st1 =>
            rw [while_running_again cfg st inp rest tr st1 hr hb]
            simp only [IterEnd.state] at h1 h2 h3 w1 w2
            rcases ih st1 h1 with ⟨g1, g2, g3⟩ | ⟨pre, post, s, prime, g1, g2, g3, g4, g5, g6⟩
            · left
              refine ⟨?_, ⟨?_, ?_⟩, ?_⟩
              · simp only [List.filter_append]
                rw [hf, g1]
                rfl
              · intro s hmem
                rcases List.mem_append.mp hmem with h | h
                · exact hy.1 s h
                · exact g2.1 s h
              · simp only [List.filter_append]
                rw [hy.2, g2.2]
                rfl
              · intro stf hstf
                obtain ⟨k1, k2, k3⟩ := g3 stf hstf
                exact ⟨k1, k2.trans h2, k3.trans h3⟩
            · right
              refine ⟨tr ++ pre, post, s, prime, ?_, g2, ⟨?_, ?_⟩, ?_, g5, ?_⟩
              · simp only
                rw [g1, w1, w2]
                simp
              · intro s hmem
                rcases List.mem_append.mp hmem with h | h
                · exact hy.1 s h
                · exact g3.1 s h
              · simp only [List.filter_append]
                rw [hy.2, g3.2]
                rfl
              · simp only [List.filter_append]
                rw [hf, g4]
                rfl
              · intro stf hstf
                obtain ⟨k1, k2, k3⟩ := g6 stf hstf
                rw [w1] at k2
                rw [w2] at k3
                exact ⟨k1, k2, k3⟩
      · -- this pass sets the scale
        right
        simp only at htr
        cases r with
        | exit code =>
          rw [while_running_exit cfg st inp rest tr code hr hb]
          exact ⟨pre, post, inp.data3 % 2 ^ 32, inp.prime, htr, hnv, hpy, hpf, hqf,
            by simp [LoopResult.final_state]⟩
        | ret e =>
          obtain ⟨h1, h2, h3⟩ := hs e rfl
          cases e with
          | broke st1 =>
            rw [while_running_broke cfg st inp rest tr st1 hr hb]
            refine ⟨pre, post, inp.data3 % 2 ^ 32, inp.prime, htr, hnv, hpy, hpf, hqf, ?_⟩
            intro stf hstf
            simp only [LoopResult.final_state, Option.some.injEq] at hstf
            subst hstf
            exact ⟨h1, h2, h3⟩
          | again st1 =>
            rw [while_running_again cfg st inp rest tr st1 hr hb]
            simp only [IterEnd.state] at h1 h2 h3
            obtain ⟨g1, g2⟩ := while_running_scale_valid cfg rest st1 h1
            refine ⟨pre, post ++ (while_running cfg st1 rest).1, inp.data3 % 2 ^ 32, inp.prime, ?_, hnv,
              hpy, hpf, ?_, ?_⟩
            · simp only
              rw [htr]
              simp
            · simp only [List.filter_append]
              rw [hqf, g1]
              rfl
            · intro stf hstf
              obtain ⟨k1, k2, k3⟩ := g2 stf hstf
              exact ⟨k1, k2.trans h2, k3.trans h3⟩

theorem clean_fail {α : Type} (msg : String) :
    exits_only_by_fail (fail msg : List Event × Ctl α) := by
  constructor
  · intro code h
    simp only [fail, Ctl.exit.injEq] at h
    exact ⟨h.symm, msg, by simp [fail]⟩
  · intro a h
    simp [fail] at h

theorem clean_ret {α : Type} (tr : List Event) (a : α) (h : ∀ msg, Event.error msg ∉ tr) :
    exits_only_by_fail (tr, Ctl.ret a) := by
  constructor
  · intro code hc
    simp at hc
  · intro b _
    exact h

theorem clean_andThen {α : Type} (pre : List Event) (r : List Event × Ctl α)
    (hpre : ∀ msg, Event.error msg ∉ pre) (hr : exits_only_by_fail r) :
    exits_only_by_fail (andThen pre r) := by
  constructor
  · intro code hc
    obtain ⟨h1, msg, h2⟩ := hr.1 code hc
    exact ⟨h1, msg, List.mem_append_right _ h2⟩
  · intro a ha msg hmem
    rcases List.mem_append.mp hmem with h | h
    · exact hpre msg h
    · exact hr.2 a ha msg h

theorem clean_thenDo {α β : Type} (r : List Event × Ctl α) (f : α → List Event × Ctl β)
    (hr : exits_only_by_fail r) (hf : ∀ a, exits_only_by_fail (f a)) :
    exits_only_by_fail (thenDo r f) := by
  rcases r with ⟨tr, c⟩
  cases c with
  | exit code =>
    constructor
    · intro code2 hc
      simp only [thenDo_exit, Ctl.exit.injEq] at hc
      subst hc
      exact hr.1 code rfl
    · intro b hb
      simp at hb
  | ret a =>
    rw [thenDo_ret]
    exact clean_andThen tr (f a) (hr.2 a rfl) (hf a)

theorem clean_ite {α : Type} (c : Prop) [Decidable c] (a b : List Event × Ctl α)
    (ha : exits_only_by_fail a) (hb : exits_only_by_fail b) :
    exits_only_by_fail (if c then a else b) := by
  split
  · exact ha
  · exact hb

theorem clean_nil {α : Type} (a : α) : exits_only_by_fail (([] : List Event), Ctl.ret a) :=
  clean_ret [] a (by simp)

theorem clean_retrieve_frame (ret : Int) (data3 : Nat) (want : Bool) (frameno : Int)
    (surf : Nat) : exits_only_by_fail (retrieve_frame ret data3 want frameno surf) := by
  unfold retrieve_frame
  refine clean_ite _ _ _ (clean_ret _ _ (by simp)) (clean_ite _ _ _ ?_ (clean_ret _ _ (by simp)))
  exact clean_andThen _ _ (by simp) (clean_fail _)

theorem clean_import_plane (prime : VADRMPRIMESurfaceDescriptor) (i texture image err : Nat) :
    exits_only_by_fail (import_plane prime i texture image err) := by
  unfold import_plane
  refine clean_ite _ _ _ (clean_fail _) (clean_andThen _ _ (by simp) ?_)
  refine clean_ite _ _ _ (clean_fail _) (clean_andThen _ _ (by simp) ?_)
  exact clean_ite _ _ _ (clean_fail _) (clean_nil _)

theorem clean_present_frame (cfg : LoopConfig) (st : LoopState) (inp : IterInput) (s : Nat) :
    exits_only_by_fail (present_frame cfg st inp s) := by
  unfold present_frame
  refine clean_andThen _ _ (by simp [mem_set_scale]) ?_
  refine clean_thenDo _ _ (clean_import_plane _ _ _ _ _) (fun _ => ?_)
  refine clean_thenDo _ _ (clean_import_plane _ _ _ _ _) (fun _ => ?_)
  refine clean_andThen _ _ (by simp [mem_close_fds]) ?_
  exact clean_ite _ _ _ (clean_fail _) (clean_ret _ _ (by simp [destroy_image]))

theorem clean_decode_frame (cfg : LoopConfig) (st : LoopState) (inp : IterInput) :
    exits_only_by_fail (decode_frame cfg st inp) := by
  unfold decode_frame
  refine clean_thenDo _ _ (clean_retrieve_frame _ _ _ _ _) (fun r => ?_)
  refine clean_ite _ _ _ (clean_nil _) (clean_andThen _ _ (by simp) ?_)
  refine clean_ite _ _ _ (clean_fail _) (clean_ite _ _ _ (clean_fail _) ?_)
  exact clean_present_frame _ _ _ _

/-- A pass of the loop exits only through `fail`. -/
theorem clean_loop_body (cfg : LoopConfig) (st : LoopState) (inp : IterInput) :
    exits_only_by_fail (loop_body cfg st inp) := by
  have hb := begin_pass_only cfg st inp
  unfold loop_body
  refine clean_andThen _ _ (fun msg => hb _ (by simp) (by simp)) ?_
  refine clean_ite _ _ _ (clean_andThen _ _ (by simp) ?_) (clean_decode_frame _ _ _)
  refine clean_ite _ _ _ (clean_nil _) (clean_ite _ _ _ (clean_nil _) ?_)
  refine clean_andThen _ _ (by simp) ?_
  exact clean_ite _ _ _ (clean_fail _) (clean_decode_frame _ _ _)

theorem clean_lookup_functions (env : InitEnv) : exits_only_by_fail (lookup_functions env) := by
  unfold lookup_functions
  exact clean_ite _ _ _ (clean_fail _) (clean_ite _ _ _ (clean_fail _)
    (clean_ite _ _ _ (clean_fail _) (clean_nil _)))

/-- Start-up after `show_help` exits only through `fail`. -/
theorem clean_startup (argc : Int) (env : InitEnv) (h : 2 ≤ argc) :
    exits_only_by_fail (startup argc env) := by
  have hs : show_help argc = ([], Ctl.ret ()) := by
    simp [show_help, not_lt.mpr h]
  unfold startup
  rw [hs]
  refine clean_thenDo _ _ (clean_nil _) (fun _ => ?_)
  refine clean_thenDo _ _ ?_ (fun _ => ?_)
  · unfold open_x11_display
    exact clean_ite _ _ _ (clean_fail _) (clean_nil _)
  refine clean_thenDo _ _ ?_ (fun _ => ?_)
  · unfold initialize_vaapi
    exact clean_ite _ _ _ (clean_fail _) (clean_ite _ _ _ (clean_fail _) (clean_nil _))
  refine clean_thenDo _ _ ?_ (fun _ => ?_)
  · unfold open_source
    exact clean_ite _ _ _ (clean_fail _) (clean_ite _ _ _ (clean_fail _)
      (clean_ite _ _ _ (clean_fail _) (clean_ite _ _ _ (clean_fail _)
      (clean_ite _ _ _ (clean_fail _) (clean_nil _)))))
  refine clean_thenDo _ _ ?_ (fun decoder_ctx => ?_)
  · unfold populate_context
    exact clean_ite _ _ _ (clean_fail _) (clean_ite _ _ _ (clean_fail _)
      (clean_ite _ _ _ (clean_fail _) (clean_nil _)))
  refine clean_thenDo _ _ ?_ (fun _ => ?_)
  · unfold create_x11_window
    exact clean_ite _ _ _ (clean_fail _) (clean_nil _)
  refine clean_thenDo _ _ ?_ (fun _ => ?_)
  · unfold initialize_egl
    exact clean_ite _ _ _ (clean_fail _) (clean_ite _ _ _ (clean_fail _)
      (clean_ite _ _ _ (clean_fail _) (clean_nil _)))
  refine clean_thenDo _ _ ?_ (fun _ => ?_)
  · unfold create_opengl_ctx
    exact clean_ite _ _ _ (clean_fail _) (clean_ite _ _ _ (clean_fail _)
      (clean_ite _ _ _ (clean_fail _) (clean_nil _)))
  refine clean_thenDo _ _ ?_ (fun _ => ?_)
  · unfold opengl_shader_setup
    exact clean_ite _ _ _ (clean_fail _) (clean_ite _ _ _ (clean_fail _)
      (clean_ite _ _ _ (clean_fail _) (clean_ite _ _ _ (clean_fail _)
      (clean_ite _ _ _ (clean_fail _) (clean_ite _ _ _ (clean_fail _)
      (clean_ite _ _ _ (clean_fail _) (clean_nil _)))))))
  refine clean_andThen _ _ (by simp [resize_window]) ?_
  exact clean_ite _ _ _ (clean_fail _) (clean_nil _)

/-- The flag `running` after a pass that goes on: it was set before and the pass saw no
quit event. -/
theorem loop_body_running (cfg : LoopConfig) (st : LoopState) (inp : IterInput) (e : IterEnd)
    (h : (loop_body cfg st inp).2 = Ctl.ret e) :
    e.state.running =
      (st.running && inp.xevents.all (fun ev => !is_quit cfg.WM_DELETE_WINDOW ev)) := by
  have hb : (begin_pass cfg st inp).2.running =
      (st.running && inp.xevents.all (fun ev => !is_quit cfg.WM_DELETE_WINDOW ev)) :=
    handle_x11_events_running cfg.WM_DELETE_WINDOW inp.xevents st.running st.decoder_ctx
  obtain ⟨pre, hpre, hcase⟩ := loop_body_split cfg st inp
  rcases hcase with ⟨-, hst⟩ | ⟨st1, pre1, hpre1, hnv, heq, h1, h2, h3, h4, h5, h6, h7⟩
  · obtain ⟨-, -, -, -, hr⟩ := hst e h
    rw [hr, hb]
  · obtain ⟨rest, -, -, hret⟩ := present_frame_head cfg st1 inp (inp.data3 % 2 ^ 32)
    rw [heq] at h
    have := hret e h
    subst this
    rw [← hb, ← h5]
    unfold set_scale
    split <;> rfl

/-- The packet reads of a pass: a pass that breaks has read the end of the stream, a pass
that goes on has read no end of stream. -/
theorem loop_body_reads (cfg : LoopConfig) (st : LoopState) (inp : IterInput) :
    (∀ st1, (loop_body cfg st inp).2 = Ctl.ret (IterEnd.broke st1) →
      Event.av_read_frame inp.read_ret inp.stream_index ∈ (loop_body cfg st inp).1 ∧
      inp.read_ret < 0) ∧
    (∀ st1, (loop_body cfg st inp).2 = Ctl.ret (IterEnd.again st1) →
      ∀ r i, Event.av_read_frame r i ∈ (loop_body cfg st inp).1 → 0 ≤ r) := by
  have hb := begin_pass_only cfg st inp
  have hdec : ∀ (st0 : LoopState) (r i : Int),
      Event.av_read_frame r i ∉ (decode_frame cfg st0 inp).1 := by
    intro st0 r i h
    rcases decode_frame_mem cfg _ inp _ h with h | h | h | h | h
    · simp at h
    · simp at h
    · simp at h
    · simp at h
    · have := present_frame_mem cfg _ inp _ _ h
      simp at this
  have hbroke : ∀ (st0 st1 : LoopState),
      (decode_frame cfg st0 inp).2 ≠ Ctl.ret (IterEnd.broke st1) := by
    intro st0 st1 h
    rcases decode_frame_cases cfg st0 inp with d | d | d | d | d
    · rw [d.2] at h; simp at h
    · rw [d.2] at h; simp at h
    · rw [d.2] at h; simp at h
    · rw [d.2] at h; simp at h
    · rw [d.2] at h
      obtain ⟨rest, -, -, hret⟩ := present_frame_head cfg { st0 with frameno := wrapInt32 (st0.frameno + 1) }
        inp (inp.data3 % 2 ^ 32)
      have := hret _ h
      simp at this
  rcases loop_body_cases cfg st inp with c | c | c | c | c
  · rw [c.2]
    refine ⟨fun st1 _ => ⟨by simp, c.1.2⟩, fun st1 h => ?_⟩
    simp at h
  · rw [c.2]
    refine ⟨fun st1 h => ?_, fun st1 _ r i hmem => ?_⟩
    · simp at h
    · simp [hb] at hmem
      rw [hmem.1]
      exact c.1.2.1
  · rw [c.2]
    refine ⟨fun st1 h => ?_, fun st1 h => ?_⟩
    · simp at h
    · simp at h
  · rw [c.2]
    refine ⟨fun st1 h => ?_, fun st1 _ r i hmem => ?_⟩
    · exact absurd h (hbroke _ _)
    · simp [hb, hdec] at hmem
      rw [hmem.1]
      exact c.1.2.1
  · rw [c.2]
    refine ⟨fun st1 h => ?_, fun st1 _ r i hmem => ?_⟩
    · exact absurd h (hbroke _ _)
    · simp [hb, hdec] at hmem

/-- How a run of the loop can end, and what its calls show of it. -/
theorem while_running_outcome (cfg : LoopConfig) (script : List IterInput) :
    ∀ st : LoopState,
      (∀ code, (while_running cfg st script).2 = LoopResult.exited code →
        code = 1 ∧ ∃ msg, Event.error msg ∈ (while_running cfg st script).1) ∧
      ((∀ code, (while_running cfg st script).2 ≠ LoopResult.exited code) →
        ∀ msg, Event.error msg ∉ (while_running cfg st script).1) ∧
      (∀ stf, (while_running cfg st script).2 = LoopResult.returned stf LoopExit.end_of_stream →
        ∃ r i, Event.av_read_frame r i ∈ (while_running cfg st script).1 ∧ r < 0) ∧
      (∀ stf, st.running = true →
        (while_running cfg st script).2 = LoopResult.returned stf LoopExit.not_running →
        ∃ inp ∈ script, ∃ ev ∈ inp.xevents, is_quit cfg.WM_DELETE_WINDOW ev = true) ∧
      (∀ stf, (while_running cfg st script).2 = LoopResult.pending stf →
        (∀ inp ∈ script, ∀ ev ∈ inp.xevents, is_quit cfg.WM_DELETE_WINDOW ev = false) ∧
        ∀ r i, Event.av_read_frame r i ∈ (while_running cfg st script).1 → 0 ≤ r) := by
  induction script with
  | nil =>
    intro st
    cases hr : st.running
    · rw [while_running_stopped cfg st [] hr]
      simp
    · rw [while_running_nil cfg st hr]
      simp
  | cons inp rest ih =>
    intro st
    cases hr : st.running
    · rw [while_running_stopped cfg st _ hr]
      simp
    · have hclean := clean_loop_body cfg st inp
      obtain ⟨hbr, hag⟩ := loop_body_reads cfg st inp
      rcases hb : loop_body cfg st inp with ⟨tr, r⟩
      rw [hb] at hclean hbr hag
      cases r with
      | exit code =>
        rw [while_running_exit cfg st inp rest tr code hr hb]
        obtain ⟨h1, h2⟩ := hclean.1 code rfl
        refine ⟨?_, ?_, ?_, ?_, ?_⟩
        · intro c hc
          simp only [LoopResult.exited.injEq] at hc
          subst hc
          exact ⟨h1, h2⟩
        · intro hne
          exact absurd rfl (hne code)
        · intro stf h; simp at h
        · intro stf _ h; simp at h
        · intro stf h; simp at h
      | ret e =>
        have hne := hclean.2 e rfl
        cases e with
        | broke st1 =>
          rw [while_running_broke cfg st inp rest tr st1 hr hb]
          refine ⟨?_, ?_, ?_, ?_, ?_⟩
          · intro c hc; simp at hc
          · intro _; exact hne
          · intro stf _
            exact ⟨_, _, (hbr st1 rfl).1, (hbr st1 rfl).2⟩
          · intro stf _ h; simp at h
          · intro stf h; simp at h
        | again st1 =>
          rw [while_running_again cfg st inp rest tr st1 hr hb]
          have hrun := loop_body_running cfg st inp (IterEnd.again st1) (by rw [hb])
          simp only [IterEnd.state, hr, Bool.true_and] at hrun
          obtain ⟨i1, i2, i3, i4, i5⟩ := ih st1
          refine ⟨?_, ?_, ?_, ?_, ?_⟩
          · intro c hc
            obtain ⟨k1, msg, k2⟩ := i1 c hc
            exact ⟨k1, msg, List.mem_append_right _ k2⟩
          · intro hn msg hmem
            rcases List.mem_append.mp hmem with h | h
            · exact hne msg h
            · exact i2 hn msg h
          · intro stf h
            obtain ⟨r, i, k1, k2⟩ := i3 stf h
            exact ⟨r, i, List.mem_append_right _ k1, k2⟩
          · intro stf _ h
            cases hr1 : st1.running
            · rw [hr1] at hrun
              have hex : ∃ ev ∈ inp.xevents, is_quit cfg.WM_DELETE_WINDOW ev = true := by
                by_contra hcon
                push_neg at hcon
                have : inp.xevents.all (fun ev => !is_quit cfg.WM_DELETE_WINDOW ev) = true := by
                  rw [List.all_eq_true]
                  intro ev hev
                  simp [hcon ev hev]
                rw [this] at hrun
                exact Bool.noConfusion hrun
              obtain ⟨ev, hev, hq⟩ := hex
              exact ⟨inp, List.mem_cons_self _ _, ev, hev, hq⟩
            · obtain ⟨inp2, hin, ev, hev, hq⟩ := i4 stf hr1 h
              exact ⟨inp2, List.mem_cons_of_mem _ hin, ev, hev, hq⟩
          · intro stf h
            obtain ⟨k1, k2⟩ := i5 stf h
            have hr1 : st1.running = true := by
              cases hr1 : st1.running
              · rw [while_running_stopped cfg st1 rest hr1] at h
                simp at h
              · rfl
            rw [hr1] at hrun
            have hall := List.all_eq_true.mp hrun.symm
            refine ⟨?_, ?_⟩
            · intro inp2 hin ev hev
              rcases List.mem_cons.mp hin with rfl | hin
              · have := hall ev hev
                simpa using this
              · exact k1 inp2 hin ev hev
            · intro r i hmem
              rcases List.mem_append.mp hmem with hm | hm
              · exact hag st1 rfl r i hm
              · exact k2 r i hm

/-- If `thenDo r f` returns, `r` returned and `f` returned after it. -/
theorem thenDo_eq_ret {α β : Type} (r : List Event × Ctl α) (f : α → List Event × Ctl β)
    (tr : List Event) (b : β) (h : thenDo r f = (tr, Ctl.ret b)) :
    ∃ tr1 a tr2, r = (tr1, Ctl.ret a) ∧ f a = (tr2, Ctl.ret b) ∧ tr = tr1 ++ tr2 := by
  rcases r with ⟨tr1, c⟩
  cases c with
  | exit code => simp at h
  | ret a =>
    rw [thenDo_ret] at h
    refine ⟨tr1, a, (f a).1, rfl, ?_, ?_⟩
    · have h2 : (andThen tr1 (f a)).2 = Ctl.ret b := by rw [h]
      simp only [andThen_snd] at h2
      rw [← h2]
    · have h1 : (andThen tr1 (f a)).1 = tr := by rw [h]
      simp only [andThen_fst] at h1
      exact h1.symm

/-- What start-up hands to `main_loop` when it returns. -/
theorem startup_ret (argc : Int) (env : InitEnv) (tr : List Event) (cfg : LoopConfig)
    (st : LoopState) (h : startup argc env = (tr, Ctl.ret (cfg, st))) :
    2 ≤ argc ∧ st = initial_state env.decoder_ctx ∧
    cfg.WM_DELETE_WINDOW = env.XInternAtom ∧
    tr = resize_window env.vp_width env.vp_height env.decoder_ctx := by
  unfold startup at h
  obtain ⟨t1, a1, u1, e1, k1, q1⟩ := thenDo_eq_ret _ _ _ _ h
  obtain ⟨t2, a2, u2, e2, k2, q2⟩ := thenDo_eq_ret _ _ _ _ k1
  obtain ⟨t3, a3, u3, e3, k3, q3⟩ := thenDo_eq_ret _ _ _ _ k2
  obtain ⟨t4, a4, u4, e4, k4, q4⟩ := thenDo_eq_ret _ _ _ _ k3
  obtain ⟨t5, a5, u5, e5, k5, q5⟩ := thenDo_eq_ret _ _ _ _ k4
  obtain ⟨t6, a6, u6, e6, k6, q6⟩ := thenDo_eq_ret _ _ _ _ k5
  obtain ⟨t7, a7, u7, e7, k7, q7⟩ := thenDo_eq_ret _ _ _ _ k6
  obtain ⟨t8, a8, u8, e8, k8, q8⟩ := thenDo_eq_ret _ _ _ _ k7
  obtain ⟨t9, a9, u9, e9, k9, q9⟩ := thenDo_eq_ret _ _ _ _ k8
  have g1 : 2 ≤ argc ∧ t1 = [] := by
    unfold show_help at e1
    split_ifs at e1 with hc <;> simp at e1
    exact ⟨not_lt.mp hc, e1⟩
  have g2 : t2 = [] := by
    unfold open_x11_display at e2
    split_ifs at e2 <;> simp [fail] at e2
    exact e2
  have g3 : t3 = [] := by
    unfold initialize_vaapi at e3
    split_ifs at e3 <;> simp [fail] at e3
    exact e3
  have g4 : t4 = [] := by
    unfold open_source at e4
    split_ifs at e4 <;> simp [fail] at e4
    exact e4.1
  have g5 : t5 = [] ∧ a5 = env.decoder_ctx := by
    unfold populate_context at e5
    split_ifs at e5 <;> simp [fail] at e5
    exact ⟨e5.1, e5.2.symm⟩
  have g6 : t6 = [] ∧ a6 = env.XInternAtom := by
    unfold create_x11_window at e6
    split_ifs at e6 <;> simp [fail] at e6
    exact ⟨e6.1, e6.2.symm⟩
  have g7 : t7 = [] := by
    unfold initialize_egl at e7
    split_ifs at e7 <;> simp [fail] at e7
    exact e7
  have g8 : t8 = [] := by
    unfold create_opengl_ctx at e8
    split_ifs at e8 <;> simp [fail] at e8
    exact e8
  have g9 : t9 = [] := by
    unfold opengl_shader_setup at e9
    split_ifs at e9 <;> simp [fail] at e9
    exact e9
  obtain ⟨g1a, g1b⟩ := g1
  obtain ⟨g5a, g5b⟩ := g5
  obtain ⟨g6a, g6b⟩ := g6
  subst g1b g2 g3 g4 g5a g5b g6a g6b g7 g8 g9
  split_ifs at k9 <;> simp [andThen, fail] at k9
  obtain ⟨h1, ⟨h2, h3⟩⟩ := k9
  subst q9 q8 q7 q6 q5 q4 q3 q2 q1 h1 h2 h3
  exact ⟨g1a, rfl, rfl, by simp⟩

/-! ## The claims -/

/-- C1: in a pass of the loop in which `vaExportSurfaceHandle` was called and succeeded
with a descriptor whose fourcc is not NV12, the pass ends in `fail` (exit code 1) right
after that call: the message "export format check" is the last call of the pass, and the
pass has created no image, has not set the texture-coordinate scale and has issued no
`glDrawArrays`. -/
theorem non_nv12_export_is_fatal (cfg : LoopConfig) (st : LoopState) (inp : IterInput) (s : Nat)
    (prime : VADRMPRIMESurfaceDescriptor)
    (hexp : Event.vaExportSurfaceHandle s VA_STATUS_SUCCESS prime ∈ (loop_body cfg st inp).1)
    (hfmt : prime.fourcc ≠ VA_FOURCC_NV12) :
    (loop_body cfg st inp).2 = Ctl.exit 1 ∧
    (∃ pre, (loop_body cfg st inp).1 =
      pre ++ [Event.vaExportSurfaceHandle s VA_STATUS_SUCCESS prime,
        Event.error "export format check"]) ∧
    (∀ a img, Event.eglCreateImageKHR a img ∉ (loop_body cfg st inp).1) ∧
    (∀ x y, Event.glUniform2f_uTexCoordScale x y ∉ (loop_body cfg st inp).1) ∧
    (∀ err, Event.glDrawArrays err ∉ (loop_body cfg st inp).1) := by
  have hb := begin_pass_only cfg st inp
  rcases loop_body_cases cfg st inp with c | c | c | c | c
  · rw [c.2] at hexp; simp [hb] at hexp
  · rw [c.2] at hexp; simp [hb] at hexp
  · rw [c.2] at hexp; simp [hb] at hexp
  · rw [c.2] at hexp ⊢
    simp [hb] at hexp
    rw [decode_frame_not_nv12 cfg _ inp s prime hfmt hexp]
    simp [hb]
    exact ⟨(begin_pass cfg st inp).1 ++ [Event.av_read_frame inp.read_ret inp.stream_index,
      Event.avcodec_send_packet inp.send_ret, Event.avcodec_receive_frame inp.receive_ret,
      Event.print_frame (wrapInt32 ((begin_pass cfg st inp).2.frameno + 1))], by simp⟩
  · rw [c.2] at hexp ⊢
    simp [hb] at hexp
    rw [decode_frame_not_nv12 cfg _ inp s prime hfmt hexp]
    simp [hb]
    exact ⟨(begin_pass cfg st inp).1 ++ [Event.avcodec_receive_frame inp.receive_ret,
      Event.print_frame (wrapInt32 ((begin_pass cfg st inp).2.frameno + 1))], by simp⟩

/-- C1, witness: the first pass on a surface whose fourcc is 7. -/
theorem non_nv12_export_is_fatal_witness :
    (Event.vaExportSurfaceHandle 5 VA_STATUS_SUCCESS { sample_prime with fourcc := 7 } ∈
      (loop_body sample_cfg (initial_state sample_ctx)
        { sample_input with prime := { sample_prime with fourcc := 7 } }).1 ∧
    ({ sample_prime with fourcc := 7 } : VADRMPRIMESurfaceDescriptor).fourcc ≠ VA_FOURCC_NV12) ∧
    (loop_body sample_cfg (initial_state sample_ctx)
        { sample_input with prime := { sample_prime with fourcc := 7 } }).2 = Ctl.exit 1 :=
  ⟨⟨by decide, by decide⟩,
    (non_nv12_export_is_fatal sample_cfg (initial_state sample_ctx)
      { sample_input with prime := { sample_prime with fourcc := 7 } } 5
      { sample_prime with fourcc := 7 } (by decide) (by decide)).1⟩

/-- C2: in a pass of the loop in which both texture binds succeeded (so the export and
both `eglCreateImageKHR` calls succeeded before them), the `close` calls of the pass are
exactly one call per exported handle `objects[k].fd`, `0 <= k < num_objects`, in order
and in one block; both `eglCreateImageKHR` calls, each returning an image, and the export
come before the block, and no `eglCreateImageKHR` comes after it. When the handles are
pairwise distinct, each is closed by exactly one call of the pass.  `num_objects` is
below 2^31 (it counts the entries of a four-element array). -/
theorem exported_handles_closed_once (cfg : LoopConfig) (st : LoopState) (inp : IterInput)
    (hn : inp.prime.num_objects < 2 ^ 31)
    (hbind : ((loop_body cfg st inp).1.filter bound_ok).length = 2) :
    ∃ pre post,
      (loop_body cfg st inp).1 = pre ++ (exported_fds inp.prime).map Event.close ++ post ∧
      (∀ fd, Event.close fd ∉ pre) ∧ (∀ fd, Event.close fd ∉ post) ∧
      Event.vaExportSurfaceHandle (inp.data3 % 2 ^ 32) VA_STATUS_SUCCESS inp.prime ∈ pre ∧
      Event.eglCreateImageKHR (img_attr inp.prime 0) inp.image0 ∈ pre ∧ inp.image0 ≠ 0 ∧
      Event.eglCreateImageKHR (img_attr inp.prime 1) inp.image1 ∈ pre ∧ inp.image1 ≠ 0 ∧
      (∀ a img, Event.eglCreateImageKHR a img ∉ post) ∧
      ((exported_fds inp.prime).Nodup → ∀ fd ∈ exported_fds inp.prime,
        (loop_body cfg st inp).1.count (Event.close fd) = 1) := by
  obtain ⟨pre, hpre, hcase⟩ := loop_body_split cfg st inp
  have hfront := filter_bound_ok_front inp pre hpre
  have hsc := filter_bound_ok_set_scale
  have hcl := filter_bound_ok_close_fds inp.prime
  have hclose : close_fds inp.prime = (exported_fds inp.prime).map Event.close := by
    simp [close_fds, exported_fds, toInt32_small _ hn]
  have hnc : ∀ fd, Event.close fd ∉ pre := by
    intro fd hmem
    have := hpre _ hmem
    simp at this
  have hcount : ∀ (a b : List Event), (∀ fd, Event.close fd ∉ a) → (∀ fd, Event.close fd ∉ b) →
      (exported_fds inp.prime).Nodup → ∀ fd ∈ exported_fds inp.prime,
      (a ++ (exported_fds inp.prime).map Event.close ++ b).count (Event.close fd) = 1 := by
    intro a b ha hb hnd fd hfd
    have hinj : Function.Injective Event.close := by
      intro x y hxy
      injection hxy
    rw [List.count_append, List.count_append, List.count_eq_zero_of_not_mem (ha fd),
      List.count_eq_zero_of_not_mem (hb fd)]
    have h1 : ((exported_fds inp.prime).map Event.close).Nodup := hnd.map hinj
    have h2 : Event.close fd ∈ (exported_fds inp.prime).map Event.close :=
      List.mem_map_of_mem _ hfd
    rw [List.count_eq_one_of_mem h1 h2]
  rcases hcase with ⟨htr, -⟩ | ⟨st1, pre1, hpre1, hnv, heq, -⟩
  · rw [htr, hfront] at hbind
    simp at hbind
  · rw [heq] at hbind ⊢
    have hexp : Event.vaExportSurfaceHandle (inp.data3 % 2 ^ 32) VA_STATUS_SUCCESS inp.prime ∈
        pre := by rw [hpre1]; simp
    rcases present_frame_cases cfg st1 inp (inp.data3 % 2 ^ 32) with
      c | c | c | c | c | c | c | c
    · rw [c.2] at hbind
      simp [List.filter_append, hfront, hsc, hcl, bound_ok, import_ok, List.filter_cons] at hbind
    · rw [c.2] at hbind
      simp [List.filter_append, hfront, hsc, hcl, bound_ok, import_ok, List.filter_cons] at hbind
    · rw [c.2] at hbind
      simp [List.filter_append, hfront, hsc, hcl, bound_ok, import_ok, List.filter_cons,
        c.1] at hbind
    · rw [c.2] at hbind
      simp [List.filter_append, hfront, hsc, hcl, bound_ok, import_ok, List.filter_cons] at hbind
    · rw [c.2] at hbind
      simp [List.filter_append, hfront, hsc, hcl, bound_ok, import_ok, List.filter_cons] at hbind
    · rw [c.2] at hbind
      simp [List.filter_append, hfront, hsc, hcl, bound_ok, import_ok, List.filter_cons,
        c.1] at hbind
    · rw [c.2]
      have e1 : ∀ fd, Event.close fd ∉ pre ++ ([Event.vaSyncSurface (inp.data3 % 2 ^ 32)] ++
          (set_scale st1 inp.prime).1 ++ import_ok inp.prime 0 cfg.texture0 inp.image0 ++
          import_ok inp.prime 1 cfg.texture1 inp.image1) := by
        intro fd
        simp [hnc, mem_set_scale, import_ok]
      have e2 : ∀ fd, Event.close fd ∉
          [Event.glClear, Event.glDrawArrays inp.draw_error, Event.error "drawing"] := by
        intro fd
        simp
      have e3 : (andThen pre
          ([Event.vaSyncSurface (inp.data3 % 2 ^ 32)] ++ (set_scale st1 inp.prime).1 ++
            import_ok inp.prime 0 cfg.texture0 inp.image0 ++
            import_ok inp.prime 1 cfg.texture1 inp.image1 ++ close_fds inp.prime ++
            [Event.glClear, Event.glDrawArrays inp.draw_error, Event.error "drawing"],
          (Ctl.exit 1 : Ctl IterEnd))).1 =
          pre ++ ([Event.vaSyncSurface (inp.data3 % 2 ^ 32)] ++ (set_scale st1 inp.prime).1 ++
            import_ok inp.prime 0 cfg.texture0 inp.image0 ++
            import_ok inp.prime 1 cfg.texture1 inp.image1) ++
          (exported_fds inp.prime).map Event.close ++
          [Event.glClear, Event.glDrawArrays inp.draw_error, Event.error "drawing"] := by
        simp [hclose]
      refine ⟨_, _, e3, e1, e2, ?_, ?_, c.1.2.1, ?_, c.1.2.2.2.2.1, ?_, ?_⟩
      · exact List.mem_append_left _ hexp
      · simp [import_ok]
      · simp [import_ok]
      · intro a img
        simp
      · rw [e3]
        exact hcount _ _ e1 e2
    · rw [c.2]
      have e1 : ∀ fd, Event.close fd ∉ pre ++ ([Event.vaSyncSurface (inp.data3 % 2 ^ 32)] ++
          (set_scale st1 inp.prime).1 ++ import_ok inp.prime 0 cfg.texture0 inp.image0 ++
          import_ok inp.prime 1 cfg.texture1 inp.image1) := by
        intro fd
        simp [hnc, mem_set_scale, import_ok]
      have e2 : ∀ fd, Event.close fd ∉
          [Event.glClear, Event.glDrawArrays 0, Event.eglSwapBuffers] ++
            destroy_image 0 inp.image0 ++ destroy_image 1 inp.image1 := by
        intro fd
        simp [destroy_image]
      have e3 : (andThen pre (shown_trace cfg st1 inp (inp.data3 % 2 ^ 32),
          Ctl.ret (IterEnd.again (set_scale st1 inp.prime).2))).1 =
          pre ++ ([Event.vaSyncSurface (inp.data3 % 2 ^ 32)] ++ (set_scale st1 inp.prime).1 ++
            import_ok inp.prime 0 cfg.texture0 inp.image0 ++
            import_ok inp.prime 1 cfg.texture1 inp.image1) ++
          (exported_fds inp.prime).map Event.close ++
          ([Event.glClear, Event.glDrawArrays 0, Event.eglSwapBuffers] ++
            destroy_image 0 inp.image0 ++ destroy_image 1 inp.image1) := by
        simp [hclose, shown_trace]
      refine ⟨_, _, e3, e1, e2, ?_, ?_, c.1.2.1, ?_, c.1.2.2.2.2.1, ?_, ?_⟩
      · exact List.mem_append_left _ hexp
      · simp [import_ok]
      · simp [import_ok]
      · intro a img
        simp [destroy_image]
      · rw [e3]
        exact hcount _ _ e1 e2

/-- C2, witness: the first pass on the sample input closes the handles 10 and 11 once
each. -/
theorem exported_handles_closed_once_witness :
    (sample_input.prime.num_objects < 2 ^ 31 ∧
      ((loop_body sample_cfg (initial_state sample_ctx) sample_input).1.filter bound_ok).length
        = 2) ∧
    ∃ pre post,
      (loop_body sample_cfg (initial_state sample_ctx) sample_input).1 =
        pre ++ [Event.close 10, Event.close 11] ++ post ∧
      (∀ fd, Event.close fd ∉ pre) ∧ (∀ fd, Event.close fd ∉ post) :=
  ⟨⟨by decide, by decide⟩,
    (exported_handles_closed_once sample_cfg (initial_state sample_ctx) sample_input
      (by decide) (by decide)).elim fun pre h => h.elim fun post hp =>
        ⟨pre, post, hp.1, hp.2.1, hp.2.2.1⟩⟩

/-- C3: a pass of the loop that reaches `eglSwapBuffers` goes on to the next pass, and its
calls end with the swap followed by the two `eglDestroyImageKHR` calls on `images[0]` and
`images[1]`.  Before the swap it has made exactly two `eglCreateImageKHR` calls, for
plane 0 and plane 1, both returning an image, has bound plane `i` to texture `i`, and has
destroyed nothing.  Over a whole run, at every call of `vaExportSurfaceHandle` as many
images have been destroyed as were created: no image lives on into a later export. -/
theorem two_images_per_shown_frame (cfg : LoopConfig) (st : LoopState) (inp : IterInput)
    (hswap : Event.eglSwapBuffers ∈ (loop_body cfg st inp).1) :
    (∃ pre st1,
      (loop_body cfg st inp).2 = Ctl.ret (IterEnd.again st1) ∧
      (loop_body cfg st inp).1 = pre ++
        [Event.eglSwapBuffers,
          Event.glActiveTexture 0, Event.glBindTexture 0, Event.eglDestroyImageKHR inp.image0,
          Event.glActiveTexture 1, Event.glBindTexture 0, Event.eglDestroyImageKHR inp.image1] ∧
      pre.filter is_create = [Event.eglCreateImageKHR (img_attr inp.prime 0) inp.image0,
        Event.eglCreateImageKHR (img_attr inp.prime 1) inp.image1] ∧
      (∀ a img, Event.eglCreateImageKHR a img ∈ pre → img ≠ 0) ∧
      pre.filter is_destroy = [] ∧
      import_ok inp.prime 0 cfg.texture0 inp.image0 ++
        import_ok inp.prime 1 cfg.texture1 inp.image1 <:+: pre) ∧
    (∀ (script : List IterInput) (st0 : LoopState) (before after : List Event) (s : Nat)
      (status : Int) (prime : VADRMPRIMESurfaceDescriptor),
      (while_running cfg st0 script).1 =
        before ++ Event.vaExportSurfaceHandle s status prime :: after →
      before.countP is_create = before.countP is_destroy) := by
  constructor
  · obtain ⟨pre, hpre, hcase⟩ := loop_body_split cfg st inp
    obtain ⟨hf1, hf2, hf3⟩ := front_no_image inp pre hpre
    have hsc := set_scale_no_image
    have hcl := close_fds_no_image inp.prime
    rcases hcase with ⟨htr, -⟩ | ⟨st1, pre1, hpre1, hnv, heq, -⟩
    · rw [htr] at hswap
      exact absurd hswap hf3
    · rw [heq] at hswap ⊢
      rcases present_frame_cases cfg st1 inp (inp.data3 % 2 ^ 32) with
        c | c | c | c | c | c | c | c
      · rw [c.2] at hswap
        simp [hf3, mem_set_scale, import_ok, mem_close_fds] at hswap
      · rw [c.2] at hswap
        simp [hf3, mem_set_scale, import_ok, mem_close_fds] at hswap
      · rw [c.2] at hswap
        simp [hf3, mem_set_scale, import_ok, mem_close_fds] at hswap
      · rw [c.2] at hswap
        simp [hf3, mem_set_scale, import_ok, mem_close_fds] at hswap
      · rw [c.2] at hswap
        simp [hf3, mem_set_scale, import_ok, mem_close_fds] at hswap
      · rw [c.2] at hswap
        simp [hf3, mem_set_scale, import_ok, mem_close_fds] at hswap
      · rw [c.2] at hswap
        simp [hf3, mem_set_scale, import_ok, mem_close_fds] at hswap
      · rw [c.2]
        refine ⟨pre ++ ([Event.vaSyncSurface (inp.data3 % 2 ^ 32)] ++
            (set_scale st1 inp.prime).1 ++
            import_ok inp.prime 0 cfg.texture0 inp.image0 ++
            import_ok inp.prime 1 cfg.texture1 inp.image1 ++ close_fds inp.prime ++
            [Event.glClear, Event.glDrawArrays 0]), _, rfl, ?_, ?_, ?_, ?_, ?_⟩
        · simp [shown_trace, destroy_image]
        · simp [List.filter_append, hf1, hsc, hcl, import_ok, is_create, List.filter_cons, c.1]
        · intro a img hmem
          simp only [List.mem_append, List.mem_cons, List.mem_singleton, List.not_mem_nil,
            or_false, mem_set_scale, import_ok, mem_close_fds] at hmem
          have hp : ∀ a img, Event.eglCreateImageKHR a img ∉ pre := by
            intro a img hm
            have := hpre _ hm
            simp at this
          casesm* _ ∨ _ <;> simp_all
        · simp [List.filter_append, hf2, hsc, hcl, import_ok, is_destroy, List.filter_cons]
        · refine ⟨pre ++ ([Event.vaSyncSurface (inp.data3 % 2 ^ 32)] ++
              (set_scale st1 inp.prime).1),
            close_fds inp.prime ++ [Event.glClear, Event.glDrawArrays 0], ?_⟩
          simp
  · intro script st0 before after s status prime
    exact images_balanced_at_export cfg script st0 before after s status prime

/-- C3, witness: the first pass on the sample input reaches the swap. -/
theorem two_images_per_shown_frame_witness :
    Event.eglSwapBuffers ∈ (loop_body sample_cfg (initial_state sample_ctx) sample_input).1 ∧
    ∃ pre st1,
      (loop_body sample_cfg (initial_state sample_ctx) sample_input).2 =
        Ctl.ret (IterEnd.again st1) ∧
      (loop_body sample_cfg (initial_state sample_ctx) sample_input).1 = pre ++
        [Event.eglSwapBuffers,
          Event.glActiveTexture 0, Event.glBindTexture 0, Event.eglDestroyImageKHR 100,
          Event.glActiveTexture 1, Event.glBindTexture 0, Event.eglDestroyImageKHR 101] :=
  ⟨by decide,
    (two_images_per_shown_frame sample_cfg (initial_state sample_ctx) sample_input
      (by decide)).1.elim fun pre h => h.elim fun st1 hp => ⟨pre, st1, hp.1, hp.2.1⟩⟩

/-- Half of a natural number, rounded up. -/
theorem ceil_half (n : Nat) : ⌈(n : ℚ) / 2⌉ = (((n + 1) / 2 : Nat) : Int) := by
  rcases Nat.even_or_odd' n with ⟨k, rfl | rfl⟩
  · have h1 : ((2 * k : Nat) : ℚ) / 2 = ((k : Int) : ℚ) := by
      push_cast
      ring
    rw [h1, Int.ceil_intCast]
    congr 1
    omega
  · have h2 : (2 * k + 1 + 1) / 2 = k + 1 := by omega
    rw [h2, Int.ceil_eq_iff]
    push_cast
    constructor
    · linarith
    · linarith

/-- Half of a natural number rounded down is the half rounded up exactly for an even
number. -/
theorem floor_half_eq_ceil_half (n : Nat) :
    ((n / 2 : Nat) : Int) = ⌈(n : ℚ) / 2⌉ ↔ n % 2 = 0 := by
  rw [ceil_half, Nat.cast_inj]
  omega

theorem front_no_create_call (inp : IterInput) (pre : List Event)
    (hpre : ∀ e ∈ pre, (∃ x y w h, e = Event.glViewport x y w h) ∨ e = Event.av_packet_unref ∨
        e = Event.av_read_frame inp.read_ret inp.stream_index ∨
        e = Event.avcodec_send_packet inp.send_ret ∨
        e = Event.avcodec_receive_frame inp.receive_ret ∨ (∃ n, e = Event.print_frame n) ∨
        e = Event.vaExportSurfaceHandle (inp.data3 % 2 ^ 32) inp.export_status inp.prime ∨
        (∃ msg, e = Event.error msg)) :
    pre.filter is_create_call = [] := by
  rw [List.filter_eq_nil_iff]
  intro e he
  rcases hpre e he with ⟨x, y, w, h, rfl⟩ | rfl | rfl | rfl | rfl | ⟨n, rfl⟩ | rfl | ⟨m, rfl⟩ <;>
    simp [is_create_call]

theorem set_scale_no_create_call (st : LoopState) (prime : VADRMPRIMESurfaceDescriptor) :
    (set_scale st prime).1.filter is_create_call = [] := by
  unfold set_scale
  split <;> simp [is_create_call]

theorem close_fds_no_create_call (prime : VADRMPRIMESurfaceDescriptor) :
    (close_fds prime).filter is_create_call = [] := by
  rw [List.filter_eq_nil_iff]
  intro e he
  rw [mem_close_fds] at he
  obtain ⟨i, -, rfl⟩ := he
  simp [is_create_call]

/-- The `eglCreateImageKHR` calls of a pass, in order: none, the import of plane 0 alone,
or the import of plane 0 followed by the import of plane 1; in a pass that shows the
frame, both, each bound to the texture of its plane. -/
theorem loop_body_create_calls (cfg : LoopConfig) (st : LoopState) (inp : IterInput) :
    ((loop_body cfg st inp).1.filter is_create_call = [] ∨
      (inp.prime.fourcc = VA_FOURCC_NV12 ∧
        ((loop_body cfg st inp).1.filter is_create_call =
            [Event.eglCreateImageKHR (img_attr inp.prime 0) inp.image0] ∨
          (loop_body cfg st inp).1.filter is_create_call =
            [Event.eglCreateImageKHR (img_attr inp.prime 0) inp.image0,
              Event.eglCreateImageKHR (img_attr inp.prime 1) inp.image1]))) ∧
    (Event.eglSwapBuffers ∈ (loop_body cfg st inp).1 →
      (loop_body cfg st inp).1.filter is_create_call =
        [Event.eglCreateImageKHR (img_attr inp.prime 0) inp.image0,
          Event.eglCreateImageKHR (img_attr inp.prime 1) inp.image1] ∧
      import_ok inp.prime 0 cfg.texture0 inp.image0 ++
        import_ok inp.prime 1 cfg.texture1 inp.image1 <:+: (loop_body cfg st inp).1) := by
  obtain ⟨pre, hpre, hcase⟩ := loop_body_split cfg st inp
  have hf1 := front_no_create_call inp pre hpre
  obtain ⟨-, -, hf3⟩ := front_no_image inp pre hpre
  have hsc := set_scale_no_create_call
  have hcl := close_fds_no_create_call inp.prime
  rcases hcase with ⟨htr, -⟩ | ⟨st1, pre1, hpre1, hnv, heq, -⟩
  · rw [htr]
    exact ⟨Or.inl hf1, fun h => absurd h hf3⟩
  · rw [heq]
    rcases present_frame_cases cfg st1 inp (inp.data3 % 2 ^ 32) with
      c | c | c | c | c | c | c | c
    · rw [c.2]
      refine ⟨Or.inl ?_, ?_⟩
      · simp [List.filter_append, hf1, hsc, is_create_call]
      · intro hswap
        simp [hf3, mem_set_scale] at hswap
    · rw [c.2]
      refine ⟨Or.inr ⟨hnv, Or.inl ?_⟩, ?_⟩
      · simp [List.filter_append, hf1, hsc, is_create_call]
      · intro hswap
        simp [hf3, mem_set_scale] at hswap
    · rw [c.2]
      refine ⟨Or.inr ⟨hnv, Or.inl ?_⟩, ?_⟩
      · simp [List.filter_append, hf1, hsc, is_create_call]
      · intro hswap
        simp [hf3, mem_set_scale] at hswap
    · rw [c.2]
      refine ⟨Or.inr ⟨hnv, Or.inl ?_⟩, ?_⟩
      · simp [List.filter_append, hf1, hsc, is_create_call, import_ok]
      · intro hswap
        simp [hf3, mem_set_scale, import_ok] at hswap
    · rw [c.2]
      refine ⟨Or.inr ⟨hnv, Or.inr ?_⟩, ?_⟩
      · simp [List.filter_append, hf1, hsc, is_create_call, import_ok]
      · intro hswap
        simp [hf3, mem_set_scale, import_ok] at hswap
    · rw [c.2]
      refine ⟨Or.inr ⟨hnv, Or.inr ?_⟩, ?_⟩
      · simp [List.filter_append, hf1, hsc, is_create_call, import_ok]
      · intro hswap
        simp [hf3, mem_set_scale, import_ok] at hswap
    · rw [c.2]
      refine ⟨Or.inr ⟨hnv, Or.inr ?_⟩, ?_⟩
      · simp [List.filter_append, hf1, hsc, hcl, is_create_call, import_ok]
      · intro hswap
        simp [hf3, mem_set_scale, import_ok, mem_close_fds] at hswap
    · rw [c.2]
      have hfil : (andThen pre (shown_trace cfg st1 inp (inp.data3 % 2 ^ 32),
            Ctl.ret (IterEnd.again (set_scale st1 inp.prime).2))).1.filter is_create_call =
          [Event.eglCreateImageKHR (img_attr inp.prime 0) inp.image0,
            Event.eglCreateImageKHR (img_attr inp.prime 1) inp.image1] := by
        simp [shown_trace, destroy_image, List.filter_append, hf1, hsc, hcl, is_create_call,
          import_ok]
      refine ⟨Or.inr ⟨hnv, Or.inr hfil⟩, fun _ => ⟨hfil, ?_⟩⟩
      refine ⟨pre ++ ([Event.vaSyncSurface (inp.data3 % 2 ^ 32)] ++
          (set_scale st1 inp.prime).1),
        close_fds inp.prime ++ [Event.glClear, Event.glDrawArrays 0, Event.eglSwapBuffers] ++
          destroy_image 0 inp.image0 ++ destroy_image 1 inp.image1, ?_⟩
      simp [shown_trace]

/-- C5, as the code has it, for an exported surface of width `W` and height `H` below
2^31, the values an `EGLint` attribute holds.  The `eglCreateImageKHR` calls of a pass
are, in order, the import of plane 0 and then the import of plane 1 (or a pass stops
before the first or the second of them), and they are made on an NV12 surface only; a
pass that shows the frame makes both and binds plane `i` to texture `i`.  The import of
plane 0, the luma plane, has format R8 and size `W x H`; the import of plane 1, the
chroma plane, has format GR88 and size `W / 2 x H / 2` in unsigned integer division, that
is rounded down.  The chroma width (height) is the half rounded up exactly when `W` (`H`)
is even. -/
theorem plane_image_dimensions (cfg : LoopConfig) (st : LoopState) (inp : IterInput)
    (hW : inp.prime.width < 2 ^ 31) (hH : inp.prime.height < 2 ^ 31) :
    ((loop_body cfg st inp).1.filter is_create_call = [] ∨
      (inp.prime.fourcc = VA_FOURCC_NV12 ∧
        ((loop_body cfg st inp).1.filter is_create_call =
            [Event.eglCreateImageKHR (img_attr inp.prime 0) inp.image0] ∨
          (loop_body cfg st inp).1.filter is_create_call =
            [Event.eglCreateImageKHR (img_attr inp.prime 0) inp.image0,
              Event.eglCreateImageKHR (img_attr inp.prime 1) inp.image1]))) ∧
    (Event.eglSwapBuffers ∈ (loop_body cfg st inp).1 →
      (loop_body cfg st inp).1.filter is_create_call =
        [Event.eglCreateImageKHR (img_attr inp.prime 0) inp.image0,
          Event.eglCreateImageKHR (img_attr inp.prime 1) inp.image1] ∧
      import_ok inp.prime 0 cfg.texture0 inp.image0 ++
        import_ok inp.prime 1 cfg.texture1 inp.image1 <:+: (loop_body cfg st inp).1) ∧
    ((img_attr inp.prime 0).fourcc = DRM_FORMAT_R8 ∧
      (img_attr inp.prime 0).width = inp.prime.width ∧
      (img_attr inp.prime 0).height = inp.prime.height) ∧
    ((img_attr inp.prime 1).fourcc = DRM_FORMAT_GR88 ∧
      (img_attr inp.prime 1).width = (inp.prime.width / 2 : Nat) ∧
      (img_attr inp.prime 1).height = (inp.prime.height / 2 : Nat)) ∧
    ((img_attr inp.prime 1).width = ⌈(inp.prime.width : ℚ) / 2⌉ ↔ inp.prime.width % 2 = 0) ∧
    ((img_attr inp.prime 1).height = ⌈(inp.prime.height : ℚ) / 2⌉ ↔
      inp.prime.height % 2 = 0) := by
  have hw2 : inp.prime.width / 2 < 2 ^ 31 := by omega
  have hh2 : inp.prime.height / 2 < 2 ^ 31 := by omega
  have ew : (img_attr inp.prime 1).width = (inp.prime.width / 2 : Nat) := by
    simp [img_attr, toInt32_small _ hw2]
  have eh : (img_attr inp.prime 1).height = (inp.prime.height / 2 : Nat) := by
    simp [img_attr, toInt32_small _ hh2]
  obtain ⟨k1, k2⟩ := loop_body_create_calls cfg st inp
  refine ⟨k1, k2, ⟨?_, ?_, ?_⟩, ⟨?_, ew, eh⟩, ?_, ?_⟩
  · simp [img_attr, formats, toInt32_small, DRM_FORMAT_R8]
  · simp [img_attr, toInt32_small _ hW]
  · simp [img_attr, toInt32_small _ hH]
  · simp [img_attr, formats, toInt32_small, DRM_FORMAT_GR88]
  · rw [ew]
    exact floor_half_eq_ceil_half _
  · rw [eh]
    exact floor_half_eq_ceil_half _

/-- C5, witness: the first pass on the sample input, a surface of 1280x736, imports
the luma plane with 1280x736 and then the chroma plane with 640x368. -/
theorem plane_image_dimensions_witness :
    (sample_input.prime.width < 2 ^ 31 ∧ sample_input.prime.height < 2 ^ 31 ∧
      Event.eglSwapBuffers ∈ (loop_body sample_cfg (initial_state sample_ctx) sample_input).1) ∧
    (loop_body sample_cfg (initial_state sample_ctx) sample_input).1.filter is_create_call =
      [Event.eglCreateImageKHR
          { fourcc := DRM_FORMAT_R8, width := 1280, height := 736, fd := 10, offset := 0,
            pitch := 1280 } 100,
        Event.eglCreateImageKHR
          { fourcc := DRM_FORMAT_GR88, width := 640, height := 368, fd := 11, offset := 0,
            pitch := 1280 } 101] :=
  ⟨⟨by decide, by decide, by decide⟩,
    ((plane_image_dimensions sample_cfg (initial_state sample_ctx) sample_input
      (by decide) (by decide)).2.1 (by decide)).1⟩

/-- C5, counterexample: on an NV12 surface of 3x5 the chroma plane is imported with
1x2, while half of 3 and of 5 rounded up are 2 and 3. -/
theorem chroma_size_rounds_down :
    Event.eglCreateImageKHR
        { fourcc := DRM_FORMAT_GR88, width := 1, height := 2, fd := 11, offset := 0,
          pitch := 1280 } 101 ∈
      (loop_body sample_cfg (initial_state sample_ctx) { sample_input with prime := odd_prime }).1 ∧
    ⌈((odd_prime.width : ℕ) : ℚ) / 2⌉ = 2 ∧ ⌈((odd_prime.height : ℕ) : ℚ) / 2⌉ = 3 ∧
    ¬ ((img_attr odd_prime 1).width = ⌈((odd_prime.width : ℕ) : ℚ) / 2⌉ ∧
      (img_attr odd_prime 1).height = ⌈((odd_prime.height : ℕ) : ℚ) / 2⌉) := by
  have h1 : ⌈((odd_prime.width : ℕ) : ℚ) / 2⌉ = 2 := by
    rw [Int.ceil_eq_iff]
    simp only [odd_prime]
    norm_num
  have h2 : ⌈((odd_prime.height : ℕ) : ℚ) / 2⌉ = 3 := by
    rw [Int.ceil_eq_iff]
    simp only [odd_prime]
    norm_num
  refine ⟨by decide, h1, h2, ?_⟩
  rw [h1, h2]
  decide

/-- C6: for a video of positive width and height and a window of non-negative size,
`resize_window` issues one `glViewport` whose size `(dw, dh)` keeps the aspect ratio of the
video up to rounding, `2 * |dw * height - dh * width| <= max width height`: either `dw` is
the window width and `dh` is `sw * height / width` rounded to the nearest integer, or `dh`
is the window height and `dw` is `sh * width / height` rounded to the nearest integer. -/
theorem resize_window_keeps_aspect (sw sh : Int) (ctx : AVCodecContext)
    (hw : 0 < ctx.width) (hh : 0 < ctx.height) (hsw : 0 ≤ sw) (hsh : 0 ≤ sh) :
    ∃ x y dw dh, resize_window sw sh ctx = [Event.glViewport x y dw dh] ∧
      2 * |dw * ctx.height - dh * ctx.width| ≤ max ctx.width ctx.height ∧
      ((dw = sw ∧ dh = round (((sw * ctx.height : Int) : ℚ) / ctx.width) ∧
          2 * |dh * ctx.width - sw * ctx.height| ≤ ctx.width) ∨
        (dh = sh ∧ dw = round (((sh * ctx.width : Int) : ℚ) / ctx.height) ∧
          2 * |dw * ctx.height - sh * ctx.width| ≤ ctx.height)) := by
  have e1 := half_up_div (sw * ctx.height) ctx.width (mul_nonneg hsw (le_of_lt hh)) hw
  have e2 := half_up_div (sh * ctx.width) ctx.height (mul_nonneg hsh (le_of_lt hw)) hh
  have b1 := half_up_bounds (sw * ctx.height) ctx.width hw
  have b2 := half_up_bounds (sh * ctx.width) ctx.height hh
  have r1 := half_up_round (sw * ctx.height) ctx.width hw
  have r2 := half_up_round (sh * ctx.width) ctx.height hh
  refine ⟨Int.tdiv (sw - (resize_dims sw sh ctx).1) 2, Int.tdiv (sh - (resize_dims sw sh ctx).2) 2,
    (resize_dims sw sh ctx).1, (resize_dims sw sh ctx).2, rfl, ?_⟩
  by_cases hgt : Int.tdiv (sw * ctx.height + Int.tdiv ctx.width 2) ctx.width > sh
  · have hd : resize_dims sw sh ctx =
        ((sh * ctx.width + ctx.height / 2) / ctx.height, sh) := by
      rw [e1] at hgt
      unfold resize_dims
      simp only [e1, e2, if_pos hgt]
    rw [hd]
    refine ⟨?_, Or.inr ⟨rfl, r2, b2⟩⟩
    have := le_max_right ctx.width ctx.height
    linarith
  · have hd : resize_dims sw sh ctx =
        (sw, (sw * ctx.height + ctx.width / 2) / ctx.width) := by
      rw [e1] at hgt
      unfold resize_dims
      simp only [e1, if_neg hgt]
    rw [hd]
    refine ⟨?_, Or.inl ⟨rfl, r1, b1⟩⟩
    have := le_max_left ctx.width ctx.height
    have h3 : |sw * ctx.height - (sw * ctx.height + ctx.width / 2) / ctx.width * ctx.width| =
        |(sw * ctx.height + ctx.width / 2) / ctx.width * ctx.width - sw * ctx.height| :=
      abs_sub_comm _ _
    simp only
    rw [h3]
    linarith

/-- C6, witness: a 100x100 window for the 1280x720 stream gets a 100x56 viewport. -/
theorem resize_window_keeps_aspect_witness :
    ((0 : Int) < sample_ctx.width ∧ (0 : Int) < sample_ctx.height ∧ (0 : Int) ≤ 100 ∧
      (0 : Int) ≤ 100) ∧
    ∃ x y dw dh, resize_window 100 100 sample_ctx = [Event.glViewport x y dw dh] ∧
      2 * |dw * sample_ctx.height - dh * sample_ctx.width| ≤
        max sample_ctx.width sample_ctx.height :=
  ⟨⟨by decide, by decide, by decide, by decide⟩,
    (resize_window_keeps_aspect 100 100 sample_ctx (by decide) (by decide) (by decide)
      (by decide)).elim fun x h => h.elim fun y h => h.elim fun dw h => h.elim fun dh hp =>
        ⟨x, y, dw, dh, hp.1, hp.2.1⟩⟩

/-- The frame-skip level after one event. -/
theorem handle_x11_event_skip (wm : Nat) (running : Bool) (ctx : AVCodecContext) (ev : XEvent) :
    (handle_x11_event wm running ctx ev).2.2.skip_frame =
      skip_level_after_key ctx.skip_frame ev := by
  cases ev with
  | ClientMessage d => simp [handle_x11_event, skip_level_after_key]; split <;> rfl
  | KeyPress k =>
    simp only [handle_x11_event, skip_level_after_key, XEvent.KeyPress.injEq]
    split_ifs <;> simp_all
  | ConfigureNotify w h => simp [handle_x11_event, skip_level_after_key]
  | other => simp [handle_x11_event, skip_level_after_key]

/-- C8, as the code has it: in `handle_x11_events` the key `a` sets the skip level to
`AVDISCARD_NONE` (decode all frames), `b` to `AVDISCARD_NONREF` (skip non-reference
frames) and `p` to `AVDISCARD_BIDIR` (skip bidirectional frames); every other key and
every other event leaves the level unchanged.  For one event this is
`skip_level_after_key`; for the list of pending events the level is the fold of it. -/
theorem decode_quality_keys (wm : Nat) (running : Bool) (ctx : AVCodecContext) :
    (handle_x11_events wm running ctx [XEvent.KeyPress 'a'.toNat]).2.2.skip_frame =
      AVDiscard.AVDISCARD_NONE ∧
    (handle_x11_events wm running ctx [XEvent.KeyPress 'b'.toNat]).2.2.skip_frame =
      AVDiscard.AVDISCARD_NONREF ∧
    (handle_x11_events wm running ctx [XEvent.KeyPress 'p'.toNat]).2.2.skip_frame =
      AVDiscard.AVDISCARD_BIDIR ∧
    (∀ ev, ev ≠ XEvent.KeyPress 'a'.toNat → ev ≠ XEvent.KeyPress 'b'.toNat →
      ev ≠ XEvent.KeyPress 'p'.toNat →
      (handle_x11_events wm running ctx [ev]).2.2.skip_frame = ctx.skip_frame) ∧
    (∀ evs, (handle_x11_events wm running ctx evs).2.2.skip_frame =
      evs.foldl skip_level_after_key ctx.skip_frame) := by
  have hfold : ∀ (evs : List XEvent) (r : Bool) (c : AVCodecContext),
      (handle_x11_events wm r c evs).2.2.skip_frame = evs.foldl skip_level_after_key c.skip_frame := by
    intro evs
    induction evs with
    | nil => intro r c; rfl
    | cons ev rest ih =>
      intro r c
      simp only [handle_x11_events, List.foldl_cons]
      rw [ih, handle_x11_event_skip]
  refine ⟨?_, ?_, ?_, ?_, fun evs => hfold evs running ctx⟩
  · rw [hfold]; rfl
  · rw [hfold]; rfl
  · rw [hfold]; rfl
  · intro ev h1 h2 h3
    rw [hfold]
    simp only [List.foldl_cons, List.foldl_nil, skip_level_after_key, if_neg h1, if_neg h2,
      if_neg h3]

/-- C8, witness: the key `q` leaves the level as it is. -/
theorem decode_quality_keys_witness :
    (handle_x11_events 77 true sample_ctx [XEvent.KeyPress 'q'.toNat]).2.2.skip_frame =
      sample_ctx.skip_frame :=
  (decode_quality_keys 77 true sample_ctx).2.2.2.1 (XEvent.KeyPress 'q'.toNat) (by decide)
    (by decide) (by decide)

/-- C8, counterexample: after the key `p` the skip level is `AVDISCARD_BIDIR`, not
`AVDISCARD_NONKEY`. -/
theorem key_p_is_not_nonkey :
    (handle_x11_events 77 true sample_ctx [XEvent.KeyPress 'p'.toNat]).2.2.skip_frame =
      AVDiscard.AVDISCARD_BIDIR ∧
    (handle_x11_events 77 true sample_ctx [XEvent.KeyPress 'p'.toNat]).2.2.skip_frame ≠
      AVDiscard.AVDISCARD_NONKEY := by
  decide

/-- An `int` result within the range of `int` is stored unchanged. -/
theorem wrapInt32_in_range (z : Int) (h1 : -2 ^ 31 ≤ z) (h2 : z < 2 ^ 31) : wrapInt32 z = z := by
  unfold wrapInt32
  have : (z + 2 ^ 31) % 2 ^ 32 = z + 2 ^ 31 := Int.emod_eq_of_lt (by omega) (by omega)
  omega

/-- C9, as the code has it: `retrieve_frame` with decoder result `ret`.  If `ret` is
`AVERROR(EAGAIN)` or `AVERROR_EOF` it returns false without calling `fail`, sets
`want_new_packet` and leaves the frame counter (and the surface) as they were.  If `ret`
is any other negative value it calls `fail` and the process exits with code 1.  If
`ret >= 0` it returns true, leaves `want_new_packet` as it was and stores the `int`
increment of the frame counter, which is the counter plus 1 whenever the counter is an
`int` below `INT_MAX`.  In the loop the flag is false at that point: a pass that
retrieved a frame and goes on to the next pass leaves `want_new_packet` false, and a pass
entered with the flag false calls `avcodec_receive_frame` without reading a packet
first. -/
theorem retrieve_frame_contract (ret : Int) (data3 : Nat) (want : Bool) (frameno : Int)
    (surf : Nat) :
    ((ret = AVERROR_EAGAIN ∨ ret = AVERROR_EOF) →
      retrieve_frame ret data3 want frameno surf =
        ([Event.avcodec_receive_frame ret], Ctl.ret ⟨false, true, frameno, surf⟩)) ∧
    (ret < 0 → ret ≠ AVERROR_EAGAIN → ret ≠ AVERROR_EOF →
      retrieve_frame ret data3 want frameno surf =
        ([Event.avcodec_receive_frame ret, Event.error "avcodec_receive_frame"], Ctl.exit 1)) ∧
    (0 ≤ ret →
      retrieve_frame ret data3 want frameno surf =
        ([Event.avcodec_receive_frame ret, Event.print_frame (wrapInt32 (frameno + 1))],
          Ctl.ret ⟨true, want, wrapInt32 (frameno + 1), data3 % 2 ^ 32⟩)) ∧
    (0 ≤ ret → -2147483648 ≤ frameno → frameno < 2147483647 →
      retrieve_frame ret data3 want frameno surf =
        ([Event.avcodec_receive_frame ret, Event.print_frame (frameno + 1)],
          Ctl.ret ⟨true, want, frameno + 1, data3 % 2 ^ 32⟩)) ∧
    (∀ (cfg : LoopConfig) (st st1 : LoopState) (inp : IterInput), 0 ≤ inp.receive_ret →
      Event.avcodec_receive_frame inp.receive_ret ∈ (loop_body cfg st inp).1 →
      (loop_body cfg st inp).2 = Ctl.ret (IterEnd.again st1) →
      st1.want_new_packet = false ∧ st1.frameno = wrapInt32 (st.frameno + 1) ∧
      (-2147483648 ≤ st.frameno → st.frameno < 2147483647 → st1.frameno = st.frameno + 1)) ∧
    (∀ (cfg : LoopConfig) (st : LoopState) (inp : IterInput), st.want_new_packet = false →
      (∀ r i, Event.av_read_frame r i ∉ (loop_body cfg st inp).1) ∧
      Event.avcodec_receive_frame inp.receive_ret ∈ (loop_body cfg st inp).1) := by
  refine ⟨?_, ?_, ?_, ?_, ?_, ?_⟩
  · intro h
    simp [retrieve_frame, h]
  · intro h1 h2 h3
    simp [retrieve_frame, h1, h2, h3, andThen, fail]
  · intro h
    have h2 : ret ≠ AVERROR_EAGAIN := by unfold AVERROR_EAGAIN; omega
    have h3 : ret ≠ AVERROR_EOF := by unfold AVERROR_EOF; omega
    simp [retrieve_frame, h2, h3, not_lt.mpr h]
  · intro h hlo hhi
    have h2 : ret ≠ AVERROR_EAGAIN := by unfold AVERROR_EAGAIN; omega
    have h3 : ret ≠ AVERROR_EOF := by unfold AVERROR_EOF; omega
    have hw : wrapInt32 (frameno + 1) = frameno + 1 :=
      wrapInt32_in_range _ (by omega) (by omega)
    simp [retrieve_frame, h2, h3, not_lt.mpr h, hw]
  · intro cfg st st1 inp hret hmem hend
    have key : st1.want_new_packet = false ∧ st1.frameno = wrapInt32 (st.frameno + 1) := by
      obtain ⟨pre, hpre, hcase⟩ := loop_body_split cfg st inp
      have hb := begin_pass_only cfg st inp
      rcases hcase with ⟨htr, -⟩ | ⟨st2, pre1, hpre1, hnv, heq, h1, h2, h3, h4, h5, h6, h7⟩
      · rcases loop_body_cases cfg st inp with c | c | c | c | c
        · rw [c.2] at hend; simp at hend
        · rw [c.2] at hmem; simp [hb] at hmem
        · rw [c.2] at hend; simp at hend
        · rcases decode_frame_cases cfg
              { (begin_pass cfg st inp).2 with packet_valid := true, want_new_packet := false }
              inp with d | d | d | d | d
          · have : inp.receive_ret < 0 := by
              rcases d.1 with h | h <;> rw [h] <;> decide
            omega
          · have := d.1; omega
          · rw [c.2, d.2] at hend; simp at hend
          · rw [c.2, d.2] at hend; simp at hend
          · rw [c.2, d.2] at htr
            have hx : Event.vaSyncSurface (inp.data3 % 2 ^ 32) ∈ pre := by
              rw [← htr]
              unfold present_frame
              simp
            have := hpre _ hx
            simp at this
        · rcases decode_frame_cases cfg (begin_pass cfg st inp).2 inp with d | d | d | d | d
          · have : inp.receive_ret < 0 := by
              rcases d.1 with h | h <;> rw [h] <;> decide
            omega
          · have := d.1; omega
          · rw [c.2, d.2] at hend; simp at hend
          · rw [c.2, d.2] at hend; simp at hend
          · rw [c.2, d.2] at htr
            have hx : Event.vaSyncSurface (inp.data3 % 2 ^ 32) ∈ pre := by
              rw [← htr]
              unfold present_frame
              simp
            have := hpre _ hx
            simp at this
      · rw [heq] at hend
        rcases present_frame_cases cfg st2 inp (inp.data3 % 2 ^ 32) with
          c | c | c | c | c | c | c | c <;> rw [c.2] at hend <;> simp at hend
        rw [← hend]
        unfold set_scale
        split <;> simp [h6, h7]
    refine ⟨key.1, key.2, fun hlo hhi => ?_⟩
    rw [key.2]
    exact wrapInt32_in_range _ (by omega) (by omega)
  · intro cfg st inp hw
    have hb := begin_pass_only cfg st inp
    rcases loop_body_cases cfg st inp with c | c | c | c | c
    · rw [hw] at c; simp at c
    · rw [hw] at c; simp at c
    · rw [hw] at c; simp at c
    · rw [hw] at c; simp at c
    · rw [c.2]
      constructor
      · intro r i hmem
        simp only [andThen_fst, List.mem_append] at hmem
        rcases hmem with h | h
        · exact hb _ (by simp) (by simp) h
        · rcases decode_frame_mem cfg _ inp _ h with h | h | h | h | h
          · simp at h
          · simp at h
          · simp at h
          · simp at h
          · have := present_frame_mem cfg _ inp _ _ h
            simp at this
      · simp only [andThen_fst, List.mem_append]
        right
        rcases decode_frame_cases cfg (begin_pass cfg st inp).2 inp with d | d | d | d | d <;>
          rw [d.2] <;> simp

/-- C9, witness: results -11 (`EAGAIN`), -5 and 0, the last also at the largest counter
that can still be raised. -/
theorem retrieve_frame_contract_witness :
    retrieve_frame (-11) 5 false 3 0 =
      ([Event.avcodec_receive_frame (-11)], Ctl.ret ⟨false, true, 3, 0⟩) ∧
    retrieve_frame (-5) 5 false 3 0 =
      ([Event.avcodec_receive_frame (-5), Event.error "avcodec_receive_frame"], Ctl.exit 1) ∧
    retrieve_frame 0 5 false 3 0 =
      ([Event.avcodec_receive_frame 0, Event.print_frame 4],
        Ctl.ret ⟨true, false, 4, 5⟩) ∧
    retrieve_frame 0 5 false 2147483646 0 =
      ([Event.avcodec_receive_frame 0, Event.print_frame 2147483647],
        Ctl.ret ⟨true, false, 2147483647, 5⟩) :=
  ⟨(retrieve_frame_contract (-11) 5 false 3 0).1 (Or.inl rfl),
    (retrieve_frame_contract (-5) 5 false 3 0).2.1 (by decide) (by decide) (by decide),
    (retrieve_frame_contract 0 5 false 3 0).2.2.2.1 (by decide) (by decide) (by decide),
    (retrieve_frame_contract 0 5 false 2147483646 0).2.2.2.1 (by decide) (by decide)
      (by decide)⟩

/-- C9, counterexample: at the counter value `INT_MAX` = 2147483647 a successful
retrieval does not raise the counter by 1: the `int` increment overflows and the counter
stored and printed is -2147483648. -/
theorem frame_counter_wraps_at_int_max :
    retrieve_frame 0 5 false 2147483647 0 =
      ([Event.avcodec_receive_frame 0, Event.print_frame (-2147483648)],
        Ctl.ret ⟨true, false, -2147483648, 5⟩) ∧
    (-2147483648 : Int) ≠ 2147483647 + 1 := by
  decide

/-- C10: in a pass of the loop in which `av_read_frame` returned a packet whose
stream index is not the selected video stream, the read is the last call of the pass: no
`avcodec_send_packet`, no `avcodec_receive_frame`, no export, no `eglCreateImageKHR` and
no `glDrawArrays` occur in it.  The pass goes on to the next pass with the packet marked
valid and `want_new_packet` still true, and that next pass calls `av_read_frame` again. -/
theorem foreign_packet_is_skipped (cfg : LoopConfig) (st : LoopState) (inp : IterInput)
    (r idx : Int) (hread : Event.av_read_frame r idx ∈ (loop_body cfg st inp).1)
    (hr : 0 ≤ r) (hidx : idx ≠ cfg.video_stream) :
    (loop_body cfg st inp).1 = (begin_pass cfg st inp).1 ++ [Event.av_read_frame r idx] ∧
    (∀ ret, Event.avcodec_send_packet ret ∉ (loop_body cfg st inp).1) ∧
    (∀ ret, Event.avcodec_receive_frame ret ∉ (loop_body cfg st inp).1) ∧
    (∀ s status prime, Event.vaExportSurfaceHandle s status prime ∉ (loop_body cfg st inp).1) ∧
    (∀ a img, Event.eglCreateImageKHR a img ∉ (loop_body cfg st inp).1) ∧
    (∀ err, Event.glDrawArrays err ∉ (loop_body cfg st inp).1) ∧
    ∃ st1, (loop_body cfg st inp).2 = Ctl.ret (IterEnd.again st1) ∧
      st1.want_new_packet = true ∧ st1.packet_valid = true ∧
      ∀ inp2, Event.av_read_frame inp2.read_ret inp2.stream_index ∈
        (loop_body cfg st1 inp2).1 := by
  have hb := begin_pass_only cfg st inp
  have hnext : ∀ st1 : LoopState, st1.want_new_packet = true →
      ∀ inp2, Event.av_read_frame inp2.read_ret inp2.stream_index ∈
        (loop_body cfg st1 inp2).1 := by
    intro st1 hw inp2
    rcases loop_body_cases cfg st1 inp2 with c | c | c | c | c
    · rw [c.2]; simp
    · rw [c.2]; simp
    · rw [c.2]; simp
    · rw [c.2]; simp
    · rw [hw] at c; simp at c
  have hdec : ∀ st0 : LoopState, Event.av_read_frame r idx ∉ (decode_frame cfg st0 inp).1 := by
    intro st0 h
    rcases decode_frame_mem cfg _ inp _ h with h | h | h | h | h
    · simp at h
    · simp at h
    · simp at h
    · simp at h
    · have := present_frame_mem cfg _ inp _ _ h
      simp at this
  rcases loop_body_cases cfg st inp with c | c | c | c | c
  · rw [c.2] at hread
    simp [hb] at hread
    have := c.1.2
    omega
  · rw [c.2] at hread ⊢
    simp [hb] at hread
    obtain ⟨h1, h2⟩ := hread
    subst h1 h2
    refine ⟨rfl, ?_, ?_, ?_, ?_, ?_, _, rfl, ?_, rfl, ?_⟩
    · intro ret; simp [hb]
    · intro ret; simp [hb]
    · intro s status prime; simp [hb]
    · intro a img; simp [hb]
    · intro err; simp [hb]
    · exact c.1.1
    · exact hnext _ c.1.1
  · rw [c.2] at hread
    simp [hb] at hread
    exact absurd (hread.2 ▸ c.1.2.2.1) hidx
  · rw [c.2] at hread
    simp [hb, hdec] at hread
    exact absurd (hread.2 ▸ c.1.2.2.1) hidx
  · rw [c.2] at hread
    simp [hb, hdec] at hread

/-- C10, witness: the first pass when the packet read belongs to stream 1. -/
theorem foreign_packet_is_skipped_witness :
    (Event.av_read_frame 0 1 ∈
      (loop_body sample_cfg (initial_state sample_ctx) { sample_input with stream_index := 1 }).1 ∧
      (0 : Int) ≤ 0 ∧ (1 : Int) ≠ sample_cfg.video_stream) ∧
    (loop_body sample_cfg (initial_state sample_ctx) { sample_input with stream_index := 1 }).1 =
      (begin_pass sample_cfg (initial_state sample_ctx)
        { sample_input with stream_index := 1 }).1 ++ [Event.av_read_frame 0 1] :=
  ⟨⟨by decide, by decide, by decide⟩,
    (foreign_packet_is_skipped sample_cfg (initial_state sample_ctx)
      { sample_input with stream_index := 1 } 0 1 (by decide) (by decide) (by decide)).1⟩

/-- C4, as the code has it: over any run of `main_loop` entered as `main` enters it, the
uniform `uTexCoordScale` is set at most once, and it is set exactly when some
`vaExportSurfaceHandle` of the run succeeded with an NV12 surface.  Either no export of
the run succeeded with NV12, and then the uniform is never set and the scale stays
`(1.0f, 1.0f)` with `texture_size_valid` false; or the uniform is set exactly once, right
after the first successful export of an NV12 surface and its `vaSyncSurface`, to
`(decoder_ctx->width / prime.width, decoder_ctx->height / prime.height)` of that surface,
it is set neither before nor after that, and whatever state the run is in afterwards has
`texture_size_valid` true and that scale. -/
theorem scale_set_at_most_once (env : InitEnv) (cfg : LoopConfig) (ctx : AVCodecContext)
    (script : List IterInput) :
    (main_loop env cfg (initial_state ctx) script).1.countP is_set_scale ≤ 1 ∧
    ((main_loop env cfg (initial_state ctx) script).1.countP is_set_scale = 1 ↔
      ∃ s prime, Event.vaExportSurfaceHandle s VA_STATUS_SUCCESS prime ∈
          (main_loop env cfg (initial_state ctx) script).1 ∧
        prime.fourcc = VA_FOURCC_NV12) ∧
    (((main_loop env cfg (initial_state ctx) script).1.countP is_set_scale = 0 ∧
        (∀ s prime, Event.vaExportSurfaceHandle s VA_STATUS_SUCCESS prime ∈
            (main_loop env cfg (initial_state ctx) script).1 →
          prime.fourcc ≠ VA_FOURCC_NV12) ∧
        (∀ s, Event.vaSyncSurface s ∉ (main_loop env cfg (initial_state ctx) script).1) ∧
        ∀ stf, (main_loop env cfg (initial_state ctx) script).2.final_state = some stf →
          stf.texture_size_valid = false ∧ stf.texcoord_x1 = TexCoord.one ∧
          stf.texcoord_y1 = TexCoord.one) ∨
      (∃ pre post s prime,
        (main_loop env cfg (initial_state ctx) script).1 = pre ++
          [Event.vaExportSurfaceHandle s VA_STATUS_SUCCESS prime, Event.vaSyncSurface s,
            Event.glUniform2f_uTexCoordScale (TexCoord.quot ctx.width prime.width)
              (TexCoord.quot ctx.height prime.height)] ++ post ∧
        prime.fourcc = VA_FOURCC_NV12 ∧
        (∀ s1 prime1, Event.vaExportSurfaceHandle s1 VA_STATUS_SUCCESS prime1 ∈ pre →
          prime1.fourcc ≠ VA_FOURCC_NV12) ∧
        (∀ s, Event.vaSyncSurface s ∉ pre) ∧ pre.countP is_set_scale = 0 ∧
        post.countP is_set_scale = 0 ∧
        (main_loop env cfg (initial_state ctx) script).1.countP is_set_scale = 1 ∧
        ∀ stf, (main_loop env cfg (initial_state ctx) script).2.final_state = some stf →
          stf.texture_size_valid = true ∧
          stf.texcoord_x1 = TexCoord.quot ctx.width prime.width ∧
          stf.texcoord_y1 = TexCoord.quot ctx.height prime.height)) := by
  have key : ((main_loop env cfg (initial_state ctx) script).1.countP is_set_scale = 0 ∧
        (∀ s prime, Event.vaExportSurfaceHandle s VA_STATUS_SUCCESS prime ∈
            (main_loop env cfg (initial_state ctx) script).1 →
          prime.fourcc ≠ VA_FOURCC_NV12) ∧
        (∀ s, Event.vaSyncSurface s ∉ (main_loop env cfg (initial_state ctx) script).1) ∧
        ∀ stf, (main_loop env cfg (initial_state ctx) script).2.final_state = some stf →
          stf.texture_size_valid = false ∧ stf.texcoord_x1 = TexCoord.one ∧
          stf.texcoord_y1 = TexCoord.one) ∨
      (∃ pre post s prime,
        (main_loop env cfg (initial_state ctx) script).1 = pre ++
          [Event.vaExportSurfaceHandle s VA_STATUS_SUCCESS prime, Event.vaSyncSurface s,
            Event.glUniform2f_uTexCoordScale (TexCoord.quot ctx.width prime.width)
              (TexCoord.quot ctx.height prime.height)] ++ post ∧
        prime.fourcc = VA_FOURCC_NV12 ∧
        (∀ s1 prime1, Event.vaExportSurfaceHandle s1 VA_STATUS_SUCCESS prime1 ∈ pre →
          prime1.fourcc ≠ VA_FOURCC_NV12) ∧
        (∀ s, Event.vaSyncSurface s ∉ pre) ∧ pre.countP is_set_scale = 0 ∧
        post.countP is_set_scale = 0 ∧
        (main_loop env cfg (initial_state ctx) script).1.countP is_set_scale = 1 ∧
        ∀ stf, (main_loop env cfg (initial_state ctx) script).2.final_state = some stf →
          stf.texture_size_valid = true ∧
          stf.texcoord_x1 = TexCoord.quot ctx.width prime.width ∧
          stf.texcoord_y1 = TexCoord.quot ctx.height prime.height) := by
    have hm : main_loop env cfg (initial_state ctx) script =
        (match lookup_functions env with
          | (tr, Ctl.exit code) => (tr, LoopResult.exited code)
          | (tr, Ctl.ret _) =>
            (tr ++ (while_running cfg (initial_state ctx) script).1,
              (while_running cfg (initial_state ctx) script).2)) := rfl
    rw [hm]
    rcases hl : lookup_functions env with ⟨tr, r⟩
    cases r with
    | exit code =>
      left
      have htr : ∃ msg, tr = [Event.error msg] := by
        unfold lookup_functions at hl
        split_ifs at hl <;> simp [fail] at hl <;> exact ⟨_, hl.1.symm⟩
      obtain ⟨msg, rfl⟩ := htr
      simp [is_set_scale, LoopResult.final_state]
    | ret u =>
      have htr : tr = [] := by
        unfold lookup_functions at hl
        split_ifs at hl <;> simp [fail] at hl
        exact hl
      subst htr
      simp only [List.nil_append]
      rcases while_running_first_export cfg script (initial_state ctx) rfl with
        ⟨g1, g2, g3⟩ | ⟨pre, post, s, prime, g1, g2, g3, g4, g5, g6⟩
      · left
        exact ⟨by rw [List.countP_eq_length_filter, g1]; rfl,
          (filter_nv12_export_nil _).mp g2.2, g2.1, g3⟩
      · right
        refine ⟨pre, post, s, prime, g1, g2, (filter_nv12_export_nil _).mp g3.2, g3.1,
          ?_, ?_, ?_, g6⟩
        · rw [List.countP_eq_length_filter, g4]; rfl
        · rw [List.countP_eq_length_filter, g5]; rfl
        · rw [g1]
          simp [List.countP_eq_length_filter, List.filter_append, g4, g5, is_set_scale]
  refine ⟨?_, ?_, key⟩
  · rcases key with ⟨h, -⟩ | ⟨pre, post, s, prime, -, -, -, -, -, -, h, -⟩
    · rw [h]; exact Nat.zero_le 1
    · rw [h]
  · rcases key with ⟨h, hn, -⟩ | ⟨pre, post, s, prime, htr, hnv, -, -, -, -, h, -⟩
    · constructor
      · intro h1
        rw [h] at h1
        exact absurd h1 (by decide)
      · rintro ⟨s, prime, hmem, hf⟩
        exact absurd hf (hn s prime hmem)
    · constructor
      · intro _
        exact ⟨s, prime, by rw [htr]; simp, hnv⟩
      · intro _
        exact h

/-- C4, counterexample: a run of `main_loop` that ends at once because `av_read_frame`
reports the end of the stream never sets the uniform. -/
theorem scale_never_set_on_empty_stream :
    (main_loop sample_env sample_cfg (initial_state sample_ctx) [end_of_stream_input]).1.countP
      is_set_scale = 0 ∧
    (main_loop sample_env sample_cfg (initial_state sample_ctx) [end_of_stream_input]).1 =
      [Event.av_read_frame (-1) 0] ∧
    ∃ st, (main_loop sample_env sample_cfg (initial_state sample_ctx)
      [end_of_stream_input]).2 = LoopResult.returned st LoopExit.end_of_stream := by
  refine ⟨by decide, by decide, _, rfl⟩

/-- How `main_loop` can end, and what its calls show of it. -/
theorem main_loop_outcome (env : InitEnv) (cfg : LoopConfig) (st : LoopState)
    (script : List IterInput) (hrun : st.running = true) :
    (∀ code, (main_loop env cfg st script).2 = LoopResult.exited code →
      code = 1 ∧ ∃ msg, Event.error msg ∈ (main_loop env cfg st script).1) ∧
    ((∀ code, (main_loop env cfg st script).2 ≠ LoopResult.exited code) →
      ∀ msg, Event.error msg ∉ (main_loop env cfg st script).1) ∧
    (∀ stf why, (main_loop env cfg st script).2 = LoopResult.returned stf why →
      (∃ r i, Event.av_read_frame r i ∈ (main_loop env cfg st script).1 ∧ r < 0) ∨
      ∃ inp ∈ script, ∃ ev ∈ inp.xevents, is_quit cfg.WM_DELETE_WINDOW ev = true) ∧
    (∀ stf, (main_loop env cfg st script).2 = LoopResult.pending stf →
      (∀ inp ∈ script, ∀ ev ∈ inp.xevents, is_quit cfg.WM_DELETE_WINDOW ev = false) ∧
      ∀ r i, Event.av_read_frame r i ∈ (main_loop env cfg st script).1 → 0 ≤ r) := by
  have hl := clean_lookup_functions env
  obtain ⟨w1, w2, w3, w4, w5⟩ :=
    while_running_outcome cfg script { st with want_new_packet := true, frameno := 0 }
  unfold main_loop
  rcases hlk : lookup_functions env with ⟨tr, r⟩
  rw [hlk] at hl
  cases r with
  | exit code =>
    obtain ⟨h1, h2⟩ := hl.1 code rfl
    refine ⟨?_, ?_, ?_, ?_⟩
    · intro c hc
      simp only [LoopResult.exited.injEq] at hc
      subst hc
      exact ⟨h1, h2⟩
    · intro hne
      exact absurd rfl (hne code)
    · intro stf why h; simp at h
    · intro stf h; simp at h
  | ret u =>
    have htr : tr = [] := by
      unfold lookup_functions at hlk
      split_ifs at hlk <;> simp [fail] at hlk
      exact hlk
    subst htr
    simp only [List.nil_append]
    refine ⟨w1, w2, ?_, w5⟩
    intro stf why h
    cases why with
    | end_of_stream => exact Or.inl (w3 stf h)
    | not_running => exact Or.inr (w4 stf hrun h)

/-- C11: for a video of positive width and height and a window of non-negative size
`sw` x `sh`, the viewport that `resize_window` sets is letterboxed inside the window: its
size `(dw, dh)` satisfies `dw <= sw` and `dh <= sh`, one of the two is an equality, its
origin is `((sw - dw) / 2, (sh - dh) / 2)` with both coordinates non-negative, and the
rectangle lies within `[0, sw] x [0, sh]`. -/
theorem viewport_letterboxed (sw sh : Int) (ctx : AVCodecContext)
    (hw : 0 < ctx.width) (hh : 0 < ctx.height) (hsw : 0 ≤ sw) (hsh : 0 ≤ sh) :
    ∃ x y dw dh, resize_window sw sh ctx = [Event.glViewport x y dw dh] ∧
      dw ≤ sw ∧ dh ≤ sh ∧ (dw = sw ∨ dh = sh) ∧
      x = Int.tdiv (sw - dw) 2 ∧ y = Int.tdiv (sh - dh) 2 ∧ 0 ≤ x ∧ 0 ≤ y ∧
      0 ≤ dw ∧ 0 ≤ dh ∧ x + dw ≤ sw ∧ y + dh ≤ sh := by
  have e1 := half_up_div (sw * ctx.height) ctx.width (mul_nonneg hsw (le_of_lt hh)) hw
  have e2 := half_up_div (sh * ctx.width) ctx.height (mul_nonneg hsh (le_of_lt hw)) hh
  have hN1 : 0 ≤ sw * ctx.height := mul_nonneg hsw (le_of_lt hh)
  have hN2 : 0 ≤ sh * ctx.width := mul_nonneg hsh (le_of_lt hw)
  have hw2 : 0 ≤ ctx.width / 2 := Int.ediv_nonneg (le_of_lt hw) (by norm_num)
  have hh2 : 0 ≤ ctx.height / 2 := Int.ediv_nonneg (le_of_lt hh) (by norm_num)
  have hd1 : 0 ≤ (sw * ctx.height + ctx.width / 2) / ctx.width :=
    Int.ediv_nonneg (by omega) (le_of_lt hw)
  have hd2 : 0 ≤ (sh * ctx.width + ctx.height / 2) / ctx.height :=
    Int.ediv_nonneg (by omega) (le_of_lt hh)
  have hcenter : ∀ s d : Int, 0 ≤ d → d ≤ s →
      0 ≤ Int.tdiv (s - d) 2 ∧ Int.tdiv (s - d) 2 + d ≤ s := by
    intro s d h0 h1
    have h3 : Int.tdiv (s - d) 2 = (s - d) / 2 := Int.tdiv_eq_ediv (by omega) (by norm_num)
    rw [h3]
    constructor <;> omega
  refine ⟨Int.tdiv (sw - (resize_dims sw sh ctx).1) 2, Int.tdiv (sh - (resize_dims sw sh ctx).2) 2,
    (resize_dims sw sh ctx).1, (resize_dims sw sh ctx).2, rfl, ?_⟩
  by_cases hgt : Int.tdiv (sw * ctx.height + Int.tdiv ctx.width 2) ctx.width > sh
  · have hd : resize_dims sw sh ctx =
        ((sh * ctx.width + ctx.height / 2) / ctx.height, sh) := by
      rw [e1] at hgt
      unfold resize_dims
      simp only [e1, e2, if_pos hgt]
    rw [hd]
    dsimp only
    rw [e1] at hgt
    -- the width computed from the window height does not exceed the window width
    have hle : (sh * ctx.width + ctx.height / 2) / ctx.height ≤ sw := by
      have h1 : (sh + 1) * ctx.width ≤ sw * ctx.height + ctx.width / 2 := by
        have := Int.ediv_mul_le (sw * ctx.height + ctx.width / 2) (ne_of_gt hw)
        have h4 : (sh + 1) * ctx.width ≤
            (sw * ctx.height + ctx.width / 2) / ctx.width * ctx.width :=
          Int.mul_le_mul_of_nonneg_right (by omega) (le_of_lt hw)
        omega
      have h2 : sh * ctx.width + ctx.height / 2 < (sw + 1) * ctx.height := by
        have : (sh + 1) * ctx.width = sh * ctx.width + ctx.width := by ring
        have : (sw + 1) * ctx.height = sw * ctx.height + ctx.height := by ring
        omega
      have h3 := (Int.ediv_lt_iff_lt_mul hh).mpr h2
      omega
    obtain ⟨c1, c2⟩ := hcenter sw _ hd2 hle
    obtain ⟨c3, c4⟩ := hcenter sh sh hsh (le_refl sh)
    exact ⟨hle, le_refl sh, Or.inr rfl, rfl, rfl, c1, c3, hd2, hsh, c2, c4⟩
  · have hd : resize_dims sw sh ctx =
        (sw, (sw * ctx.height + ctx.width / 2) / ctx.width) := by
      rw [e1] at hgt
      unfold resize_dims
      simp only [e1, if_neg hgt]
    rw [hd]
    dsimp only
    rw [e1] at hgt
    have hle : (sw * ctx.height + ctx.width / 2) / ctx.width ≤ sh := not_lt.mp hgt
    obtain ⟨c1, c2⟩ := hcenter sw sw hsw (le_refl sw)
    obtain ⟨c3, c4⟩ := hcenter sh _ hd1 hle
    exact ⟨le_refl sw, hle, Or.inl rfl, rfl, rfl, c1, c3, hsw, hd1, c2, c4⟩

/-- C11, witness: a 1000x100 window for the 1280x720 stream gets a 178x100 viewport at
(411, 0). -/
theorem viewport_letterboxed_witness :
    ((0 : Int) < sample_ctx.width ∧ (0 : Int) < sample_ctx.height ∧ (0 : Int) ≤ 1000 ∧
      (0 : Int) ≤ 100) ∧
    resize_window 1000 100 sample_ctx = [Event.glViewport 411 0 178 100] ∧
    ∃ x y dw dh, resize_window 1000 100 sample_ctx = [Event.glViewport x y dw dh] ∧
      dw ≤ 1000 ∧ dh ≤ 100 ∧ (dw = 1000 ∨ dh = 100) :=
  ⟨⟨by decide, by decide, by decide, by decide⟩, by decide,
    (viewport_letterboxed 1000 100 sample_ctx (by decide) (by decide) (by decide)
      (by decide)).elim fun x h => h.elim fun y h => h.elim fun dw h => h.elim fun dh hp =>
        ⟨x, y, dw, dh, hp.1, hp.2.1, hp.2.2.1, hp.2.2.2.1⟩⟩

theorem packet_scan_neutral_cons (held : Bool) (e : Event) (rest : List Event)
    (h : packet_neutral e = true) : packet_scan held (e :: rest) = packet_scan held rest := by
  cases e <;> simp [packet_neutral] at h <;> simp [packet_scan]

theorem packet_scan_neutral (l : List Event) :
    ∀ held : Bool, (∀ e ∈ l, packet_neutral e = true) → packet_scan held l = some held := by
  induction l with
  | nil => intro held _; rfl
  | cons e rest ih =>
    intro held h
    rw [packet_scan_neutral_cons held e rest (h e (List.mem_cons_self _ _))]
    exact ih held (fun x hx => h x (List.mem_cons_of_mem _ hx))

theorem packet_scan_append (a : List Event) :
    ∀ (held : Bool) (b : List Event),
      packet_scan held (a ++ b) = (packet_scan held a).bind (fun h => packet_scan h b) := by
  induction a with
  | nil => intro held b; rfl
  | cons e rest ih =>
    intro held b
    cases e <;> simp only [List.cons_append, packet_scan] <;>
      first
        | exact ih _ b
        | (cases held <;> simp [ih])

/-- While a packet is held, no second `av_read_frame` is allowed before an
`av_packet_unref`. -/
theorem packet_scan_read_after_read (b : List Event) (r i : Int) (c : List Event)
    (h : packet_scan true (b ++ Event.av_read_frame r i :: c) ≠ none) :
    Event.av_packet_unref ∈ b := by
  induction b with
  | nil => simp [packet_scan] at h
  | cons e rest ih =>
    cases e <;> simp only [List.cons_append, packet_scan] at h <;>
      first
        | exact List.mem_cons_self _ _
        | exact List.mem_cons_of_mem _ (ih h)
        | simp at h

/-- While no packet is held, no `av_packet_unref` is allowed before a successful
`av_read_frame`. -/
theorem packet_scan_unref_after_unref (b : List Event) (c : List Event)
    (h : packet_scan false (b ++ Event.av_packet_unref :: c) ≠ none) :
    ∃ r i, Event.av_read_frame r i ∈ b ∧ 0 ≤ r := by
  induction b with
  | nil => simp [packet_scan] at h
  | cons e rest ih =>
    cases e with
    | av_read_frame r i =>
      by_cases hr : 0 ≤ r
      · exact ⟨r, i, List.mem_cons_self _ _, hr⟩
      · simp only [List.cons_append, packet_scan, Bool.false_eq_true, if_false, hr,
          decide_False] at h
        obtain ⟨r2, i2, hm, h2⟩ := ih h
        exact ⟨r2, i2, List.mem_cons_of_mem _ hm, h2⟩
    | av_packet_unref => simp [packet_scan] at h
    | _ =>
      simp only [List.cons_append, packet_scan] at h
      obtain ⟨r2, i2, hm, h2⟩ := ih h
      exact ⟨r2, i2, List.mem_cons_of_mem _ hm, h2⟩

/-- In a list of calls that `packet_scan` accepts, an `av_packet_unref` lies between a
successful `av_read_frame` and the next one, and a successful `av_read_frame` lies
between two `av_packet_unref`. -/
theorem packet_scan_alternates (held0 : Bool) (tr : List Event)
    (h : packet_scan held0 tr ≠ none) :
    (∀ a b c r1 i1 r2 i2,
      tr = a ++ Event.av_read_frame r1 i1 :: (b ++ Event.av_read_frame r2 i2 :: c) →
      0 ≤ r1 → Event.av_packet_unref ∈ b) ∧
    (∀ a b c, tr = a ++ Event.av_packet_unref :: (b ++ Event.av_packet_unref :: c) →
      ∃ r i, Event.av_read_frame r i ∈ b ∧ 0 ≤ r) := by
  constructor
  · intro a b c r1 i1 r2 i2 htr hr
    rw [htr, packet_scan_append] at h
    cases ha : packet_scan held0 a with
    | none => rw [ha] at h; simp at h
    | some h1 =>
      rw [ha] at h
      cases h1 with
      | true => simp [packet_scan] at h
      | false =>
        simp only [Option.some_bind, packet_scan, Bool.false_eq_true, if_false, hr,
          decide_True] at h
        exact packet_scan_read_after_read b r2 i2 c h
  · intro a b c htr
    rw [htr, packet_scan_append] at h
    cases ha : packet_scan held0 a with
    | none => rw [ha] at h; simp at h
    | some h1 =>
      rw [ha] at h
      cases h1 with
      | false => simp [packet_scan] at h
      | true =>
        simp only [Option.some_bind, packet_scan, if_true] at h
        exact packet_scan_unref_after_unref b c h

/-- Lines 419-500 read no packet and release none. -/
theorem decode_frame_neutral (cfg : LoopConfig) (st : LoopState) (inp : IterInput) :
    ∀ e ∈ (decode_frame cfg st inp).1, packet_neutral e = true := by
  intro e he
  rcases decode_frame_mem cfg st inp e he with h | h | h | h | h
  · rw [h]; rfl
  · rw [h]; rfl
  · rw [h]; rfl
  · obtain ⟨msg, h⟩ := h
    rw [h]; rfl
  · have hp := present_frame_mem cfg _ inp _ _ h
    rcases hp with h | h | h | h | ⟨i, h⟩ | ⟨t, h⟩ | ⟨img, err, h⟩ | ⟨fd, h⟩ | h | ⟨err, h⟩ |
      h | ⟨img, h⟩ | ⟨msg, h⟩ <;> rw [h] <;> rfl

/-- Lines 419-500 leave `packet_valid` as it is. -/
theorem decode_frame_packet_valid (cfg : LoopConfig) (st : LoopState) (inp : IterInput)
    (e : IterEnd) (h : (decode_frame cfg st inp).2 = Ctl.ret e) :
    e.state.packet_valid = st.packet_valid := by
  rcases decode_frame_cases cfg st inp with d | d | d | d | d
  · rw [d.2] at h
    simp only [Ctl.ret.injEq] at h
    subst h
    rfl
  · rw [d.2] at h; simp at h
  · rw [d.2] at h; simp at h
  · rw [d.2] at h; simp at h
  · rw [d.2] at h
    simp only [andThen_snd] at h
    obtain ⟨rest, -, -, hret⟩ :=
      present_frame_head cfg { st with frameno := wrapInt32 (st.frameno + 1) } inp (inp.data3 % 2 ^ 32)
    have := hret e h
    subst this
    unfold set_scale
    split <;> rfl

/-- The head of a pass releases the packet of the previous pass, if there is one, and
reads none. -/
theorem begin_pass_scan (cfg : LoopConfig) (st : LoopState) (inp : IterInput) :
    packet_scan st.packet_valid (begin_pass cfg st inp).1 = some false := by
  have hv : ∀ e ∈ (handle_x11_events cfg.WM_DELETE_WINDOW st.running st.decoder_ctx
      inp.xevents).1, packet_neutral e = true := by
    intro e he
    obtain ⟨x, y, w, h, rfl⟩ := handle_x11_events_trace _ _ _ _ e he
    rfl
  unfold begin_pass
  simp only
  rw [packet_scan_append, packet_scan_neutral _ _ hv]
  cases st.packet_valid <;> simp [packet_scan]

/-- One pass of the loop keeps the packet bookkeeping: its calls are accepted by
`packet_scan` started from `packet_valid`, and if the pass does not exit, `packet_valid`
afterwards says whether a packet is held. -/
theorem loop_body_scan (cfg : LoopConfig) (st : LoopState) (inp : IterInput) :
    ∃ held, packet_scan st.packet_valid (loop_body cfg st inp).1 = some held ∧
      ∀ e, (loop_body cfg st inp).2 = Ctl.ret e → e.state.packet_valid = held := by
  have hb := begin_pass_scan cfg st inp
  rcases loop_body_cases cfg st inp with c | c | c | c | c
  · refine ⟨false, ?_, ?_⟩
    · rw [c.2]
      simp only
      rw [packet_scan_append, hb]
      simp [packet_scan, c.1.2]
    · intro e he
      rw [c.2] at he
      simp only [Ctl.ret.injEq] at he
      subst he
      rfl
  · refine ⟨true, ?_, ?_⟩
    · rw [c.2]
      simp only
      rw [packet_scan_append, hb]
      simp [packet_scan, c.1.2.1]
    · intro e he
      rw [c.2] at he
      simp only [Ctl.ret.injEq] at he
      subst he
      rfl
  · refine ⟨true, ?_, ?_⟩
    · rw [c.2]
      simp only
      rw [packet_scan_append, hb]
      simp [packet_scan, c.1.2.1]
    · intro e he
      rw [c.2] at he
      simp at he
  · refine ⟨true, ?_, ?_⟩
    · rw [c.2]
      simp only [andThen_fst]
      rw [packet_scan_append, packet_scan_append, hb]
      simp only [Option.some_bind, packet_scan, Bool.false_eq_true, if_false, c.1.2.1,
        decide_True]
      exact packet_scan_neutral _ _ (decode_frame_neutral _ _ _)
    · intro e he
      rw [c.2] at he
      simp only [andThen_snd] at he
      exact decode_frame_packet_valid _ _ _ e he
  · refine ⟨false, ?_, ?_⟩
    · rw [c.2]
      simp only [andThen_fst]
      rw [packet_scan_append, hb]
      simp only [Option.some_bind]
      exact packet_scan_neutral _ _ (decode_frame_neutral _ _ _)
    · intro e he
      rw [c.2] at he
      simp only [andThen_snd] at he
      exact decode_frame_packet_valid _ _ _ e he

/-- A run of the loop keeps the packet bookkeeping. -/
theorem while_running_scan (cfg : LoopConfig) (script : List IterInput) :
    ∀ st : LoopState,
      ∃ held, packet_scan st.packet_valid (while_running cfg st script).1 = some held ∧
        ∀ stf, (while_running cfg st script).2.final_state = some stf →
          stf.packet_valid = held := by
  induction script with
  | nil =>
    intro st
    cases hr : st.running
    · rw [while_running_stopped cfg st [] hr]
      exact ⟨st.packet_valid, rfl, by simp [LoopResult.final_state]⟩
    · rw [while_running_nil cfg st hr]
      exact ⟨st.packet_valid, rfl, by simp [LoopResult.final_state]⟩
  | cons inp rest ih =>
    intro st
    cases hr : st.running
    · rw [while_running_stopped cfg st _ hr]
      exact ⟨st.packet_valid, rfl, by simp [LoopResult.final_state]⟩
    · obtain ⟨held, hs, hst⟩ := loop_body_scan cfg st inp
      rcases hb : loop_body cfg st inp with ⟨tr, r⟩
      rw [hb] at hs hst
      cases r with
      | exit code =>
        rw [while_running_exit cfg st inp rest tr code hr hb]
        exact ⟨held, hs, by simp [LoopResult.final_state]⟩
      | ret e =>
        have he := hst e rfl
        cases e with
        | broke st1 =>
          rw [while_running_broke cfg st inp rest tr st1 hr hb]
          refine ⟨held, hs, ?_⟩
          intro stf hstf
          simp only [LoopResult.final_state, Option.some.injEq] at hstf
          subst hstf
          exact he
        | again st1 =>
          rw [while_running_again cfg st inp rest tr st1 hr hb]
          obtain ⟨held2, g1, g2⟩ := ih st1
          simp only [IterEnd.state] at he
          refine ⟨held2, ?_, g2⟩
          simp only
          rw [packet_scan_append, hs, Option.some_bind, ← he]
          exact g1

/-- C12: at most one packet is pending at any time in `main_loop`.  The calls of a run
are accepted by `packet_scan` started from the `packet_valid` that `main_loop` was given:
every `av_read_frame` is made while no packet is held, every `av_packet_unref` releases a
held packet, and `packet_valid` at the end says whether one is still held.  So between a
successful read and the next read there is an `av_packet_unref`, and between two
`av_packet_unref` there is a successful read: no packet is released twice.  In a pass
that reads, the read comes right after the head of the pass, where `packet_valid` is
false, and the head has released the packet of the previous pass if there was one. -/
theorem one_pending_packet (env : InitEnv) (cfg : LoopConfig) (st : LoopState)
    (script : List IterInput) :
    (∃ held, packet_scan st.packet_valid (main_loop env cfg st script).1 = some held ∧
      ∀ stf, (main_loop env cfg st script).2.final_state = some stf →
        stf.packet_valid = held) ∧
    (∀ a b c r1 i1 r2 i2,
      (main_loop env cfg st script).1 =
        a ++ Event.av_read_frame r1 i1 :: (b ++ Event.av_read_frame r2 i2 :: c) →
      0 ≤ r1 → Event.av_packet_unref ∈ b) ∧
    (∀ a b c,
      (main_loop env cfg st script).1 =
        a ++ Event.av_packet_unref :: (b ++ Event.av_packet_unref :: c) →
      ∃ r i, Event.av_read_frame r i ∈ b ∧ 0 ≤ r) ∧
    (∀ (st0 : LoopState) (inp : IterInput) (r i : Int),
      Event.av_read_frame r i ∈ (loop_body cfg st0 inp).1 →
      (begin_pass cfg st0 inp).2.packet_valid = false ∧
      (∃ rest, (loop_body cfg st0 inp).1 =
        (begin_pass cfg st0 inp).1 ++ Event.av_read_frame r i :: rest) ∧
      (∀ r2 i2, Event.av_read_frame r2 i2 ∉ (begin_pass cfg st0 inp).1) ∧
      (st0.packet_valid = true → Event.av_packet_unref ∈ (begin_pass cfg st0 inp).1)) := by
  have hscan : ∃ held, packet_scan st.packet_valid (main_loop env cfg st script).1 = some held ∧
      ∀ stf, (main_loop env cfg st script).2.final_state = some stf →
        stf.packet_valid = held := by
    obtain ⟨held, g1, g2⟩ :=
      while_running_scan cfg script { st with want_new_packet := true, frameno := 0 }
    unfold main_loop
    rcases hl : lookup_functions env with ⟨tr, r⟩
    cases r with
    | exit code =>
      have htr : ∃ msg, tr = [Event.error msg] := by
        unfold lookup_functions at hl
        split_ifs at hl <;> simp [fail] at hl <;> exact ⟨_, hl.1.symm⟩
      obtain ⟨msg, rfl⟩ := htr
      exact ⟨st.packet_valid, rfl, by simp [LoopResult.final_state]⟩
    | ret u =>
      have htr : tr = [] := by
        unfold lookup_functions at hl
        split_ifs at hl <;> simp [fail] at hl
        exact hl
      subst htr
      exact ⟨held, g1, g2⟩
  have hne : packet_scan st.packet_valid (main_loop env cfg st script).1 ≠ none := by
    obtain ⟨held, h, -⟩ := hscan
    rw [h]
    simp
  obtain ⟨alt1, alt2⟩ := packet_scan_alternates _ _ hne
  refine ⟨hscan, alt1, alt2, ?_⟩
  intro st0 inp r i hmem
  have hb := begin_pass_only cfg st0 inp
  have hdec : ∀ stx : LoopState, Event.av_read_frame r i ∉ (decode_frame cfg stx inp).1 := by
    intro stx h
    have := decode_frame_neutral cfg stx inp _ h
    simp [packet_neutral] at this
  have hunref : st0.packet_valid = true → Event.av_packet_unref ∈ (begin_pass cfg st0 inp).1 := by
    intro hv
    simp [begin_pass, hv]
  refine ⟨rfl, ?_, fun r2 i2 => hb _ (by simp) (by simp), hunref⟩
  rcases loop_body_cases cfg st0 inp with c | c | c | c | c
  · rw [c.2] at hmem ⊢
    simp [hb] at hmem
    rw [hmem.1, hmem.2]
    exact ⟨[], rfl⟩
  · rw [c.2] at hmem ⊢
    simp [hb] at hmem
    rw [hmem.1, hmem.2]
    exact ⟨[], rfl⟩
  · rw [c.2] at hmem ⊢
    simp [hb] at hmem
    rw [hmem.1, hmem.2]
    exact ⟨_, rfl⟩
  · rw [c.2] at hmem ⊢
    simp [hb, hdec] at hmem
    rw [hmem.1, hmem.2]
    refine ⟨Event.avcodec_send_packet inp.send_ret :: (decode_frame cfg
      { (begin_pass cfg st0 inp).2 with packet_valid := true, want_new_packet := false }
      inp).1, ?_⟩
    simp
  · rw [c.2] at hmem
    simp [hb, hdec] at hmem

/-- C12, witness: two passes that each read a packet of another stream; the packet of
the first pass is released before the second read. -/
theorem one_pending_packet_witness :
    (main_loop sample_env sample_cfg (initial_state sample_ctx)
      [{ sample_input with stream_index := 1 }, { sample_input with stream_index := 1 }]).1 =
      [] ++ Event.av_read_frame 0 1 :: ([Event.av_packet_unref] ++
        Event.av_read_frame 0 1 :: []) ∧
    Event.av_packet_unref ∈ [Event.av_packet_unref] :=
  ⟨by decide,
    (one_pending_packet sample_env sample_cfg (initial_state sample_ctx)
      [{ sample_input with stream_index := 1 }, { sample_input with stream_index := 1 }]).2.1
      [] [Event.av_packet_unref] [] 0 1 0 1 (by decide) (by decide)⟩

end VaapiEgl
